import Mathlib

/-!
# HoudiniEngineForUnreal v2: marshalling layer

A shallow embedding of the translation functions of
`Source/HoudiniEngine/Private/HoudiniEngineUtils.cpp` and
`Source/HoudiniEngine/Private/UnrealLandscapeTranslator.cpp`, and the
properties of them that the specification states.

Conventions of the embedding:
* `TArray<T>` is `List T`; `A.IsValidIndex(i)` for a non-negative `i` is
  `i < A.length`; `A[i] = v` is `A.set i v`; a read `A[i]` made under an
  `IsValidIndex` guard is `A.getD i default`.
* `int32` loop counters and array lengths are natural numbers (a `TArray`
  holds fewer than `2^31` elements, the index arithmetic on them is taken
  without wrap-around); `int32` data values are `Int`.
* `float` and `double` values are rationals: the arithmetic is exact.
* Calls into the engine API are explicit parameters giving the engine's reply.
* An element write `A[i] = v` that the code makes without a guard is
  `setChecked`: a call ends as an `Outcome`, which is a result, a failed range
  check of `TArray::operator[]`, or an exhausted iteration budget of a
  `while` loop.
* The heightfield export records the engine calls that it issues, in order,
  each with its status; the engine's replies may depend on the calls so far.
  The mesh export records its geometry calls in the same way.
* What the host answers (landscape data, layers, materials, components, new
  socket objects) is part of the input.
-/

namespace HoudiniEngine

/-! ## Definitions -/

/-! ### Group / vertex-list builder -/

/-- Group domain of the engine API (`HAPI_GroupType`). -/
inductive HAPI_GroupType where
  | HAPI_GROUPTYPE_POINT
  | HAPI_GROUPTYPE_PRIM
  deriving DecidableEq, Repr

/-- The fields of `HAPI_PartInfo` that the marshalling code reads. -/
structure HAPI_PartInfo where
  id : Int
  faceCount : Int
  vertexCount : Int
  pointCount : Int
  isInstanced : Bool
  attributeCounts : List Int := []
  deriving DecidableEq, Repr

/-- Reply of the engine to a group-membership query for
`(GeoId, PartId, GroupType, GroupName, Length)`: `none` is a non-success
status, `some (allEquals, values)` is success, `values i` being the value
written to slot `i` of the caller's buffer. -/
abbrev MembershipQuery :=
  Int → Int → HAPI_GroupType → String → Nat → Option (Bool × (Nat → Int))

/-- The two membership entry points of the engine API. -/
structure GroupSession where
  GetGroupMembership : MembershipQuery
  GetGroupMembershipOnPackedInstancePart : MembershipQuery

/-- Out-parameters and return value of `HapiGetGroupMembership`. -/
structure GroupMembershipResult where
  ok : Bool
  OutGroupMembership : List Int
  OutAllEquals : Bool
  deriving DecidableEq, Repr

/-- Function `FHoudiniEngineUtils::HapiGetGroupMembership`. `OutGroupMembership0` and
`OutAllEquals0` are the caller's values of the out-parameters before the
call. -/
def HapiGetGroupMembership (S : GroupSession) (GeoId : Int) (PartInfo : HAPI_PartInfo)
    (GroupType : HAPI_GroupType) (GroupName : String)
    (OutGroupMembership0 : List Int) (OutAllEquals0 : Bool) : GroupMembershipResult :=
  let ElementCount : Int :=
    if GroupType = HAPI_GroupType.HAPI_GROUPTYPE_POINT then PartInfo.pointCount
    else PartInfo.faceCount
  if ElementCount < 1 then
    { ok := false, OutGroupMembership := OutGroupMembership0, OutAllEquals := OutAllEquals0 }
  else
    -- OutGroupMembership.SetNum(ElementCount): kept prefix, zero-filled tail
    let n := ElementCount.toNat
    let buffer : List Int :=
      OutGroupMembership0.take n ++ List.replicate (n - OutGroupMembership0.length) 0
    let query : MembershipQuery :=
      if PartInfo.isInstanced then S.GetGroupMembershipOnPackedInstancePart
      else S.GetGroupMembership
    match query GeoId PartInfo.id GroupType GroupName n with
    | none => { ok := false, OutGroupMembership := buffer, OutAllEquals := false }
    | some (allEquals, values) =>
      { ok := true, OutGroupMembership := (List.range n).map values, OutAllEquals := allEquals }

/-- Out-parameters, local counter and return value of
`HapiGetVertexListForGroup`. -/
structure VertexListState where
  NewVertexList : List Int
  AllVertexList : List Int
  AllFaceList : List Int
  AllGroupFaceIndices : List Int
  FirstValidVertex : Int
  FirstValidPrim : Int
  ProcessedWedges : Int
  deriving DecidableEq, Repr

/-- Body of the primitive loop of `HapiGetVertexListForGroup` for a face that
is a member of the group. -/
def groupFaceBody (FullVertexList : List Int) (FaceIdx : Nat) (st : VertexListState) :
    VertexListState :=
  let AllFaceList := st.AllFaceList ++ [(FaceIdx : Int)]
  let FirstVertexIdx := FaceIdx * 3
  let SecondVertexIdx := FirstVertexIdx + 1
  let LastVertexIdx := FirstVertexIdx + 2
  let NewVertexList :=
    if LastVertexIdx < FullVertexList.length then
      ((st.NewVertexList.set FirstVertexIdx (FullVertexList.getD FirstVertexIdx 0)).set
        SecondVertexIdx (FullVertexList.getD SecondVertexIdx 0)).set
        LastVertexIdx (FullVertexList.getD LastVertexIdx 0)
    else st.NewVertexList
  let AllVertexList :=
    if LastVertexIdx < st.AllVertexList.length then
      ((st.AllVertexList.set FirstVertexIdx 1).set SecondVertexIdx 1).set LastVertexIdx 1
    else st.AllVertexList
  let AllGroupFaceIndices :=
    if FaceIdx < st.AllGroupFaceIndices.length then st.AllGroupFaceIndices.set FaceIdx 1
    else st.AllGroupFaceIndices
  let first := decide (st.ProcessedWedges = 0)
  { NewVertexList := NewVertexList
    AllVertexList := AllVertexList
    AllFaceList := AllFaceList
    AllGroupFaceIndices := AllGroupFaceIndices
    FirstValidVertex := if first then (FirstVertexIdx : Int) else st.FirstValidVertex
    FirstValidPrim := if first then (FaceIdx : Int) else st.FirstValidPrim
    ProcessedWedges := st.ProcessedWedges + 3 }

/-- The loop `for (FaceIdx = ...; FaceIdx < PartGroupMembership.Num(); ++FaceIdx)`
of `HapiGetVertexListForGroup`, from index `FaceIdx` on; the list is the part
of `PartGroupMembership` not visited yet. -/
def groupFaceLoop (FullVertexList : List Int) :
    Nat → List Int → VertexListState → VertexListState
  | _, [], st => st
  | FaceIdx, m :: rest, st =>
    groupFaceLoop FullVertexList (FaceIdx + 1) rest
      (if m ≤ 0 then st else groupFaceBody FullVertexList FaceIdx st)

/-- Function `FHoudiniEngineUtils::HapiGetVertexListForGroup`. `AllVertexList0` and
`AllGroupFaceIndices0` are the caller's arrays; the returned
`ProcessedWedges` is the function's return value (`return false` is 0). -/
def HapiGetVertexListForGroup (S : GroupSession) (GeoId : Int) (PartInfo : HAPI_PartInfo)
    (GroupName : String) (FullVertexList : List Int)
    (AllVertexList0 AllGroupFaceIndices0 : List Int) : VertexListState :=
  let init : VertexListState :=
    { NewVertexList := List.replicate FullVertexList.length (-1)
      AllVertexList := AllVertexList0
      AllFaceList := []
      AllGroupFaceIndices := AllGroupFaceIndices0
      FirstValidVertex := 0
      FirstValidPrim := 0
      ProcessedWedges := 0 }
  let r := HapiGetGroupMembership S GeoId PartInfo HAPI_GroupType.HAPI_GROUPTYPE_PRIM
    GroupName [] false
  if !r.ok then init
  else groupFaceLoop FullVertexList 0 r.OutGroupMembership init

/-- The indices of the member primitives (membership `> 0`) of a membership
list whose first entry belongs to primitive `FaceIdx`, in ascending order. -/
def memberFaces : Nat → List Int → List Int
  | _, [] => []
  | FaceIdx, m :: rest =>
    if m ≤ 0 then memberFaces (FaceIdx + 1) rest
    else (FaceIdx : Int) :: memberFaces (FaceIdx + 1) rest

/-! ### Host and engine math types -/

/-- Host vector `FVector`. -/
structure FVector where
  X : ℚ
  Y : ℚ
  Z : ℚ
  deriving DecidableEq, Repr

/-- Constant `FVector::ZeroVector`. -/
def FVector.ZeroVector : FVector := ⟨0, 0, 0⟩

/-- Constant `FVector::OneVector`. -/
def FVector.OneVector : FVector := ⟨1, 1, 1⟩

/-- Constant `FVector::UpVector`. -/
def FVector.UpVector : FVector := ⟨0, 0, 1⟩

/-- Host quaternion `FQuat`, constructed as `FQuat(X, Y, Z, W)`. -/
structure FQuat where
  X : ℚ
  Y : ℚ
  Z : ℚ
  W : ℚ
  deriving DecidableEq, Repr

/-- Constant `FQuat::Identity`. -/
def FQuat.Identity : FQuat := ⟨0, 0, 0, 1⟩

/-- Host transform `FTransform`; `SetComponents(Rotation, Translation,
Scale3D)` is the constructor, the getters are the projections. -/
structure FTransform where
  Rotation : FQuat
  Translation : FVector
  Scale3D : FVector
  deriving DecidableEq, Repr

/-- Host colour `FLinearColor`. -/
structure FLinearColor where
  R : ℚ
  G : ℚ
  B : ℚ
  A : ℚ
  deriving DecidableEq, Repr

/-- Transform order of the engine API (`HAPI_RSTOrder`); the first
constructor is the zero value. -/
inductive HAPI_RSTOrder where
  | HAPI_TRS
  | HAPI_TSR
  | HAPI_RTS
  | HAPI_RST
  | HAPI_STR
  | HAPI_SRT
  deriving DecidableEq, Repr

/-- Engine transform `HAPI_Transform`: the arrays `position[3]`,
`rotationQuaternion[4]`, `scale[3]`, `shear[3]` are tuples in index order. -/
structure HAPI_Transform where
  position : ℚ × ℚ × ℚ
  rotationQuaternion : ℚ × ℚ × ℚ × ℚ
  scale : ℚ × ℚ × ℚ
  shear : ℚ × ℚ × ℚ
  rstOrder : HAPI_RSTOrder
  deriving DecidableEq, Repr

/-! ### Transform converter -/

/-- Function `FHoudiniEngineUtils::TranslateHapiTransform(const HAPI_Transform &,
FTransform &)`. `bConvert` is `HAPI_UNREAL_CONVERT_COORDINATE_SYSTEM` and
`ScaleFactor` is `HAPI_UNREAL_SCALE_FACTOR_TRANSLATION`, both defined in a
header outside the two source files. -/
def TranslateHapiTransform (bConvert : Bool) (ScaleFactor : ℚ)
    (HapiTransform : HAPI_Transform) : FTransform :=
  let q := HapiTransform.rotationQuaternion
  let p := HapiTransform.position
  let s := HapiTransform.scale
  if bConvert then
    -- Swap Y/Z, invert W
    let ObjectRotation : FQuat := ⟨q.1, q.2.2.1, q.2.1, -q.2.2.2⟩
    -- Swap Y/Z and scale
    let ObjectTranslation : FVector := ⟨p.1, p.2.2, p.2.1⟩
    let ObjectTranslation : FVector :=
      ⟨ObjectTranslation.X * ScaleFactor, ObjectTranslation.Y * ScaleFactor,
        ObjectTranslation.Z * ScaleFactor⟩
    -- Swap Y/Z
    let ObjectScale3D : FVector := ⟨s.1, s.2.2, s.2.1⟩
    -- Swap(ObjectScale3D.Y, ObjectScale3D.Z)
    let ObjectScale3D : FVector := ⟨ObjectScale3D.X, ObjectScale3D.Z, ObjectScale3D.Y⟩
    { Rotation := ObjectRotation, Translation := ObjectTranslation, Scale3D := ObjectScale3D }
  else
    let ObjectRotation : FQuat := ⟨q.1, q.2.1, q.2.2.1, q.2.2.2⟩
    let ObjectTranslation : FVector := ⟨p.1, p.2.1, p.2.2⟩
    let ObjectTranslation : FVector :=
      ⟨ObjectTranslation.X * ScaleFactor, ObjectTranslation.Y * ScaleFactor,
        ObjectTranslation.Z * ScaleFactor⟩
    let ObjectScale3D : FVector := ⟨s.1, s.2.1, s.2.2⟩
    { Rotation := ObjectRotation, Translation := ObjectTranslation, Scale3D := ObjectScale3D }

/-- Function `FHoudiniEngineUtils::TranslateUnrealTransform(const FTransform &,
HAPI_Transform &)`; the out-parameter is zeroed first, so the result does not
depend on its previous value. -/
def TranslateUnrealTransform (bConvert : Bool) (ScaleFactor : ℚ)
    (UnrealTransform : FTransform) : HAPI_Transform :=
  let UnrealRotation := UnrealTransform.Rotation
  let UnrealTranslation := UnrealTransform.Translation
  let UnrealScale := UnrealTransform.Scale3D
  if bConvert then
    { rotationQuaternion :=
        (-UnrealRotation.X, -UnrealRotation.Z, -UnrealRotation.Y, UnrealRotation.W)
      position :=
        (UnrealTranslation.X / ScaleFactor, UnrealTranslation.Z / ScaleFactor,
          UnrealTranslation.Y / ScaleFactor)
      scale := (UnrealScale.X, UnrealScale.Z, UnrealScale.Y)
      shear := (0, 0, 0)
      rstOrder := HAPI_RSTOrder.HAPI_SRT }
  else
    { rotationQuaternion :=
        (UnrealRotation.X, UnrealRotation.Y, UnrealRotation.Z, UnrealRotation.W)
      position := (UnrealTranslation.X, UnrealTranslation.Y, UnrealTranslation.Z)
      scale := (UnrealScale.X, UnrealScale.Y, UnrealScale.Z)
      shear := (0, 0, 0)
      rstOrder := HAPI_RSTOrder.HAPI_SRT }

/-- Component-wise negation of a quaternion (`-q` denotes the same rotation
as `q`). -/
def FQuat.neg (q : FQuat) : FQuat := ⟨-q.X, -q.Y, -q.Z, -q.W⟩

/-! ### Heightfield codecs -/

/-- Volume kind of the engine API (`HAPI_VolumeType`). -/
inductive HAPI_VolumeType where
  | HAPI_VOLUMETYPE_INVALID
  | HAPI_VOLUMETYPE_HOUDINI
  | HAPI_VOLUMETYPE_VDB
  deriving DecidableEq, Repr

/-- Storage kind of the engine API (`HAPI_StorageType`), as far as the
codecs use it. -/
inductive HAPI_StorageType where
  | HAPI_STORAGETYPE_INVALID
  | HAPI_STORAGETYPE_INT
  | HAPI_STORAGETYPE_INT64
  | HAPI_STORAGETYPE_FLOAT
  | HAPI_STORAGETYPE_FLOAT64
  | HAPI_STORAGETYPE_STRING
  deriving DecidableEq, Repr

/-- The fields of `HAPI_VolumeInfo` that the codecs write. -/
structure HAPI_VolumeInfo where
  xLength : Int
  yLength : Int
  zLength : Int
  minX : Int
  minY : Int
  minZ : Int
  transform : HAPI_Transform
  type : HAPI_VolumeType
  storage : HAPI_StorageType
  tupleSize : Int
  tileSize : Int
  hasTaper : Bool
  xTaper : ℚ
  yTaper : ℚ
  deriving DecidableEq, Repr

/-- The pair of nested loops shared by both codecs,
`for nY < HoudiniYSize: for nX < HoudiniXSize: Out[nX + nY * HoudiniXSize] =
decode(In[nY + nX * XSize])`. -/
def convertLoop (decode : Nat → ℚ) (IntHeightData : List Nat)
    (XSize HoudiniXSize HoudiniYSize : Nat) (Out : List ℚ) : List ℚ :=
  (List.range HoudiniYSize).foldl
    (fun out nY =>
      (List.range HoudiniXSize).foldl
        (fun out nX =>
          let nHoudini := nX + nY * HoudiniXSize
          let nUnreal := nY + nX * XSize
          out.set nHoudini (decode (IntHeightData.getD nUnreal 0)))
        out)
    Out

/-- The `(nHoudini, nUnreal)` index pairs of `convertLoop`, in the order in
which the loop visits them. -/
def convertLoopIndices (XSize HoudiniXSize HoudiniYSize : Nat) : List (Nat × Nat) :=
  (List.range HoudiniYSize).flatMap fun nY =>
    (List.range HoudiniXSize).map fun nX => (nX + nY * HoudiniXSize, nY + nX * XSize)

/-- Local `ZSpacing` of `ConvertLandscapeDataToHeightfieldData`
(`UINT16_MAX` is 65535). -/
def ZSpacing (LandscapeTransform : FTransform) : ℚ :=
  512 / 65535 * (LandscapeTransform.Scale3D.Z / 100)

/-- Local `ZCenterOffset` of `ConvertLandscapeDataToHeightfieldData`. -/
def ZCenterOffset : ℚ := 32767

/-- Local `ZPositionOffset` of `ConvertLandscapeDataToHeightfieldData`. -/
def ZPositionOffset (LandscapeTransform : FTransform) : ℚ :=
  LandscapeTransform.Translation.Z / 100

/-- The value `DoubleValue` that the height codec stores for the sample
`s`. -/
def heightValue (LandscapeTransform : FTransform) (s : Nat) : ℚ :=
  ((s : ℚ) - ZCenterOffset) * ZSpacing LandscapeTransform + ZPositionOffset LandscapeTransform

/-- Out-parameters of `ConvertLandscapeDataToHeightfieldData` on success. -/
structure HeightfieldData where
  HeightfieldFloatValues : List ℚ
  HeightfieldVolumeInfo : HAPI_VolumeInfo
  CenterOffset : FVector
  deriving DecidableEq, Repr

/-- Function `FUnrealLandscapeTranslator::ConvertLandscapeDataToHeightfieldData`;
`none` is `return false`. `bUseDefaultUE4Scaling` is the runtime setting
`MarshallingLandscapesUseDefaultUnrealScaling`, `TransformInit` is the value
left by `FHoudiniApi::Transform_Init`, `VolumeInfo0` the caller's volume
info. `SetNumUninitialized` is modelled as zero-filling. -/
def ConvertLandscapeDataToHeightfieldData (bUseDefaultUE4Scaling : Bool)
    (TransformInit : HAPI_Transform) (IntHeightData : List Nat) (XSize YSize : Int)
    (Min Max : FVector) (LandscapeTransform : FTransform) (VolumeInfo0 : HAPI_VolumeInfo) :
    Option HeightfieldData :=
  let HoudiniXSize := YSize
  let HoudiniYSize := XSize
  let SizeInPoints := HoudiniXSize * HoudiniYSize
  if HoudiniXSize < 2 ∨ HoudiniYSize < 2 then none
  else if (IntHeightData.length : Int) ≠ SizeInPoints then none
  else
    let Min : FVector := ⟨Min.X / 100, Min.Y / 100, Min.Z / 100⟩
    let Max : FVector := ⟨Max.X / 100, Max.Y / 100, Max.Z / 100⟩
    let values := convertLoop (heightValue LandscapeTransform) IntHeightData
      XSize.toNat HoudiniXSize.toNat HoudiniYSize.toNat
      (List.replicate SizeInPoints.toNat 0)
    let Rotation := LandscapeTransform.Rotation
    let CenterOffset : FVector :=
      ⟨(Max.X - Min.X) * (1 / 2), (Max.Y - Min.Y) * (1 / 2), (Max.Z - Min.Z) * (1 / 2)⟩
    let Scale : FVector :=
      ⟨LandscapeTransform.Scale3D.X / 100, LandscapeTransform.Scale3D.Y / 100,
        LandscapeTransform.Scale3D.Z / 100⟩
    let scale2 : ℚ := 1 / 2
    let HapiTransform : HAPI_Transform :=
      { TransformInit with
        rotationQuaternion :=
          if Rotation ≠ FQuat.Identity then (Rotation.X, Rotation.Z, Rotation.Y, -Rotation.W)
          else (0, 0, 0, 1)
        position := (0, 0, 0)
        scale := (Scale.X * (1 / 2) * HoudiniXSize, Scale.Y * (1 / 2) * HoudiniYSize,
          if bUseDefaultUE4Scaling then scale2 * Scale.Z else scale2)
        shear := (0, 0, 0) }
    some
      { HeightfieldFloatValues := values
        HeightfieldVolumeInfo :=
          { VolumeInfo0 with
            xLength := HoudiniXSize
            yLength := HoudiniYSize
            zLength := 1
            minX := 0
            minY := 0
            minZ := 0
            transform := HapiTransform
            type := HAPI_VolumeType.HAPI_VOLUMETYPE_HOUDINI
            storage := HAPI_StorageType.HAPI_STORAGETYPE_FLOAT
            tupleSize := 1
            tileSize := 1
            hasTaper := false
            xTaper := 0
            yTaper := 0 }
        CenterOffset := CenterOffset }

/-- The conversion parameters that `ConvertLandscapeLayerDataToHeightfieldData`
computes before its conversion loop. -/
structure LayerCodec where
  IntMin : Nat
  IntMax : Nat
  DigitRange : ℚ
  LayerMin : ℚ
  LayerMax : ℚ
  LayerSpacing : ℚ
  deriving DecidableEq, Repr

/-- The scan `for n < IntHeightData.Num()` that updates `IntMin` and
`IntMax`. -/
def scanMinMax (IntHeightData : List Nat) (IntMin IntMax : Nat) : Nat × Nat :=
  IntHeightData.foldl
    (fun mm x => (if x < mm.1 then x else mm.1, if x > mm.2 then x else mm.2))
    (IntMin, IntMax)

/-- The first part of `ConvertLandscapeLayerDataToHeightfieldData`: the
default `[0, 255] -> [0, 1]` parameters, replaced by the ones stored in the
debug colour when its alpha is `PI` (the host's constant `PI`, a parameter
here). `UINT8_MAX` is 255. -/
def layerCodec (PI : ℚ) (IntHeightData : List Nat) (LayerUsageDebugColor : FLinearColor) :
    LayerCodec :=
  let DigitRange : ℚ := 255
  if LayerUsageDebugColor.A = PI then
    let IntMin := IntHeightData.getD 0 0
    let IntMax := IntMin
    let mm := scanMinMax IntHeightData IntMin IntMax
    { IntMin := mm.1
      IntMax := mm.2
      DigitRange := (mm.2 : ℚ) - (mm.1 : ℚ)
      LayerMin := LayerUsageDebugColor.R
      LayerMax := LayerUsageDebugColor.G
      LayerSpacing := LayerUsageDebugColor.B }
  else
    { IntMin := 0
      IntMax := 255
      DigitRange := DigitRange
      LayerMin := 0
      LayerMax := 1
      LayerSpacing := 1 / DigitRange }

/-- The value `DoubleValue` that the layer codec stores for the sample
`s`. -/
def layerValue (c : LayerCodec) (s : Nat) : ℚ :=
  ((s : ℚ) - (c.IntMin : ℚ)) * c.LayerSpacing + c.LayerMin

/-- Out-parameters of `ConvertLandscapeLayerDataToHeightfieldData` on
success. -/
structure LayerData where
  LayerFloatValues : List ℚ
  LayerVolumeInfo : HAPI_VolumeInfo
  deriving DecidableEq, Repr

/-- Function `FUnrealLandscapeTranslator::ConvertLandscapeLayerDataToHeightfieldData`;
`none` is `return false`. `SetNumUninitialized` is modelled as
zero-filling. -/
def ConvertLandscapeLayerDataToHeightfieldData (PI : ℚ) (IntHeightData : List Nat)
    (XSize YSize : Int) (LayerUsageDebugColor : FLinearColor) (VolumeInfo0 : HAPI_VolumeInfo) :
    Option LayerData :=
  let HoudiniXSize := YSize
  let HoudiniYSize := XSize
  let SizeInPoints := HoudiniXSize * HoudiniYSize
  if HoudiniXSize < 2 ∨ HoudiniYSize < 2 then none
  else if (IntHeightData.length : Int) ≠ SizeInPoints then none
  else
    let codec := layerCodec PI IntHeightData LayerUsageDebugColor
    let values := convertLoop (layerValue codec) IntHeightData
      XSize.toNat HoudiniXSize.toNat HoudiniYSize.toNat
      (List.replicate SizeInPoints.toNat 0)
    some
      { LayerFloatValues := values
        LayerVolumeInfo :=
          { VolumeInfo0 with
            xLength := HoudiniXSize
            yLength := HoudiniYSize
            zLength := 1
            minX := 0
            minY := 0
            minZ := 0
            type := HAPI_VolumeType.HAPI_VOLUMETYPE_HOUDINI
            storage := HAPI_StorageType.HAPI_STORAGETYPE_FLOAT
            tupleSize := 1
            tileSize := 1
            hasTaper := false
            xTaper := 0
            yTaper := 0 } }

/-! ### Attribute accessor -/

/-- Attribute owner of the engine API (`HAPI_AttributeOwner`), by its integer
value; the values below are those of the engine API header. -/
abbrev HAPI_AttributeOwner := Int

/-- Constant `HAPI_ATTROWNER_INVALID`. -/
def HAPI_ATTROWNER_INVALID : HAPI_AttributeOwner := -1

/-- Constant `HAPI_ATTROWNER_VERTEX`. -/
def HAPI_ATTROWNER_VERTEX : HAPI_AttributeOwner := 0

/-- Constant `HAPI_ATTROWNER_POINT`. -/
def HAPI_ATTROWNER_POINT : HAPI_AttributeOwner := 1

/-- Constant `HAPI_ATTROWNER_PRIM`. -/
def HAPI_ATTROWNER_PRIM : HAPI_AttributeOwner := 2

/-- Constant `HAPI_ATTROWNER_DETAIL`. -/
def HAPI_ATTROWNER_DETAIL : HAPI_AttributeOwner := 3

/-- Constant `HAPI_ATTROWNER_MAX`, the number of owners. -/
def HAPI_ATTROWNER_MAX : Nat := 4

/-- The owners `(HAPI_AttributeOwner)AttrIdx` that a loop
`for (AttrIdx = 0; AttrIdx < HAPI_ATTROWNER_MAX; ++AttrIdx)` visits, in
order. -/
def allOwners : List HAPI_AttributeOwner :=
  (List.range HAPI_ATTROWNER_MAX).map fun (AttrIdx : Nat) => Int.ofNat AttrIdx

/-- The fields of `HAPI_AttributeInfo` that the marshalling code uses; the
field `exist` is the engine's `exists`. -/
structure HAPI_AttributeInfo where
  exist : Bool
  owner : HAPI_AttributeOwner
  storage : HAPI_StorageType
  originalOwner : HAPI_AttributeOwner
  count : Int
  tupleSize : Int
  deriving DecidableEq, Repr

/-- Replies of the engine to the attribute calls for `(node, part, name,
...)`: `none` is a non-success status; a data call answers with the values
that it writes to the slots of the caller's buffer. `ToFString` is
`FHoudiniEngineString::ToFString`, the text of a string handle, and
`AttributeInfo_Init` the value left by `FHoudiniApi::AttributeInfo_Init`. -/
structure AttributeSession where
  AttributeInfo_Init : HAPI_AttributeInfo
  GetPartInfo : Int → Int → Option HAPI_PartInfo
  GetAttributeNames : Int → Int → HAPI_AttributeOwner → Int → Option (Nat → Int)
  GetAttributeInfo : Int → Int → String → HAPI_AttributeOwner → Option HAPI_AttributeInfo
  GetAttributeFloatData :
    Int → Int → String → HAPI_AttributeInfo → Int → Int → Int → Option (Nat → ℚ)
  GetAttributeFloat64Data :
    Int → Int → String → HAPI_AttributeInfo → Int → Int → Int → Option (Nat → ℚ)
  GetAttributeIntData :
    Int → Int → String → HAPI_AttributeInfo → Int → Int → Int → Option (Nat → Int)
  GetAttributeInt64Data :
    Int → Int → String → HAPI_AttributeInfo → Int → Int → Int → Option (Nat → Int)
  GetAttributeStringData :
    Int → Int → String → HAPI_AttributeInfo → Int → Int → Option (Nat → Int)
  ToFString : Int → String

/-- How a call ends: it returns, it stops at the range check of
`TArray::operator[]` (`Index` is not below `Num`), or the model ran out of
loop fuel. -/
inductive Outcome (α : Type) where
  | done (a : α)
  | rangeError (Index Num : Nat)
  | outOfFuel
  deriving DecidableEq, Repr

/-- Sequencing of outcomes. -/
def Outcome.bind {α β : Type} (x : Outcome α) (f : α → Outcome β) : Outcome β :=
  match x with
  | Outcome.done a => f a
  | Outcome.rangeError i n => Outcome.rangeError i n
  | Outcome.outOfFuel => Outcome.outOfFuel

/-- Method `TArray::SetNum`: keep the first `n` elements, fill up with default
elements. -/
def SetNum {α : Type} (A : List α) (n : Nat) (dflt : α) : List α :=
  A.take n ++ List.replicate (n - A.length) dflt

/-- The assignment `A[Idx] = v` with the range check of `TArray::operator[]`. -/
def setChecked {α : Type} (A : List α) (Idx : Nat) (v : α) : Outcome (List α) :=
  if Idx < A.length then Outcome.done (A.set Idx v) else Outcome.rangeError Idx A.length

/-- Out-parameters and return value of an attribute reader; `Probed` lists
the owners for which the reader called `GetAttributeInfo`, in call order. -/
structure AttributeRead (α : Type) where
  ok : Bool
  OutAttributeInfo : HAPI_AttributeInfo
  OutData : List α
  Probed : List HAPI_AttributeOwner
  deriving DecidableEq, Repr

/-- The owner loop of the readers, over the owners not visited yet: the
owners it calls `GetAttributeInfo` for, and `none` when a call fails
(`HOUDINI_CHECK_ERROR_RETURN`), otherwise the descriptor it ends with. -/
def probeOwners (S : AttributeSession) (InGeoId InPartId : Int) (InAttribName : String) :
    List HAPI_AttributeOwner → HAPI_AttributeInfo →
      List HAPI_AttributeOwner × Option HAPI_AttributeInfo
  | [], AttributeInfo => ([], some AttributeInfo)
  | AttrIdx :: rest, _ =>
    match S.GetAttributeInfo InGeoId InPartId InAttribName AttrIdx with
    | none => ([AttrIdx], none)
    | some AttributeInfo =>
      if AttributeInfo.exist then ([AttrIdx], some AttributeInfo)
      else
        let r := probeOwners S InGeoId InPartId InAttribName rest AttributeInfo
        (AttrIdx :: r.1, r.2)

/-- The descriptor lookup shared by the three readers: the owner loop for
`HAPI_ATTROWNER_INVALID`, one `GetAttributeInfo` call otherwise. -/
def findAttributeInfo (S : AttributeSession) (InGeoId InPartId : Int) (InAttribName : String)
    (InOwner : HAPI_AttributeOwner) : List HAPI_AttributeOwner × Option HAPI_AttributeInfo :=
  if InOwner = HAPI_ATTROWNER_INVALID then
    probeOwners S InGeoId InPartId InAttribName allOwners S.AttributeInfo_Init
  else
    ([InOwner], S.GetAttributeInfo InGeoId InPartId InAttribName InOwner)

/-- Function `FHoudiniEngineUtils::HapiGetAttributeDataAsFloat`.
`OutAttributeInfo0` is the caller's descriptor before the call; `&OutData[0]`
only passes the buffer to the engine. -/
def HapiGetAttributeDataAsFloat (S : AttributeSession) (InGeoId InPartId : Int)
    (InAttribName : String) (OutAttributeInfo0 : HAPI_AttributeInfo)
    (InTupleSize : Int) (InOwner : HAPI_AttributeOwner) : AttributeRead ℚ :=
  let OutAttributeInfo := { OutAttributeInfo0 with exist := false }
  let OriginalTupleSize := InTupleSize
  let found := findAttributeInfo S InGeoId InPartId InAttribName InOwner
  match found.2 with
  | none =>
    { ok := false, OutAttributeInfo := OutAttributeInfo, OutData := [], Probed := found.1 }
  | some AttributeInfo =>
    if !AttributeInfo.exist then
      { ok := false, OutAttributeInfo := OutAttributeInfo, OutData := [], Probed := found.1 }
    else
      let AttributeInfo :=
        if OriginalTupleSize > 0 then { AttributeInfo with tupleSize := OriginalTupleSize }
        else AttributeInfo
      let n := (AttributeInfo.count * AttributeInfo.tupleSize).toNat
      match S.GetAttributeFloatData InGeoId InPartId InAttribName AttributeInfo (-1) 0
          AttributeInfo.count with
      | none =>
        { ok := false, OutAttributeInfo := OutAttributeInfo, OutData := SetNum [] n 0
          Probed := found.1 }
      | some values =>
        { ok := true, OutAttributeInfo := AttributeInfo
          OutData := (List.range n).map values, Probed := found.1 }

/-- Function `FHoudiniEngineUtils::HapiGetAttributeDataAsInteger`. -/
def HapiGetAttributeDataAsInteger (S : AttributeSession) (InGeoId InPartId : Int)
    (InAttribName : String) (OutAttributeInfo0 : HAPI_AttributeInfo)
    (InTupleSize : Int) (InOwner : HAPI_AttributeOwner) : AttributeRead Int :=
  let OutAttributeInfo := { OutAttributeInfo0 with exist := false }
  let OriginalTupleSize := InTupleSize
  let found := findAttributeInfo S InGeoId InPartId InAttribName InOwner
  match found.2 with
  | none =>
    { ok := false, OutAttributeInfo := OutAttributeInfo, OutData := [], Probed := found.1 }
  | some AttributeInfo =>
    if !AttributeInfo.exist then
      { ok := false, OutAttributeInfo := OutAttributeInfo, OutData := [], Probed := found.1 }
    else
      let AttributeInfo :=
        if OriginalTupleSize > 0 then { AttributeInfo with tupleSize := OriginalTupleSize }
        else AttributeInfo
      let n := (AttributeInfo.count * AttributeInfo.tupleSize).toNat
      match S.GetAttributeIntData InGeoId InPartId InAttribName AttributeInfo (-1) 0
          AttributeInfo.count with
      | none =>
        { ok := false, OutAttributeInfo := OutAttributeInfo, OutData := SetNum [] n 0
          Probed := found.1 }
      | some values =>
        { ok := true, OutAttributeInfo := AttributeInfo
          OutData := (List.range n).map values, Probed := found.1 }

/-- State of the handle loop of `HapiGetAttributeDataAsStringFromInfo`;
`Resolved` lists the handles passed to `ToFString`, in call order. -/
structure StringLoopState where
  OutData : List String
  StringHandleToStringMap : List (Int × String)
  Resolved : List Int
  deriving DecidableEq, Repr

/-- The loop `for (Idx = ...; Idx < StringHandles.Num(); ++Idx)` of
`HapiGetAttributeDataAsStringFromInfo`, from index `Idx` on; the list is the
part of `StringHandles` not visited yet. -/
def stringHandleLoop (ToFString : Int → String) :
    Nat → List Int → StringLoopState → Outcome StringLoopState
  | _, [], st => Outcome.done st
  | Idx, CurrentSH :: rest, st =>
    if CurrentSH < 0 then
      (setChecked st.OutData Idx "").bind fun OutData =>
        stringHandleLoop ToFString (Idx + 1) rest { st with OutData := OutData }
    else
      match st.StringHandleToStringMap.lookup CurrentSH with
      | some FoundString =>
        (setChecked st.OutData Idx FoundString).bind fun OutData =>
          stringHandleLoop ToFString (Idx + 1) rest { st with OutData := OutData }
      | none =>
        let HapiString := ToFString CurrentSH
        (setChecked st.OutData Idx HapiString).bind fun OutData =>
          stringHandleLoop ToFString (Idx + 1) rest
            { OutData := OutData
              StringHandleToStringMap := st.StringHandleToStringMap ++ [(CurrentSH, HapiString)]
              Resolved := st.Resolved ++ [CurrentSH] }

/-- Return value and out-parameter of
`HapiGetAttributeDataAsStringFromInfo`, with the handles it resolved. -/
structure StringRead where
  ok : Bool
  OutData : List String
  Resolved : List Int
  deriving DecidableEq, Repr

/-- Function `FHoudiniEngineUtils::HapiGetAttributeDataAsStringFromInfo`.
`OutData0` is the caller's array before the call; `&StringHandles[0]` only
passes the buffer to the engine. -/
def HapiGetAttributeDataAsStringFromInfo (S : AttributeSession) (InGeoId InPartId : Int)
    (InAttributeInfo : HAPI_AttributeInfo) (InAttribName : String) (OutData0 : List String) :
    Outcome StringRead :=
  if !InAttributeInfo.exist then
    Outcome.done { ok := false, OutData := OutData0, Resolved := [] }
  else
    let n := (InAttributeInfo.count * InAttributeInfo.tupleSize).toNat
    match S.GetAttributeStringData InGeoId InPartId InAttribName InAttributeInfo 0
        InAttributeInfo.count with
    | none => Outcome.done { ok := false, OutData := OutData0, Resolved := [] }
    | some values =>
      let StringHandles := (List.range n).map values
      let OutData := SetNum OutData0 InAttributeInfo.count.toNat ""
      (stringHandleLoop S.ToFString 0 StringHandles
          { OutData := OutData, StringHandleToStringMap := [], Resolved := [] }).bind fun st =>
        Outcome.done { ok := true, OutData := st.OutData, Resolved := st.Resolved }

/-- Function `FHoudiniEngineUtils::HapiGetAttributeDataAsString`. -/
def HapiGetAttributeDataAsString (S : AttributeSession) (InGeoId InPartId : Int)
    (InAttribName : String) (OutAttributeInfo0 : HAPI_AttributeInfo)
    (InTupleSize : Int) (InOwner : HAPI_AttributeOwner) : Outcome (AttributeRead String) :=
  let OutAttributeInfo := { OutAttributeInfo0 with exist := false }
  let OriginalTupleSize := InTupleSize
  let found := findAttributeInfo S InGeoId InPartId InAttribName InOwner
  match found.2 with
  | none =>
    Outcome.done
      { ok := false, OutAttributeInfo := OutAttributeInfo, OutData := [], Probed := found.1 }
  | some AttributeInfo =>
    if !AttributeInfo.exist then
      Outcome.done
        { ok := false, OutAttributeInfo := OutAttributeInfo, OutData := [], Probed := found.1 }
    else
      -- Store the retrieved attribute information.
      let OutAttributeInfo := AttributeInfo
      let AttributeInfo :=
        if OriginalTupleSize > 0 then { AttributeInfo with tupleSize := OriginalTupleSize }
        else AttributeInfo
      (HapiGetAttributeDataAsStringFromInfo S InGeoId InPartId AttributeInfo InAttribName
          []).bind fun r =>
        Outcome.done
          { ok := r.ok, OutAttributeInfo := OutAttributeInfo, OutData := r.OutData
            Probed := found.1 }

/-- Host socket record `FHoudiniMeshSocket`. -/
structure FHoudiniMeshSocket where
  Transform : FTransform
  Name : String
  Actor : String
  Tag : String
  deriving DecidableEq, Repr

/-- Method `TArray::AddUnique`: append unless an element equal to the new one, for
the element type's `operator==`, is present. -/
def AddUnique {α : Type} (eq : α → α → Bool) (A : List α) (Item : α) : List α :=
  if A.any (fun a => eq a Item) then A else A ++ [Item]

/-- The local arrays and flags that the `AddSocketToArray` lambdas capture by
reference (`Normals` and `bHasNormals` exist in the point-group strategy
only). -/
structure SocketArrays where
  Positions : List ℚ
  bHasRotation : Bool
  Rotations : List ℚ
  bHasScale : Bool
  Scales : List ℚ
  bHasNormals : Bool
  Normals : List ℚ
  bHasNames : Bool
  Names : List String
  bHasActors : Bool
  Actors : List String
  bHasTags : Bool
  Tags : List String
  deriving DecidableEq, Repr

/-- The socket `CurrentSocket` that the lambda `AddSocketToArray` of
`AddMeshSocketsToArray_DetailAttribute` has built when it reaches
`AllSockets.AddUnique`. `PositionFactor` is
`HAPI_UNREAL_SCALE_FACTOR_POSITION`; `Socket0` is a default-constructed
socket. -/
def DetailAttribute.CurrentSocket (PositionFactor : ℚ) (Socket0 : FHoudiniMeshSocket)
    (A : SocketArrays) (PointIdx : Nat) : FHoudiniMeshSocket :=
  let currentPosition : FVector :=
    if PointIdx * 3 + 2 < A.Positions.length then
      ⟨A.Positions.getD (PointIdx * 3) 0 * PositionFactor,
        A.Positions.getD (PointIdx * 3 + 2) 0 * PositionFactor,
        A.Positions.getD (PointIdx * 3 + 1) 0 * PositionFactor⟩
    else FVector.ZeroVector
  let currentScale : FVector :=
    if A.bHasScale ∧ PointIdx * 3 + 2 < A.Scales.length then
      ⟨A.Scales.getD (PointIdx * 3) 0, A.Scales.getD (PointIdx * 3 + 2) 0,
        A.Scales.getD (PointIdx * 3 + 1) 0⟩
    else FVector.OneVector
  let currentRotation : FQuat :=
    if A.bHasRotation ∧ PointIdx * 4 + 3 < A.Rotations.length then
      ⟨A.Rotations.getD (PointIdx * 4) 0, A.Rotations.getD (PointIdx * 4 + 2) 0,
        A.Rotations.getD (PointIdx * 4 + 1) 0, -A.Rotations.getD (PointIdx * 4 + 3) 0⟩
    else FQuat.Identity
  let Name :=
    if A.bHasNames ∧ PointIdx < A.Names.length then A.Names.getD PointIdx "" else Socket0.Name
  let Actor :=
    if A.bHasActors ∧ PointIdx < A.Actors.length then A.Actors.getD PointIdx ""
    else Socket0.Actor
  let Tag :=
    if A.bHasTags ∧ PointIdx < A.Tags.length then A.Tags.getD PointIdx "" else Socket0.Tag
  let currentScale :=
    if currentScale = FVector.ZeroVector then FVector.OneVector else currentScale
  { Transform :=
      { Rotation := currentRotation, Translation := currentPosition, Scale3D := currentScale }
    Name := Name
    Actor := Actor
    Tag := Tag }

/-- The lambda `AddSocketToArray` of `AddMeshSocketsToArray_DetailAttribute`,
acting on `AllSockets` and `FoundSocketCount`. `socketEq` is
`FHoudiniMeshSocket::operator==`. -/
def DetailAttribute.AddSocketToArray (PositionFactor : ℚ) (Socket0 : FHoudiniMeshSocket)
    (socketEq : FHoudiniMeshSocket → FHoudiniMeshSocket → Bool)
    (A : SocketArrays) (PointIdx : Nat) (AllSockets : List FHoudiniMeshSocket)
    (FoundSocketCount : Int) : List FHoudiniMeshSocket × Int :=
  (AddUnique socketEq AllSockets (DetailAttribute.CurrentSocket PositionFactor Socket0 A PointIdx),
    FoundSocketCount + 1)

/-- The socket `CurrentSocket` that the lambda `AddSocketToArray` of
`AddMeshSocketsToArray_Group` has built when it reaches
`AllSockets.AddUnique`. `FindBetween` is `FQuat::FindBetween`. -/
def Group.CurrentSocket (PositionFactor : ℚ) (Socket0 : FHoudiniMeshSocket)
    (FindBetween : FVector → FVector → FQuat)
    (A : SocketArrays) (PointIdx : Nat) : FHoudiniMeshSocket :=
  let currentPosition : FVector :=
    if PointIdx * 3 + 2 < A.Positions.length then
      ⟨A.Positions.getD (PointIdx * 3) 0 * PositionFactor,
        A.Positions.getD (PointIdx * 3 + 2) 0 * PositionFactor,
        A.Positions.getD (PointIdx * 3 + 1) 0 * PositionFactor⟩
    else FVector.ZeroVector
  let currentScale : FVector :=
    if A.bHasScale ∧ PointIdx * 3 + 2 < A.Scales.length then
      ⟨A.Scales.getD (PointIdx * 3) 0, A.Scales.getD (PointIdx * 3 + 2) 0,
        A.Scales.getD (PointIdx * 3 + 1) 0⟩
    else FVector.OneVector
  let currentRotation : FQuat :=
    if A.bHasRotation ∧ PointIdx * 4 + 3 < A.Rotations.length then
      ⟨A.Rotations.getD (PointIdx * 4) 0, A.Rotations.getD (PointIdx * 4 + 2) 0,
        A.Rotations.getD (PointIdx * 4 + 1) 0, -A.Rotations.getD (PointIdx * 4 + 3) 0⟩
    else if A.bHasNormals ∧ PointIdx * 3 + 2 < A.Normals.length then
      let vNormal : FVector :=
        ⟨A.Normals.getD (PointIdx * 3) 0, A.Normals.getD (PointIdx * 3 + 2) 0,
          A.Normals.getD (PointIdx * 3 + 1) 0⟩
      if vNormal ≠ FVector.ZeroVector then FindBetween FVector.UpVector vNormal
      else FQuat.Identity
    else FQuat.Identity
  let Name :=
    if A.bHasNames ∧ PointIdx < A.Names.length then A.Names.getD PointIdx "" else Socket0.Name
  let Actor :=
    if A.bHasActors ∧ PointIdx < A.Actors.length then A.Actors.getD PointIdx ""
    else Socket0.Actor
  let Tag :=
    if A.bHasTags ∧ PointIdx < A.Tags.length then A.Tags.getD PointIdx "" else Socket0.Tag
  let currentScale :=
    if currentScale = FVector.ZeroVector then FVector.OneVector else currentScale
  { Transform :=
      { Rotation := currentRotation, Translation := currentPosition, Scale3D := currentScale }
    Name := Name
    Actor := Actor
    Tag := Tag }

/-- The lambda `AddSocketToArray` of `AddMeshSocketsToArray_Group`, acting on
`AllSockets` and `FoundSocketCount`. -/
def Group.AddSocketToArray (PositionFactor : ℚ) (Socket0 : FHoudiniMeshSocket)
    (FindBetween : FVector → FVector → FQuat)
    (socketEq : FHoudiniMeshSocket → FHoudiniMeshSocket → Bool)
    (A : SocketArrays) (PointIdx : Nat) (AllSockets : List FHoudiniMeshSocket)
    (FoundSocketCount : Int) : List FHoudiniMeshSocket × Int :=
  (AddUnique socketEq AllSockets
      (Group.CurrentSocket PositionFactor Socket0 FindBetween A PointIdx),
    FoundSocketCount + 1)

/-! ### Mesh socket extractor: the two strategies -/

/-- Replies of the engine to the calls of `HapiGetGroupNames`: the point and
primitive group counts of a geometry or of a packed-instance part, and the
name handles written to the caller's buffer; `none` is a non-success
status. -/
structure GroupNamesSession where
  GetGeoInfo : Int → Option (Int × Int)
  GetGroupCountOnPackedInstancePart : Int → Int → Option (Int × Int)
  GetGroupNames : Int → HAPI_GroupType → Int → Option (Nat → Int)
  GetGroupNamesOnPackedInstancePart : Int → Int → HAPI_GroupType → Int → Option (Nat → Int)

/-- Function `FHoudiniEngineUtils::HapiGetGroupNames`: the return value and
`OutGroupNames` after the call. -/
def HapiGetGroupNames (G : GroupNamesSession) (ToFString : Int → String)
    (GeoId PartId : Int) (GroupType : HAPI_GroupType) (isPackedPrim : Bool)
    (OutGroupNames0 : List String) : Bool × List String :=
  let counts :=
    if !isPackedPrim then G.GetGeoInfo GeoId
    else G.GetGroupCountOnPackedInstancePart GeoId PartId
  match counts with
  | none => (false, OutGroupNames0)
  | some (PointGroupCount, PrimGroupCount) =>
    let GroupCount : Int :=
      match GroupType with
      | HAPI_GroupType.HAPI_GROUPTYPE_POINT => PointGroupCount
      | HAPI_GroupType.HAPI_GROUPTYPE_PRIM => PrimGroupCount
    if GroupCount ≤ 0 then (true, OutGroupNames0)
    else
      let names :=
        if !isPackedPrim then G.GetGroupNames GeoId GroupType GroupCount
        else G.GetGroupNamesOnPackedInstancePart GeoId PartId GroupType GroupCount
      match names with
      | none => (false, OutGroupNames0)
      | some values =>
        let GroupNameStringHandles := (List.range GroupCount.toNat).map values
        (true, GroupNameStringHandles.map ToFString)

/-- The constants and helpers that the socket strategies take from headers
outside the two source files: `HAPI_UNREAL_SCALE_FACTOR_POSITION`, a
default-constructed socket, `FQuat::FindBetween`, the socket's `operator==`,
the attribute and group name macros, and the default arguments `InTupleSize`
and `InOwner` of the attribute readers. -/
structure SocketConfig where
  PositionFactor : ℚ
  Socket0 : FHoudiniMeshSocket
  FindBetween : FVector → FVector → FQuat
  socketEq : FHoudiniMeshSocket → FHoudiniMeshSocket → Bool
  DefaultTupleSize : Int
  DefaultOwner : HAPI_AttributeOwner
  HAPI_UNREAL_ATTRIB_MESH_SOCKET_PREFIX : String
  HAPI_UNREAL_GROUP_SOCKET_PREFIX : String
  HAPI_UNREAL_GROUP_SOCKET_PREFIX_OLD : String
  HAPI_UNREAL_ATTRIB_POSITION : String
  HAPI_UNREAL_ATTRIB_ROTATION : String
  HAPI_UNREAL_ATTRIB_NORMAL : String
  HAPI_UNREAL_ATTRIB_SCALE : String
  HAPI_UNREAL_ATTRIB_MESH_SOCKET_NAME : String
  HAPI_UNREAL_ATTRIB_MESH_SOCKET_NAME_OLD : String
  HAPI_UNREAL_ATTRIB_MESH_SOCKET_ACTOR : String
  HAPI_UNREAL_ATTRIB_MESH_SOCKET_ACTOR_OLD : String
  HAPI_UNREAL_ATTRIB_MESH_SOCKET_TAG : String
  HAPI_UNREAL_ATTRIB_MESH_SOCKET_TAG_OLD : String

/-- The attribute name `SocketAttrPrefix + Suffix` of socket `SocketIdx`,
`SocketAttrPrefix` being the socket macro followed by
`FString::FromInt(SocketIdx)`. -/
def DetailAttribute.attrName (C : SocketConfig) (SocketIdx : Nat) (Suffix : String) : String :=
  C.HAPI_UNREAL_ATTRIB_MESH_SOCKET_PREFIX ++ toString SocketIdx ++ Suffix

/-- The reads of one iteration of the `while` loop of
`AddMeshSocketsToArray_DetailAttribute`, after `ResetArraysAndAttr`:
`done none` when the loop is left (`break`) because the position attribute
cannot be read or does not exist, otherwise the captured arrays and flags. -/
def DetailAttribute.readArrays (C : SocketConfig) (S : AttributeSession) (GeoId PartId : Int)
    (SocketIdx : Nat) : Outcome (Option SocketArrays) :=
  let Positions := HapiGetAttributeDataAsFloat S GeoId PartId
    (DetailAttribute.attrName C SocketIdx "_pos") S.AttributeInfo_Init 0 HAPI_ATTROWNER_DETAIL
  if !Positions.ok then Outcome.done none
  else if !Positions.OutAttributeInfo.exist then Outcome.done none
  else
    let Rotations := HapiGetAttributeDataAsFloat S GeoId PartId
      (DetailAttribute.attrName C SocketIdx "_rot") S.AttributeInfo_Init 0 HAPI_ATTROWNER_DETAIL
    let Scales := HapiGetAttributeDataAsFloat S GeoId PartId
      (DetailAttribute.attrName C SocketIdx "_scale") S.AttributeInfo_Init 0
      HAPI_ATTROWNER_DETAIL
    (HapiGetAttributeDataAsString S GeoId PartId (DetailAttribute.attrName C SocketIdx "_name")
        S.AttributeInfo_Init C.DefaultTupleSize C.DefaultOwner).bind fun Names =>
    (HapiGetAttributeDataAsString S GeoId PartId (DetailAttribute.attrName C SocketIdx "_actor")
        S.AttributeInfo_Init C.DefaultTupleSize C.DefaultOwner).bind fun Actors =>
    (HapiGetAttributeDataAsString S GeoId PartId (DetailAttribute.attrName C SocketIdx "_tag")
        S.AttributeInfo_Init C.DefaultTupleSize C.DefaultOwner).bind fun Tags =>
    Outcome.done (some
      { Positions := Positions.OutData
        bHasRotation := Rotations.ok, Rotations := Rotations.OutData
        bHasScale := Scales.ok, Scales := Scales.OutData
        bHasNormals := false, Normals := []
        bHasNames := Names.ok, Names := Names.OutData
        bHasActors := Actors.ok, Actors := Actors.OutData
        bHasTags := Tags.ok, Tags := Tags.OutData })

/-- The `while (HasSocketAttributes)` loop of
`AddMeshSocketsToArray_DetailAttribute` from socket index `SocketIdx` on, with
at most `fuel` iterations; the result is `AllSockets` and
`FoundSocketCount`. -/
def DetailAttribute.socketLoop (C : SocketConfig) (S : AttributeSession) (GeoId PartId : Int) :
    Nat → Nat → List FHoudiniMeshSocket → Int → Outcome (List FHoudiniMeshSocket × Int)
  | 0, _, _, _ => Outcome.outOfFuel
  | fuel + 1, SocketIdx, AllSockets, FoundSocketCount =>
    (DetailAttribute.readArrays C S GeoId PartId SocketIdx).bind fun read =>
      match read with
      | none => Outcome.done (AllSockets, FoundSocketCount)
      | some A =>
        let r := DetailAttribute.AddSocketToArray C.PositionFactor C.Socket0 C.socketEq A 0
          AllSockets FoundSocketCount
        DetailAttribute.socketLoop C S GeoId PartId fuel (SocketIdx + 1) r.1 r.2

/-- Function `FHoudiniEngineUtils::AddMeshSocketsToArray_DetailAttribute`,
with at most `fuel` iterations of its loop: `AllSockets` after the call and
the returned `FoundSocketCount`. -/
def AddMeshSocketsToArray_DetailAttribute (C : SocketConfig) (S : AttributeSession)
    (fuel : Nat) (GeoId PartId : Int) (AllSockets : List FHoudiniMeshSocket) :
    Outcome (List FHoudiniMeshSocket × Int) :=
  DetailAttribute.socketLoop C S GeoId PartId fuel 0 AllSockets 0

/-- The socket that iteration `SocketIdx` of the loop of
`AddMeshSocketsToArray_DetailAttribute` passes to `AllSockets.AddUnique`,
when that iteration builds one. -/
def DetailAttribute.socketAt (C : SocketConfig) (S : AttributeSession) (GeoId PartId : Int)
    (SocketIdx : Nat) : Option FHoudiniMeshSocket :=
  match DetailAttribute.readArrays C S GeoId PartId SocketIdx with
  | Outcome.done (some A) =>
    some (DetailAttribute.CurrentSocket C.PositionFactor C.Socket0 A 0)
  | _ => none

/-- Method `FString::StartsWith(Prefix, ESearchCase::IgnoreCase)`. -/
def StartsWithIgnoreCase (s start : String) : Bool :=
  start.toLower.toList.isPrefixOf s.toLower.toList

/-- The loop `for (PointIdx = ...; PointIdx < PointGroupMembership.Num();
++PointIdx)` of `AddMeshSocketsToArray_Group`, from index `PointIdx` on; the
list is the part of `PointGroupMembership` not visited yet. -/
def Group.pointLoop (C : SocketConfig) (A : SocketArrays) (AllEquals : Bool) :
    Nat → List Int → List FHoudiniMeshSocket × Int → List FHoudiniMeshSocket × Int
  | _, [], st => st
  | PointIdx, m :: rest, st =>
    if m = 0 then
      if AllEquals then st
      else Group.pointLoop C A AllEquals (PointIdx + 1) rest st
    else
      Group.pointLoop C A AllEquals (PointIdx + 1) rest
        (Group.AddSocketToArray C.PositionFactor C.Socket0 C.FindBetween C.socketEq A PointIdx
          st.1 st.2)

/-- The loop over the group names of `AddMeshSocketsToArray_Group` that
extracts the sockets of every socket group. -/
def Group.groupLoop (C : SocketConfig) (GS : GroupSession) (GeoId : Int)
    (PartInfo : HAPI_PartInfo) (A : SocketArrays) :
    List String → List FHoudiniMeshSocket × Int → List FHoudiniMeshSocket × Int
  | [], st => st
  | GroupName :: rest, st =>
    if !StartsWithIgnoreCase GroupName C.HAPI_UNREAL_GROUP_SOCKET_PREFIX
        && !StartsWithIgnoreCase GroupName C.HAPI_UNREAL_GROUP_SOCKET_PREFIX_OLD then
      Group.groupLoop C GS GeoId PartInfo A rest st
    else
      let m := HapiGetGroupMembership GS GeoId PartInfo HAPI_GroupType.HAPI_GROUPTYPE_POINT
        GroupName [] false
      Group.groupLoop C GS GeoId PartInfo A rest
        (Group.pointLoop C A m.OutAllEquals 0 m.OutGroupMembership st)

/-- A string read under a current attribute name, repeated under the legacy
name when the first read returns false (`if (...) b = true; else if (...)
b = true;`). -/
def readStringWithFallback (C : SocketConfig) (S : AttributeSession) (GeoId PartId : Int)
    (Name NameOld : String) : Outcome (AttributeRead String) :=
  (HapiGetAttributeDataAsString S GeoId PartId Name S.AttributeInfo_Init
      C.DefaultTupleSize C.DefaultOwner).bind fun r =>
    if r.ok then Outcome.done r
    else
      HapiGetAttributeDataAsString S GeoId PartId NameOld r.OutAttributeInfo
        C.DefaultTupleSize C.DefaultOwner

/-- Function `FHoudiniEngineUtils::AddMeshSocketsToArray_Group`: `AllSockets`
after the call and the returned count (`return false` is 0). -/
def AddMeshSocketsToArray_Group (C : SocketConfig) (S : AttributeSession)
    (GS : GroupSession) (G : GroupNamesSession) (GeoId PartId : Int)
    (AllSockets : List FHoudiniMeshSocket) (isPackedPrim : Bool) :
    Outcome (List FHoudiniMeshSocket × Int) :=
  let FoundSocketCount : Int := 0
  let GroupNames := (HapiGetGroupNames G S.ToFString GeoId PartId
    HAPI_GroupType.HAPI_GROUPTYPE_POINT isPackedPrim []).2
  let bHasSocketGroup := GroupNames.any fun GroupName =>
    StartsWithIgnoreCase GroupName C.HAPI_UNREAL_GROUP_SOCKET_PREFIX
      || StartsWithIgnoreCase GroupName C.HAPI_UNREAL_GROUP_SOCKET_PREFIX_OLD
  if !bHasSocketGroup then Outcome.done (AllSockets, FoundSocketCount)
  else
    match S.GetPartInfo GeoId PartId with
    | none => Outcome.done (AllSockets, 0)
    | some PartInfo =>
      let Positions := HapiGetAttributeDataAsFloat S GeoId PartId C.HAPI_UNREAL_ATTRIB_POSITION
        S.AttributeInfo_Init C.DefaultTupleSize C.DefaultOwner
      if !Positions.ok then Outcome.done (AllSockets, 0)
      else
        let Rotations := HapiGetAttributeDataAsFloat S GeoId PartId
          C.HAPI_UNREAL_ATTRIB_ROTATION S.AttributeInfo_Init C.DefaultTupleSize C.DefaultOwner
        let Normals := HapiGetAttributeDataAsFloat S GeoId PartId
          C.HAPI_UNREAL_ATTRIB_NORMAL S.AttributeInfo_Init C.DefaultTupleSize C.DefaultOwner
        let Scales := HapiGetAttributeDataAsFloat S GeoId PartId
          C.HAPI_UNREAL_ATTRIB_SCALE S.AttributeInfo_Init C.DefaultTupleSize C.DefaultOwner
        (readStringWithFallback C S GeoId PartId C.HAPI_UNREAL_ATTRIB_MESH_SOCKET_NAME
            C.HAPI_UNREAL_ATTRIB_MESH_SOCKET_NAME_OLD).bind fun Names =>
        (readStringWithFallback C S GeoId PartId C.HAPI_UNREAL_ATTRIB_MESH_SOCKET_ACTOR
            C.HAPI_UNREAL_ATTRIB_MESH_SOCKET_ACTOR_OLD).bind fun Actors =>
        (readStringWithFallback C S GeoId PartId C.HAPI_UNREAL_ATTRIB_MESH_SOCKET_TAG
            C.HAPI_UNREAL_ATTRIB_MESH_SOCKET_TAG_OLD).bind fun Tags =>
        let A : SocketArrays :=
          { Positions := Positions.OutData
            bHasRotation := Rotations.ok, Rotations := Rotations.OutData
            bHasScale := Scales.ok, Scales := Scales.OutData
            bHasNormals := Normals.ok, Normals := Normals.OutData
            bHasNames := Names.ok, Names := Names.OutData
            bHasActors := Actors.ok, Actors := Actors.OutData
            bHasTags := Tags.ok, Tags := Tags.OutData }
        Outcome.done (Group.groupLoop C GS GeoId PartInfo A GroupNames
          (AllSockets, FoundSocketCount))

/-- The list `news`, appended element by element to `base`, such that each
element differs (for `eq`) from every element in front of it. -/
def uniqueAfter {α : Type} (eq : α → α → Bool) : List α → List α → Prop
  | _, [] => True
  | base, s :: rest => (∀ a ∈ base, eq a s = false) ∧ uniqueAfter eq (base ++ [s]) rest

/-- The collection `After` is `Before` followed by elements each of which was
appended only when no equal element was in the collection. -/
def ExtendsUnique {α : Type} (eq : α → α → Bool) (Before After : List α) : Prop :=
  ∃ news, After = Before ++ news ∧ uniqueAfter eq Before news

/-! ### Generic attribute list -/

/-- The fields of `FHoudiniGenericAttribute` that `GetGenericAttributeList`
writes. `AttributeType` and `AttributeOwner` hold the engine's storage kind
and owner, which the code casts to the host enumerations
`EAttribStorageType` and `EAttribOwner`. -/
structure FHoudiniGenericAttribute where
  AttributeName : String
  AttributeType : HAPI_StorageType
  AttributeOwner : HAPI_AttributeOwner
  AttributeCount : Int
  AttributeTupleSize : Int
  DoubleValues : List ℚ
  IntValues : List Int
  StringValues : List String
  deriving DecidableEq, Repr

/-- The arguments `(name, start, length)` of a data call of
`GetGenericAttributeList`. -/
structure GenericRead where
  AttribName : String
  AttribStart : Int
  AttribCount : Int
  deriving DecidableEq, Repr

/-- One iteration of the `for` loop of `GetGenericAttributeList` for the name
handle `AttribNameSH`: `none` where the body ends with `continue`, otherwise
the attribute passed to `OutFoundAttributes.Add` with the arguments of the
data call that filled it. -/
def GetGenericAttributeList.body (S : AttributeSession) (InGeoNodeId InPartId : Int)
    (InGenericAttributePrefix : String) (AttributeOwner : HAPI_AttributeOwner)
    (HandleSplit : Bool) (AttribIndex : Int) (AttribNameSH : Int) :
    Option (FHoudiniGenericAttribute × GenericRead) :=
  let AttribName := S.ToFString AttribNameSH
  if !StartsWithIgnoreCase AttribName InGenericAttributePrefix then none
  else
    match S.GetAttributeInfo InGeoNodeId InPartId AttribName AttributeOwner with
    | none => none
    | some AttribInfo =>
      let narrowed : Bool :=
        HandleSplit && decide (AttribIndex ≥ 0 ∧ AttribIndex < AttribInfo.count)
      let AttribStart : Int := if narrowed then AttribIndex else 0
      let AttribCount : Int := if narrowed then 1 else AttribInfo.count
      let CurrentGenericAttribute : FHoudiniGenericAttribute :=
        { AttributeName := AttribName.drop InGenericAttributePrefix.length
          AttributeOwner := AttribInfo.owner
          AttributeType := AttribInfo.storage
          AttributeCount := AttribInfo.count
          AttributeTupleSize := AttribInfo.tupleSize
          DoubleValues := [], IntValues := [], StringValues := [] }
      let Num := (AttribCount * AttribInfo.tupleSize).toNat
      let read : GenericRead := ⟨AttribName, AttribStart, AttribCount⟩
      match AttribInfo.storage with
      | HAPI_StorageType.HAPI_STORAGETYPE_FLOAT64 =>
        match S.GetAttributeFloat64Data InGeoNodeId InPartId AttribName AttribInfo 0
            AttribStart AttribCount with
        | none => none
        | some values =>
          some ({ CurrentGenericAttribute with DoubleValues := (List.range Num).map values },
            read)
      | HAPI_StorageType.HAPI_STORAGETYPE_FLOAT =>
        match S.GetAttributeFloatData InGeoNodeId InPartId AttribName AttribInfo 0
            AttribStart AttribCount with
        | none => none
        | some values =>
          let FloatValues := (List.range Num).map values
          some ({ CurrentGenericAttribute with DoubleValues := FloatValues }, read)
      | HAPI_StorageType.HAPI_STORAGETYPE_INT64 =>
        match S.GetAttributeInt64Data InGeoNodeId InPartId AttribName AttribInfo 0
            AttribStart AttribCount with
        | none => none
        | some values =>
          some ({ CurrentGenericAttribute with IntValues := (List.range Num).map values },
            read)
      | HAPI_StorageType.HAPI_STORAGETYPE_INT =>
        match S.GetAttributeIntData InGeoNodeId InPartId AttribName AttribInfo 0
            AttribStart AttribCount with
        | none => none
        | some values =>
          let IntValues := (List.range Num).map values
          some ({ CurrentGenericAttribute with IntValues := IntValues }, read)
      | HAPI_StorageType.HAPI_STORAGETYPE_STRING =>
        match S.GetAttributeStringData InGeoNodeId InPartId AttribName AttribInfo
            AttribStart AttribCount with
        | none => none
        | some values =>
          let HapiSHArray := (List.range Num).map values
          some ({ CurrentGenericAttribute with StringValues := HapiSHArray.map S.ToFString },
            read)
      | HAPI_StorageType.HAPI_STORAGETYPE_INVALID => none

/-- Return value and out-parameter of `GetGenericAttributeList`; `Reads`
lists, for each attribute that the call added, the arguments of the data call
that filled it. -/
structure GenericAttributeList where
  FoundCount : Int
  OutFoundAttributes : List FHoudiniGenericAttribute
  Reads : List GenericRead
  deriving DecidableEq, Repr

/-- Function `FHoudiniEngineUtils::GetGenericAttributeList`. The attribute
count is `PartInfo.attributeCounts[AttributeOwner]`; the loop over the name
handles adds the attribute of every iteration that does not `continue`. -/
def GetGenericAttributeList (S : AttributeSession) (InGeoNodeId InPartId : Int)
    (InGenericAttributePrefix : String) (OutFoundAttributes : List FHoudiniGenericAttribute)
    (AttributeOwner : HAPI_AttributeOwner) (InAttribIndex : Int) : GenericAttributeList :=
  match S.GetPartInfo InGeoNodeId InPartId with
  | none => ⟨0, OutFoundAttributes, []⟩
  | some PartInfo =>
    let nAttribCount := PartInfo.attributeCounts.getD AttributeOwner.toNat 0
    match S.GetAttributeNames InGeoNodeId InPartId AttributeOwner nAttribCount with
    | none => ⟨0, OutFoundAttributes, []⟩
    | some names =>
      let AttribNameSHArray := (List.range nAttribCount.toNat).map names
      let HandleSplit : Bool :=
        decide (AttributeOwner ≠ HAPI_ATTROWNER_DETAIL) && decide (InAttribIndex ≠ -1)
      let AttribIndex : Int := if HandleSplit then InAttribIndex else -1
      let found := AttribNameSHArray.filterMap
        (GetGenericAttributeList.body S InGeoNodeId InPartId InGenericAttributePrefix
          AttributeOwner HandleSplit AttribIndex)
      { FoundCount := found.length
        OutFoundAttributes := OutFoundAttributes ++ found.map Prod.fst
        Reads := found.map Prod.snd }

/-- The length of the value array of the attribute's storage kind. -/
def FHoudiniGenericAttribute.valueNum (a : FHoudiniGenericAttribute) : Nat :=
  match a.AttributeType with
  | HAPI_StorageType.HAPI_STORAGETYPE_FLOAT64 => a.DoubleValues.length
  | HAPI_StorageType.HAPI_STORAGETYPE_FLOAT => a.DoubleValues.length
  | HAPI_StorageType.HAPI_STORAGETYPE_INT64 => a.IntValues.length
  | HAPI_StorageType.HAPI_STORAGETYPE_INT => a.IntValues.length
  | HAPI_StorageType.HAPI_STORAGETYPE_STRING => a.StringValues.length
  | HAPI_StorageType.HAPI_STORAGETYPE_INVALID => 0

/-! ### Heightfield export -/

/-- The engine calls and attribute helpers that `CreateHeightfieldFromLandscape`
and the functions it calls issue, with the arguments that the code computes.
`HapiCookNode`, `AddLandscapeMaterialAttributesToVolume`,
`CreateAttributesFromTags`, `AddActorPathAttribute` and
`AddLevelPathAttribute` are helpers, each recorded as one call. -/
inductive HapiCall where
  | CreateHeightFieldInput (Name : String) (XSize YSize : Int)
  | HapiCookNode (NodeId : Int)
  | GetGeoInfo (NodeId : Int)
  | GetPartInfo (NodeId PartId : Int)
  | SetVolumeInfo (NodeId PartId : Int) (VolumeInfo : HAPI_VolumeInfo)
  | SetHeightFieldData (NodeId PartId : Int) (Name : String) (Values : List ℚ)
      (Start Length : Int)
  | AddLandscapeMaterialAttributesToVolume (NodeId PartId : Int)
  | CreateAttributesFromTags (NodeId PartId : Int)
  | AddActorPathAttribute (NodeId PartId : Int)
  | AddLevelPathAttribute (NodeId PartId : Int)
  | CommitGeo (NodeId : Int)
  | CreateHeightfieldInputVolumeNode (ParentNodeId : Int) (Name : String) (XSize YSize : Int)
  | GetNodeInfo (NodeId : Int)
  | IsNodeValid (NodeId UniqueNodeId : Int)
  | ConnectNodeInput (NodeId InputIndex NodeIdToConnect OutputIndex : Int)
  | SetObjectTransform (NodeId : Int)
  | SetParmFloatValue (NodeId : Int) (ParmName : String) (Index : Int) (Value : ℚ)
  deriving DecidableEq, Repr

/-- One issued call with its status: `success` is `HAPI_RESULT_SUCCESS`, or
`true` returned by a helper. -/
structure HapiEvent where
  call : HapiCall
  success : Bool
  deriving DecidableEq, Repr

/-- Replies of the engine during a heightfield export. Every reply may depend
on the calls issued so far. `none` or `false` is a failure.
`CreateHeightFieldInput` answers with the ids of the heightfield, height,
mask and merge nodes, `GetGeoInfo` with `GeoInfo.nodeId`, `GetPartInfo` with
`PartInfo.id`, `CreateHeightfieldInputVolumeNode` with the new node id,
`GetNodeInfo` with `uniqueHoudiniNodeId` and `parentId`, `IsNodeValid` with
the validation answer; `Discarded` is the status of a call whose status the
code does not read. -/
structure HeightfieldSession where
  CreateHeightFieldInput : List HapiEvent → String → Int → Int → Option (Int × Int × Int × Int)
  HapiCookNode : List HapiEvent → Int → Bool
  GetGeoInfo : List HapiEvent → Int → Option Int
  GetPartInfo : List HapiEvent → Int → Int → Option Int
  SetVolumeInfo : List HapiEvent → Int → Int → HAPI_VolumeInfo → Bool
  SetHeightFieldData : List HapiEvent → Int → Int → String → List ℚ → Int → Int → Bool
  CommitGeo : List HapiEvent → Int → Bool
  CreateHeightfieldInputVolumeNode : List HapiEvent → Int → String → Int → Int → Option Int
  GetNodeInfo : List HapiEvent → Int → Option (Int × Int)
  IsNodeValid : List HapiEvent → Int → Int → Option Bool
  ConnectNodeInput : List HapiEvent → Int → Int → Int → Int → Bool
  Discarded : List HapiEvent → HapiCall → Bool

/-- The call `c`, appended to the calls issued so far with its status. -/
def logCall (Calls : List HapiEvent) (c : HapiCall) (success : Bool) : List HapiEvent :=
  Calls ++ [⟨c, success⟩]

/-- A call whose status the code does not read. -/
def discardedCall (E : HeightfieldSession) (Calls : List HapiEvent) (c : HapiCall) :
    List HapiEvent :=
  logCall Calls c (E.Discarded Calls c)

/-- Function `FHoudiniEngineUtils::IsHoudiniNodeValid`, with the calls issued
so far. -/
def IsHoudiniNodeValid (E : HeightfieldSession) (NodeId : Int) (Calls : List HapiEvent) :
    Bool × List HapiEvent :=
  if NodeId < 0 then (false, Calls)
  else
    match E.GetNodeInfo Calls NodeId with
    | none => (false, logCall Calls (HapiCall.GetNodeInfo NodeId) false)
    | some (uniqueHoudiniNodeId, _) =>
      let Calls := logCall Calls (HapiCall.GetNodeInfo NodeId) true
      match E.IsNodeValid Calls NodeId uniqueHoudiniNodeId with
      | none => (false, logCall Calls (HapiCall.IsNodeValid NodeId uniqueHoudiniNodeId) false)
      | some ValidationAnswer =>
        (ValidationAnswer,
          logCall Calls (HapiCall.IsNodeValid NodeId uniqueHoudiniNodeId) true)

/-- Function `FHoudiniEngineUtils::HapiGetParentNodeId`, with the calls issued
so far. -/
def HapiGetParentNodeId (E : HeightfieldSession) (NodeId : Int) (Calls : List HapiEvent) :
    Int × List HapiEvent :=
  if NodeId ≥ 0 then
    match E.GetNodeInfo Calls NodeId with
    | none => (-1, logCall Calls (HapiCall.GetNodeInfo NodeId) false)
    | some (_, parentId) => (parentId, logCall Calls (HapiCall.GetNodeInfo NodeId) true)
  else (-1, Calls)

/-- Function `FUnrealLandscapeTranslator::CreateHeightfieldInputNode`: `none`
is `return false`, otherwise the four node ids; with the calls issued so
far. -/
def CreateHeightfieldInputNode (E : HeightfieldSession) (NodeName : String) (XSize YSize : Int)
    (HeightfieldNodeId : Int) (Calls : List HapiEvent) :
    Option (Int × Int × Int × Int) × List HapiEvent :=
  if HeightfieldNodeId ≠ -1 then (none, Calls)
  else
    match E.CreateHeightFieldInput Calls NodeName XSize YSize with
    | none => (none, logCall Calls (HapiCall.CreateHeightFieldInput NodeName XSize YSize) false)
    | some ids =>
      let Calls := logCall Calls (HapiCall.CreateHeightFieldInput NodeName XSize YSize) true
      let cooked := E.HapiCookNode Calls ids.1
      (if cooked then some ids else none, logCall Calls (HapiCall.HapiCookNode ids.1) cooked)

/-- Function `FUnrealLandscapeTranslator::SetHeightfieldData`, with the calls
issued so far. -/
def SetHeightfieldData (E : HeightfieldSession) (VolumeNodeId PartId : Int)
    (FloatValues : List ℚ) (VolumeInfo : HAPI_VolumeInfo) (HeightfieldName : String)
    (Calls : List HapiEvent) : Bool × List HapiEvent :=
  let cooked := E.HapiCookNode Calls VolumeNodeId
  let Calls := logCall Calls (HapiCall.HapiCookNode VolumeNodeId) cooked
  if !cooked then (false, Calls)
  else
    match E.GetGeoInfo Calls VolumeNodeId with
    | none => (false, logCall Calls (HapiCall.GetGeoInfo VolumeNodeId) false)
    | some GeoInfo_nodeId =>
      let Calls := logCall Calls (HapiCall.GetGeoInfo VolumeNodeId) true
      match E.GetPartInfo Calls GeoInfo_nodeId PartId with
      | none => (false, logCall Calls (HapiCall.GetPartInfo GeoInfo_nodeId PartId) false)
      | some PartInfo_id =>
        let Calls := logCall Calls (HapiCall.GetPartInfo GeoInfo_nodeId PartId) true
        let set := E.SetVolumeInfo Calls VolumeNodeId PartInfo_id VolumeInfo
        let Calls := logCall Calls (HapiCall.SetVolumeInfo VolumeNodeId PartInfo_id VolumeInfo) set
        if !set then (false, Calls)
        else
          let sent := E.SetHeightFieldData Calls GeoInfo_nodeId PartInfo_id HeightfieldName
            FloatValues 0 FloatValues.length
          (sent, logCall Calls
            (HapiCall.SetHeightFieldData GeoInfo_nodeId PartInfo_id HeightfieldName FloatValues
              0 FloatValues.length) sent)

/-- Function `FUnrealLandscapeTranslator::InitDefaultHeightfieldMask`, with
the calls issued so far. -/
def InitDefaultHeightfieldMask (E : HeightfieldSession) (HeightVolumeInfo : HAPI_VolumeInfo)
    (MaskVolumeNodeId : Int) (Calls : List HapiEvent) : Bool × List HapiEvent :=
  let MaskFloatData : List ℚ :=
    List.replicate (HeightVolumeInfo.xLength * HeightVolumeInfo.yLength).toNat 0
  let MaskVolumeInfo := HeightVolumeInfo
  SetHeightfieldData E MaskVolumeNodeId 0 MaskFloatData MaskVolumeInfo "mask" Calls

/-- What the host answers about one entry of `LandscapeInfo->Layers`:
`LayerData` is the result of `GetLandscapeLayerData` (`none` is
`return false`, otherwise the samples, the debug colour and the layer
name). -/
structure LandscapeLayer where
  LayerData : Option (List Nat × FLinearColor × String)

/-- What the host answers about one landscape component: `GetName()` of its
override material and of its override hole material (`none` is a null
pointer). -/
structure ULandscapeComponent where
  OverrideMaterial : Option String
  OverrideHoleMaterial : Option String
  deriving DecidableEq, Repr

/-- What the host answers about the landscape actor: the result of
`GetLandscapeData` (samples, `XSize`, `YSize`, `Min`, `Max`, or `none` for
`return false`), `ActorToWorld()`, whether `GetLevel()` is non-null,
`GetLandscapeInfo()` with its layers (`none` is a null pointer),
`GetPathName()` of `GetLandscapeMaterial()` and of
`GetLandscapeHoleMaterial()` (`none` is a null pointer), and the array
`LandscapeComponents`. -/
structure ALandscapeProxy where
  LandscapeData : Option (List Nat × Int × Int × FVector × FVector)
  ActorToWorld : FTransform
  HasLevel : Bool
  LandscapeInfo : Option (List LandscapeLayer)
  LandscapeMaterial : Option String := none
  LandscapeHoleMaterial : Option String := none
  LandscapeComponents : List ULandscapeComponent := []

/-- The settings and initial values that the export takes from outside the
source files: the scaling setting, the values left by `Transform_Init` and
`VolumeInfo_Init`, and the host constant `PI`. -/
structure HeightfieldConfig where
  bUseDefaultUE4Scaling : Bool
  TransformInit : HAPI_Transform
  VolumeInfoInit : HAPI_VolumeInfo
  PI : ℚ

/-- The four attribute helpers that follow an upload, on the volume node
`NodeId`; their return values are not read. -/
def addVolumeAttributes (E : HeightfieldSession) (NodeId PartId : Int) (addLevelPath : Bool)
    (Calls : List HapiEvent) : List HapiEvent :=
  let Calls := discardedCall E Calls (HapiCall.AddLandscapeMaterialAttributesToVolume NodeId PartId)
  let Calls := discardedCall E Calls (HapiCall.CreateAttributesFromTags NodeId PartId)
  let Calls := discardedCall E Calls (HapiCall.AddActorPathAttribute NodeId PartId)
  if addLevelPath then discardedCall E Calls (HapiCall.AddLevelPathAttribute NodeId PartId)
  else Calls

/-- The variables that the layer loop of `CreateHeightfieldFromLandscape`
updates, with the calls issued so far. -/
structure LayerLoopState where
  Calls : List HapiEvent
  MaskInitialized : Bool
  MergeInputIndex : Int
  deriving DecidableEq, Repr

/-- How one iteration of the layer loop ends: the loop goes on (also after
`continue`), or the function returns false. -/
inductive LayerStep where
  | next (st : LayerLoopState)
  | returnFalse (Calls : List HapiEvent)
  deriving DecidableEq, Repr

/-- The body of the loop `for (n = 0; n < NumLayers; n++)` of
`CreateHeightfieldFromLandscape` for one layer. -/
def layerBody (Cfg : HeightfieldConfig) (E : HeightfieldSession) (XSize YSize : Int)
    (HeightfieldVolumeInfo : HAPI_VolumeInfo) (HeightFieldId MaskId MergeId PartId : Int)
    (Layer : LandscapeLayer) (st : LayerLoopState) : LayerStep :=
  match Layer.LayerData with
  | none => LayerStep.next st
  | some (CurrentLayerIntData, LayerUsageDebugColor, LayerName) =>
    match ConvertLandscapeLayerDataToHeightfieldData Cfg.PI CurrentLayerIntData XSize YSize
        LayerUsageDebugColor Cfg.VolumeInfoInit with
    | none => LayerStep.next st
    | some converted =>
      let CurrentLayerVolumeInfo :=
        { converted.LayerVolumeInfo with transform := HeightfieldVolumeInfo.transform }
      let IsMask : Bool := LayerName.toLower = "mask"
      let created : Int × List HapiEvent :=
        if !IsMask then
          let reply := E.CreateHeightfieldInputVolumeNode st.Calls HeightFieldId LayerName
            XSize YSize
          (reply.getD (-1),
            logCall st.Calls
              (HapiCall.CreateHeightfieldInputVolumeNode HeightFieldId LayerName XSize YSize)
              reply.isSome)
        else (MaskId, st.Calls)
      let LayerVolumeNodeId := created.1
      let valid := IsHoudiniNodeValid E LayerVolumeNodeId created.2
      if !valid.1 then LayerStep.next { st with Calls := valid.2 }
      else
        let sent := SetHeightfieldData E LayerVolumeNodeId PartId converted.LayerFloatValues
          CurrentLayerVolumeInfo LayerName valid.2
        if !sent.1 then LayerStep.next { st with Calls := sent.2 }
        else
          let Calls := addVolumeAttributes E LayerVolumeNodeId PartId true sent.2
          let committed := E.CommitGeo Calls LayerVolumeNodeId
          let Calls := logCall Calls (HapiCall.CommitGeo LayerVolumeNodeId) committed
          if !committed then LayerStep.returnFalse Calls
          else if !IsMask then
            let connected := E.ConnectNodeInput Calls MergeId st.MergeInputIndex
              LayerVolumeNodeId 0
            let Calls := logCall Calls
              (HapiCall.ConnectNodeInput MergeId st.MergeInputIndex LayerVolumeNodeId 0)
              connected
            if !connected then LayerStep.returnFalse Calls
            else
              LayerStep.next
                { Calls := Calls, MaskInitialized := st.MaskInitialized
                  MergeInputIndex := st.MergeInputIndex + 1 }
          else
            LayerStep.next
              { Calls := Calls, MaskInitialized := true
                MergeInputIndex := st.MergeInputIndex }

/-- The layer loop of `CreateHeightfieldFromLandscape` over the layers not
visited yet. -/
def layerLoop (Cfg : HeightfieldConfig) (E : HeightfieldSession) (XSize YSize : Int)
    (HeightfieldVolumeInfo : HAPI_VolumeInfo) (HeightFieldId MaskId MergeId PartId : Int) :
    List LandscapeLayer → LayerLoopState → LayerStep
  | [], st => LayerStep.next st
  | Layer :: rest, st =>
    match layerBody Cfg E XSize YSize HeightfieldVolumeInfo HeightFieldId MaskId MergeId PartId
        Layer st with
    | LayerStep.returnFalse Calls => LayerStep.returnFalse Calls
    | LayerStep.next st =>
      layerLoop Cfg E XSize YSize HeightfieldVolumeInfo HeightFieldId MaskId MergeId PartId
        rest st

/-- Return value and out-parameter of `CreateHeightfieldFromLandscape`, with
the calls that the run issued, in order. -/
structure HeightfieldExport where
  ok : Bool
  CreatedHeightfieldNodeId : Int
  Calls : List HapiEvent
  deriving DecidableEq, Repr

/-- The part of `CreateHeightfieldFromLandscape` behind the layer loop: the
default mask when no mask layer was written, the object transform, the
centre parameters and the final cook. -/
def finishHeightfield (E : HeightfieldSession) (HeightfieldVolumeInfo : HAPI_VolumeInfo)
    (CenterOffset : FVector) (HeightFieldId MaskId PartId : Int)
    (CreatedHeightfieldNodeId : Int) (st : LayerLoopState) : HeightfieldExport :=
  let masked : Bool × List HapiEvent :=
    if !st.MaskInitialized then
      let init := InitDefaultHeightfieldMask E HeightfieldVolumeInfo MaskId st.Calls
      let Calls := addVolumeAttributes E MaskId PartId true init.2
      let committed := E.CommitGeo Calls MaskId
      (committed, logCall Calls (HapiCall.CommitGeo MaskId) committed)
    else (true, st.Calls)
  if !masked.1 then ⟨false, CreatedHeightfieldNodeId, masked.2⟩
  else
    let parent := HapiGetParentNodeId E HeightFieldId masked.2
    let Calls := discardedCall E parent.2 (HapiCall.SetObjectTransform parent.1)
    let Calls := discardedCall E Calls
      (HapiCall.SetParmFloatValue HeightFieldId "t" 0 CenterOffset.X)
    let Calls := discardedCall E Calls (HapiCall.SetParmFloatValue HeightFieldId "t" 1 0)
    let Calls := discardedCall E Calls
      (HapiCall.SetParmFloatValue HeightFieldId "t" 2 CenterOffset.Y)
    let cooked := E.HapiCookNode Calls HeightFieldId
    let Calls := logCall Calls (HapiCall.HapiCookNode HeightFieldId) cooked
    if !cooked then ⟨false, CreatedHeightfieldNodeId, Calls⟩
    else ⟨true, HeightFieldId, Calls⟩

/-- Function `FUnrealLandscapeTranslator::CreateHeightfieldFromLandscape`.
`LandscapeProxy` is `none` for a null pointer; `CreatedHeightfieldNodeId` is
the caller's value of the out-parameter. -/
def CreateHeightfieldFromLandscape (Cfg : HeightfieldConfig) (E : HeightfieldSession)
    (LandscapeProxy : Option ALandscapeProxy) (CreatedHeightfieldNodeId : Int)
    (InputNodeNameStr : String) : HeightfieldExport :=
  match LandscapeProxy with
  | none => ⟨false, CreatedHeightfieldNodeId, []⟩
  | some Proxy =>
    match Proxy.LandscapeData with
    | none => ⟨false, CreatedHeightfieldNodeId, []⟩
    | some (HeightData, XSize, YSize, Min, Max) =>
      match ConvertLandscapeDataToHeightfieldData Cfg.bUseDefaultUE4Scaling Cfg.TransformInit
          HeightData XSize YSize Min Max Proxy.ActorToWorld Cfg.VolumeInfoInit with
      | none => ⟨false, CreatedHeightfieldNodeId, []⟩
      | some height =>
        match CreateHeightfieldInputNode E InputNodeNameStr XSize YSize (-1) [] with
        | (none, Calls) => ⟨false, CreatedHeightfieldNodeId, Calls⟩
        | (some (HeightFieldId, HeightId, MaskId, MergeId), Calls) =>
          let PartId : Int := 0
          let sent := SetHeightfieldData E HeightId PartId height.HeightfieldFloatValues
            height.HeightfieldVolumeInfo "height" Calls
          if !sent.1 then ⟨false, CreatedHeightfieldNodeId, sent.2⟩
          else
            let Calls := addVolumeAttributes E HeightId PartId Proxy.HasLevel sent.2
            let committed := E.CommitGeo Calls HeightId
            let Calls := logCall Calls (HapiCall.CommitGeo HeightId) committed
            if !committed then ⟨false, CreatedHeightfieldNodeId, Calls⟩
            else
              match Proxy.LandscapeInfo with
              | none => ⟨false, CreatedHeightfieldNodeId, Calls⟩
              | some Layers =>
                match layerLoop Cfg E XSize YSize height.HeightfieldVolumeInfo HeightFieldId
                    MaskId MergeId PartId Layers
                    { Calls := Calls, MaskInitialized := false, MergeInputIndex := 2 } with
                | LayerStep.returnFalse Calls => ⟨false, CreatedHeightfieldNodeId, Calls⟩
                | LayerStep.next st =>
                  finishHeightfield E height.HeightfieldVolumeInfo height.CenterOffset
                    HeightFieldId MaskId PartId CreatedHeightfieldNodeId st

/-- The successful uploads of samples to the node `NodeId` among the calls
`Calls`. -/
def uploadsTo (NodeId : Int) (Calls : List HapiEvent) : List HapiEvent :=
  Calls.filter fun e =>
    match e.call with
    | HapiCall.SetHeightFieldData n _ _ _ _ _ => decide (n = NodeId) && e.success
    | _ => false

/-- The calls issued so far when an iteration of the layer loop ends. -/
def LayerStep.Calls : LayerStep → List HapiEvent
  | LayerStep.next st => st.Calls
  | LayerStep.returnFalse Calls => Calls

/-- The test `LayerName.Equals(TEXT("mask"), ESearchCase::IgnoreCase)` on the
name that `GetLandscapeLayerData` gives for the layer; false when there is no
layer data. -/
def LandscapeLayer.IsMask (Layer : LandscapeLayer) : Bool :=
  match Layer.LayerData with
  | some (_, _, LayerName) => LayerName.toLower = "mask"
  | none => false

/-- The call is a `ConnectNodeInput`. -/
def HapiCall.isConnectNodeInput : HapiCall → Bool
  | HapiCall.ConnectNodeInput _ _ _ _ => true
  | _ => false

/-- The call is a `CommitGeo`. -/
def HapiCall.isCommitGeo : HapiCall → Bool
  | HapiCall.CommitGeo _ => true
  | _ => false

/-- The call is one of the calls of the validity check, of the upload
(`SetHeightfieldData`) and of the attribute helpers, made for the volume node
`NodeId`; `GetPartInfo` and `SetHeightFieldData` go to the node that the
engine names in `GeoInfo.nodeId`. -/
def HapiCall.volumeCall (NodeId : Int) : HapiCall → Bool
  | HapiCall.HapiCookNode n => decide (n = NodeId)
  | HapiCall.GetGeoInfo n => decide (n = NodeId)
  | HapiCall.GetPartInfo _ _ => true
  | HapiCall.SetVolumeInfo n _ _ => decide (n = NodeId)
  | HapiCall.SetHeightFieldData _ _ _ _ _ _ => true
  | HapiCall.AddLandscapeMaterialAttributesToVolume n _ => decide (n = NodeId)
  | HapiCall.CreateAttributesFromTags n _ => decide (n = NodeId)
  | HapiCall.AddActorPathAttribute n _ => decide (n = NodeId)
  | HapiCall.AddLevelPathAttribute n _ => decide (n = NodeId)
  | HapiCall.GetNodeInfo n => decide (n = NodeId)
  | HapiCall.IsNodeValid n _ => decide (n = NodeId)
  | _ => false

/-- The input slot and the status of every `ConnectNodeInput` call among
`Calls`, in order. -/
def connectSlots (Calls : List HapiEvent) : List (Int × Bool) :=
  Calls.filterMap fun e =>
    match e.call with
    | HapiCall.ConnectNodeInput _ InputIndex _ _ => some (InputIndex, e.success)
    | _ => none

/-- The calls `After` are the calls `Before` followed by calls that all
satisfy `P`. -/
def IssuesOnly (P : HapiCall → Bool) (Before After : List HapiEvent) : Prop :=
  ∃ new, After = Before ++ new ∧ ∀ e ∈ new, P e.call = true

/-- Every `ConnectNodeInput` call among `Calls` comes right after the
successful `CommitGeo` of the node that it connects. -/
def ConnectsFollowCommits (Calls : List HapiEvent) : Prop :=
  ∀ (k : Nat) (e : HapiEvent) (n i c o : Int),
    Calls[k]? = some e → e.call = HapiCall.ConnectNodeInput n i c o →
    ∃ j, k = j + 1 ∧ Calls[j]? = some ⟨HapiCall.CommitGeo c, true⟩

/-! ### Landscape mesh export -/

/-- The geometry calls of the mesh export, with the arguments that the code
computes; a `nullptr` entry of a string array is `none`. -/
inductive GeometryCall where
  | SetVertexList (NodeId PartId : Int) (VertexList : List Int) (Start Length : Int)
  | SetFaceCounts (NodeId PartId : Int) (FaceCounts : List Int) (Start Length : Int)
  | AddAttribute (NodeId PartId : Int) (Name : String) (AttrInfo : HAPI_AttributeInfo)
  | SetAttributeStringData (NodeId PartId : Int) (Name : String)
      (AttrInfo : HAPI_AttributeInfo) (Values : List (Option String)) (Start Length : Int)
  deriving DecidableEq, Repr

/-- One issued geometry call with its status (`success` is
`HAPI_RESULT_SUCCESS`). -/
structure GeometryEvent where
  call : GeometryCall
  success : Bool
  deriving DecidableEq, Repr

/-- The engine during a mesh export: the status of a call, which may depend
on the calls issued so far. -/
structure GeometrySession where
  status : List GeometryEvent → GeometryCall → Bool

/-- Issue the call `c`: its status and the calls issued so far with it. -/
def issue (E : GeometrySession) (Calls : List GeometryEvent) (c : GeometryCall) :
    Bool × List GeometryEvent :=
  (E.status Calls c, Calls ++ [⟨c, E.status Calls c⟩])

/-- The attribute name macros and the descriptor initial value that the mesh
export takes from headers outside the source files. -/
structure MaterialConfig where
  HAPI_UNREAL_ATTRIB_MATERIAL : String
  HAPI_UNREAL_ATTRIB_MATERIAL_HOLE : String
  AttributeInfo_Init : HAPI_AttributeInfo

/-- Function `FUnrealLandscapeTranslator::AddLandscapeGlobalMaterialAttribute`,
with the calls issued so far. `TCHAR_TO_UTF8` is the identity on the string's
characters (the lifetime of the converted buffer is not modelled). -/
def AddLandscapeGlobalMaterialAttribute (Cfg : MaterialConfig) (E : GeometrySession)
    (NodeId : Int) (LandscapeProxy : Option ALandscapeProxy) (Calls : List GeometryEvent) :
    Bool × List GeometryEvent :=
  match LandscapeProxy with
  | none => (false, Calls)
  | some Proxy =>
    let MaterialNameStr : String :=
      match Proxy.LandscapeMaterial with
      | some FullMaterialName => FullMaterialName
      | none => ""
    let AttributeInfoDetailMaterial : HAPI_AttributeInfo :=
      { Cfg.AttributeInfo_Init with
        count := 1, tupleSize := 1, exist := true, owner := HAPI_ATTROWNER_DETAIL
        storage := HAPI_StorageType.HAPI_STORAGETYPE_STRING
        originalOwner := HAPI_ATTROWNER_INVALID }
    let added := issue E Calls
      (GeometryCall.AddAttribute NodeId 0 Cfg.HAPI_UNREAL_ATTRIB_MATERIAL
        AttributeInfoDetailMaterial)
    if !added.1 then (false, added.2)
    else
      let set := issue E added.2
        (GeometryCall.SetAttributeStringData NodeId 0 Cfg.HAPI_UNREAL_ATTRIB_MATERIAL
          AttributeInfoDetailMaterial [some MaterialNameStr] 0
          AttributeInfoDetailMaterial.count)
      if !set.1 then (false, set.2)
      else
        let HoleMaterialNameStr : String := ""
        -- the hole branch assigns `MaterialNameStr`, which is not read again
        let _MaterialNameStr : String :=
          match Proxy.LandscapeHoleMaterial with
          | some FullMaterialName => FullMaterialName
          | none => MaterialNameStr
        let AttributeInfoDetailMaterialHole : HAPI_AttributeInfo :=
          { Cfg.AttributeInfo_Init with
            count := 1, tupleSize := 1, exist := true, owner := HAPI_ATTROWNER_DETAIL
            storage := HAPI_StorageType.HAPI_STORAGETYPE_STRING
            originalOwner := HAPI_ATTROWNER_INVALID }
        let addedHole := issue E set.2
          (GeometryCall.AddAttribute NodeId 0 Cfg.HAPI_UNREAL_ATTRIB_MATERIAL_HOLE
            AttributeInfoDetailMaterialHole)
        if !addedHole.1 then (false, addedHole.2)
        else
          let setHole := issue E addedHole.2
            (GeometryCall.SetAttributeStringData NodeId 0
              Cfg.HAPI_UNREAL_ATTRIB_MATERIAL_HOLE AttributeInfoDetailMaterialHole
              [some HoleMaterialNameStr] 0 AttributeInfoDetailMaterialHole.count)
          if !setHole.1 then (false, setHole.2)
          else (true, setHole.2)

/-- The string arrays passed for the attribute `Name` by the successful
`SetAttributeStringData` calls among `Calls`. -/
def stringsWritten (Name : String) (Calls : List GeometryEvent) : List (List (Option String)) :=
  Calls.filterMap fun e =>
    match e.call with
    | GeometryCall.SetAttributeStringData _ _ n _ Values _ _ =>
      if n = Name ∧ e.success = true then some Values else none
    | _ => none

/-- A counted loop whose body may stop at a range check: the body runs for
the listed values of the counter, in order. -/
def forLoop {σ : Type} (body : Nat → σ → Outcome σ) : List Nat → σ → Outcome σ
  | [], s => Outcome.done s
  | i :: rest, s => (body i s).bind (forLoop body rest)

/-- The local variables of `AddLandscapeMeshIndicesAndMaterialsAttribute`
that its loops update; `Written` lists the slots of `LandscapeIndices` that
were assigned, in order. A `nullptr` string is `none`. -/
structure MeshIndexState where
  LandscapeIndices : List Int
  FaceMaterials : List (Option String)
  FaceHoleMaterials : List (Option String)
  VertIdx : Nat
  QuadIdx : Nat
  MaterialRawStr : Option String
  MaterialHoleRawStr : Option String
  Written : List Nat
  deriving DecidableEq, Repr

/-- The body of the innermost loop (over `XIdx`) of
`AddLandscapeMeshIndicesAndMaterialsAttribute`. -/
def quadBody (bExportMaterials : Bool) (BaseVertIndex QuadComponentCount : Int)
    (YIdx XIdx : Nat) (st : MeshIndexState) : Outcome MeshIndexState :=
  (setChecked st.LandscapeIndices (st.VertIdx + 0)
      (BaseVertIndex + ((XIdx : Int) + 0) + ((YIdx : Int) + 0) * QuadComponentCount)).bind
    fun L =>
  (setChecked L (st.VertIdx + 1)
      (BaseVertIndex + ((XIdx : Int) + 1) + ((YIdx : Int) + 0) * QuadComponentCount)).bind
    fun L =>
  (setChecked L (st.VertIdx + 2)
      (BaseVertIndex + ((XIdx : Int) + 1) + ((YIdx : Int) + 1) * QuadComponentCount)).bind
    fun L =>
  (setChecked L (st.VertIdx + 3)
      (BaseVertIndex + ((XIdx : Int) + 0) + ((YIdx : Int) + 1) * QuadComponentCount)).bind
    fun L =>
  (if bExportMaterials then
    (setChecked st.FaceMaterials st.QuadIdx st.MaterialRawStr).bind fun FaceMaterials =>
    (setChecked st.FaceHoleMaterials st.QuadIdx st.MaterialHoleRawStr).bind
      fun FaceHoleMaterials => Outcome.done (FaceMaterials, FaceHoleMaterials)
  else Outcome.done (st.FaceMaterials, st.FaceHoleMaterials)).bind fun M =>
  Outcome.done
    { st with
      LandscapeIndices := L
      FaceMaterials := M.1
      FaceHoleMaterials := M.2
      VertIdx := st.VertIdx + 4
      QuadIdx := st.QuadIdx + 1
      Written := st.Written ++ [st.VertIdx + 0, st.VertIdx + 1, st.VertIdx + 2, st.VertIdx + 3] }

/-- The body of the loop over `ComponentIdx` of
`AddLandscapeMeshIndicesAndMaterialsAttribute`; `SelectedComponents` holds
the indices of the selected components. -/
def componentBody (bExportMaterials : Bool) (ComponentSizeQuads : Int)
    (SelectedComponents : List Nat) (ComponentIdx : Nat)
    (LandscapeComponent : ULandscapeComponent) (st : MeshIndexState) :
    Outcome MeshIndexState :=
  if !SelectedComponents.contains ComponentIdx then Outcome.done st
  else
    let st : MeshIndexState :=
      if bExportMaterials then
        { st with
          MaterialRawStr :=
            match LandscapeComponent.OverrideMaterial with
            | some Name => some Name
            | none => st.MaterialRawStr
          MaterialHoleRawStr :=
            match LandscapeComponent.OverrideHoleMaterial with
            | some Name => some Name
            | none => st.MaterialHoleRawStr }
      else st
    let VertexCountPerComponent : Int := (ComponentSizeQuads + 1) * (ComponentSizeQuads + 1)
    let QuadComponentCount : Int := ComponentSizeQuads + 1
    let BaseVertIndex : Int := (ComponentIdx : Int) * VertexCountPerComponent
    forLoop
      (fun YIdx =>
        forLoop (quadBody bExportMaterials BaseVertIndex QuadComponentCount YIdx)
          (List.range ComponentSizeQuads.toNat))
      (List.range ComponentSizeQuads.toNat) st

/-- The loop over `ComponentIdx` of
`AddLandscapeMeshIndicesAndMaterialsAttribute`, from index `ComponentIdx` on;
the list is the part of `LandscapeComponents` not visited yet. -/
def componentLoop (bExportMaterials : Bool) (ComponentSizeQuads : Int)
    (SelectedComponents : List Nat) :
    Nat → List ULandscapeComponent → MeshIndexState → Outcome MeshIndexState
  | _, [], st => Outcome.done st
  | ComponentIdx, LandscapeComponent :: rest, st =>
    (componentBody bExportMaterials ComponentSizeQuads SelectedComponents ComponentIdx
        LandscapeComponent st).bind
      (componentLoop bExportMaterials ComponentSizeQuads SelectedComponents (ComponentIdx + 1)
        rest)

/-- Return value of `AddLandscapeMeshIndicesAndMaterialsAttribute`, its local
arrays when it returns, the slots of `LandscapeIndices` it assigned, and the
calls issued so far. -/
structure MeshIndicesExport where
  ok : Bool
  LandscapeIndices : List Int
  FaceMaterials : List (Option String)
  FaceHoleMaterials : List (Option String)
  Written : List Nat
  Calls : List GeometryEvent
  deriving DecidableEq, Repr

/-- The upload of one per-face string attribute at the end of
`AddLandscapeMeshIndicesAndMaterialsAttribute`: nothing when the array holds a
`nullptr`, otherwise `AddAttribute` and `SetAttributeStringData`; `false` is
`return FreeMemoryReturn(false)`. -/
def uploadFaceStrings (Cfg : MaterialConfig) (E : GeometrySession) (NodeId : Int)
    (Name : String) (Faces : List (Option String)) (Calls : List GeometryEvent) :
    Bool × List GeometryEvent :=
  if !Faces.contains none then
    let AttrInfo : HAPI_AttributeInfo :=
      { Cfg.AttributeInfo_Init with
        count := Faces.length, tupleSize := 1, exist := true, owner := HAPI_ATTROWNER_PRIM
        storage := HAPI_StorageType.HAPI_STORAGETYPE_STRING
        originalOwner := HAPI_ATTROWNER_INVALID }
    let added := issue E Calls (GeometryCall.AddAttribute NodeId 0 Name AttrInfo)
    if !added.1 then (false, added.2)
    else
      issue E added.2
        (GeometryCall.SetAttributeStringData NodeId 0 Name AttrInfo Faces 0 AttrInfo.count)
  else (true, Calls)

/-- Function
`FUnrealLandscapeTranslator::AddLandscapeMeshIndicesAndMaterialsAttribute`,
with the calls issued so far. `SetNumUninitialized` is modelled as filling
with 0 (with `nullptr` for the string arrays). -/
def AddLandscapeMeshIndicesAndMaterialsAttribute (Cfg : MaterialConfig) (E : GeometrySession)
    (NodeId : Int) (bExportMaterials : Bool) (ComponentSizeQuads QuadCount : Int)
    (LandscapeProxy : Option ALandscapeProxy) (SelectedComponents : List Nat)
    (Calls : List GeometryEvent) : Outcome MeshIndicesExport :=
  match LandscapeProxy with
  | none => Outcome.done ⟨false, [], [], [], [], Calls⟩
  | some Proxy =>
    let IndexCount := QuadCount * 4
    if IndexCount < 0 then Outcome.done ⟨false, [], [], [], [], Calls⟩
    else
      let st0 : MeshIndexState :=
        { LandscapeIndices := List.replicate IndexCount.toNat 0
          FaceMaterials := List.replicate QuadCount.toNat none
          FaceHoleMaterials := List.replicate QuadCount.toNat none
          VertIdx := 0, QuadIdx := 0, MaterialRawStr := none, MaterialHoleRawStr := none
          Written := [] }
      (componentLoop bExportMaterials ComponentSizeQuads SelectedComponents 0
          Proxy.LandscapeComponents st0).bind fun st =>
        let result (ok : Bool) (Calls : List GeometryEvent) : MeshIndicesExport :=
          ⟨ok, st.LandscapeIndices, st.FaceMaterials, st.FaceHoleMaterials, st.Written, Calls⟩
        let vertices := issue E Calls
          (GeometryCall.SetVertexList NodeId 0 st.LandscapeIndices 0 st.LandscapeIndices.length)
        if !vertices.1 then Outcome.done (result false vertices.2)
        else
          let LandscapeFaces : List Int := List.replicate QuadCount.toNat 4
          let faces := issue E vertices.2
            (GeometryCall.SetFaceCounts NodeId 0 LandscapeFaces 0 LandscapeFaces.length)
          if !faces.1 then Outcome.done (result false faces.2)
          else if bExportMaterials then
            let materials := uploadFaceStrings Cfg E NodeId Cfg.HAPI_UNREAL_ATTRIB_MATERIAL
              st.FaceMaterials faces.2
            if !materials.1 then Outcome.done (result false materials.2)
            else
              let holes := uploadFaceStrings Cfg E NodeId Cfg.HAPI_UNREAL_ATTRIB_MATERIAL_HOLE
                st.FaceHoleMaterials materials.2
              if !holes.1 then Outcome.done (result false holes.2)
              else Outcome.done (result true holes.2)
          else Outcome.done (result true faces.2)

/-- The slot of the exported point arrays that holds the grid vertex
`(x, y)` of the component number `c`, when all components are exported:
`ExtractLandscapeData` writes the `(Q + 1) * (Q + 1)` vertices of each
component in a row, component after component, the vertex `(x, y)` at
position `x + y * (Q + 1)` within its component. -/
def cornerIndex (Q c x y : Nat) : Int :=
  (c : Int) * (((Q : Int) + 1) * ((Q : Int) + 1)) + (x : Int) + (y : Int) * ((Q : Int) + 1)

/-- The four grid corners `(x, y)`, `(x+1, y)`, `(x+1, y+1)`, `(x, y+1)` of the
quad `(x, y)` of the component `c`. -/
def quadCorners (Q c y x : Nat) : List Int :=
  [cornerIndex Q c x y, cornerIndex Q c (x + 1) y, cornerIndex Q c (x + 1) (y + 1),
    cornerIndex Q c x (y + 1)]

/-- The quad index list of `N` components of `Q` x `Q` quads: component after
component, row after row, quad after quad, the four corners of each quad. -/
def quadIndexList (N Q : Nat) : List Int :=
  (List.range N).flatMap fun c =>
    (List.range Q).flatMap fun y => (List.range Q).flatMap fun x => quadCorners Q c y x

/-- Loop invariant of the quad loops of
`AddLandscapeMeshIndicesAndMaterialsAttribute`: the index array of `Total`
slots is the filled part `pre` followed by the part `rest` not yet assigned,
`VertIdx` is the length of `pre` and four times `QuadIdx`, the two string
arrays have `Total / 4` slots, and the slots assigned so far are
`0 .. VertIdx - 1`, each once, in order. -/
def MeshInv (Total : Nat) (st : MeshIndexState) (pre rest : List Int) : Prop :=
  st.LandscapeIndices = pre ++ rest ∧ pre.length + rest.length = Total ∧
  pre.length = st.VertIdx ∧ st.VertIdx = 4 * st.QuadIdx ∧
  st.FaceMaterials.length * 4 = Total ∧ st.FaceHoleMaterials.length * 4 = Total ∧
  st.Written = List.range st.VertIdx

/-! ### Mesh sockets on the host mesh -/

/-- Host rotation `FRotator`. -/
structure FRotator where
  Pitch : ℚ
  Yaw : ℚ
  Roll : ℚ
  deriving DecidableEq, Repr

/-- The fields of the host object `UStaticMeshSocket` that
`AddMeshSocketsToStaticMesh` reads or writes. -/
structure UStaticMeshSocket where
  RelativeLocation : FVector
  RelativeRotation : FRotator
  RelativeScale : FVector
  SocketName : String
  Tag : String
  bSocketCreatedAtImport : Bool
  deriving DecidableEq, Repr

/-- The host mesh `UStaticMesh`: `IsPendingKill()` and the array `Sockets` of
socket pointers, a null pointer being `none`. -/
structure UStaticMesh where
  IsPendingKill : Bool
  Sockets : List (Option UStaticMeshSocket)
  deriving DecidableEq, Repr

/-- What `AddMeshSocketsToStaticMesh` takes from the host: the conversion
`FRotator(const FQuat&)`, and the object that `NewObject<UStaticMeshSocket>`
returns in iteration `nSocket` (`none` when the pointer is null or the object
is pending kill). -/
structure StaticMeshHost where
  Rotator : FQuat → FRotator
  NewObject : Nat → Option UStaticMeshSocket

/-- The socket that iteration `nSocket` of the loop of
`AddMeshSocketsToStaticMesh` adds to the mesh, built on the new object
`Socket` from the entry `AllSockets[nSocket]`. -/
def AddMeshSocketsToStaticMesh.newSocket (H : StaticMeshHost) (nSocket : Nat)
    (Entry : FHoudiniMeshSocket) (Socket : UStaticMeshSocket) : UStaticMeshSocket :=
  let Tag : String := if Entry.Tag ≠ "" then Entry.Tag else ""
  let Tag : String := if Entry.Actor ≠ "" then Tag ++ ("|" ++ Entry.Actor) else Tag
  { Socket with
    RelativeLocation := Entry.Transform.Translation
    RelativeRotation := H.Rotator Entry.Transform.Rotation
    RelativeScale := Entry.Transform.Scale3D
    SocketName := if Entry.Name ≠ "" then Entry.Name else "Socket " ++ toString nSocket
    Tag := Tag
    bSocketCreatedAtImport := true }

/-- The loop `for (nSocket = ...; nSocket < AllSockets.Num(); nSocket++)` of
`AddMeshSocketsToStaticMesh`, from index `nSocket` on; the list is the part
of `AllSockets` not visited yet, the result is `StaticMesh->Sockets`. -/
def AddMeshSocketsToStaticMesh.loop (H : StaticMeshHost) :
    Nat → List FHoudiniMeshSocket → List (Option UStaticMeshSocket) →
      List (Option UStaticMeshSocket)
  | _, [], Sockets => Sockets
  | nSocket, Entry :: rest, Sockets =>
    match H.NewObject nSocket with
    | none => AddMeshSocketsToStaticMesh.loop H (nSocket + 1) rest Sockets
    | some Socket =>
      AddMeshSocketsToStaticMesh.loop H (nSocket + 1) rest
        (Sockets ++ [some (AddMeshSocketsToStaticMesh.newSocket H nSocket Entry Socket)])

/-- Function `FHoudiniEngineUtils::AddMeshSocketsToStaticMesh`: the return
value and the mesh after the call (`StaticMesh` is `none` for a null
pointer). -/
def AddMeshSocketsToStaticMesh (H : StaticMeshHost) (StaticMesh : Option UStaticMesh)
    (AllSockets : List FHoudiniMeshSocket) (CleanImportSockets : Bool) :
    Bool × Option UStaticMesh :=
  match StaticMesh with
  | none => (false, none)
  | some Mesh =>
    if Mesh.IsPendingKill then (false, some Mesh)
    else
      let Sockets :=
        if CleanImportSockets then
          Mesh.Sockets.filter fun Socket =>
            !(match Socket with
              | some S => S.bSocketCreatedAtImport
              | none => true)
        else Mesh.Sockets
      if AllSockets.length ≤ 0 then (true, some { Mesh with Sockets := Sockets })
      else
        (true, some { Mesh with
          Sockets := AddMeshSocketsToStaticMesh.loop H 0 AllSockets Sockets })

/-! ### Tag sanitization -/

/-- The character `TEXT('\0')`. -/
def NUL : Char := Char.ofNat 0

/-- Host string `FString`: `Data` is the array that `GetCharArray()` returns,
empty for the empty string and otherwise the characters followed by the
terminating `NUL`. -/
structure FString where
  Data : List Char
  deriving DecidableEq, Repr

/-- The `FString` holding the characters `s`. -/
def FString.ofChars (s : List Char) : FString :=
  if s = [] then ⟨[]⟩ else ⟨s ++ [NUL]⟩

/-- The test `bIsValid` of `SanitizeHAPIVariableName`. -/
def bIsValid (CurChar : Char) : Bool :=
  decide (('A' ≤ CurChar ∧ CurChar ≤ 'Z')
    ∨ ('a' ≤ CurChar ∧ CurChar ≤ 'z')
    ∨ ('0' ≤ CurChar ∧ CurChar ≤ '9')
    ∨ CurChar = '_' ∨ CurChar = NUL)

/-- Function `FHoudiniEngineUtils::SanitizeHAPIVariableName`: the return value and the
string after the call. -/
def SanitizeHAPIVariableName (String : FString) : Bool × FString :=
  let StrArray := String.Data
  if StrArray.length ≤ 0 then (false, String)
  else
    let StrArray := StrArray.map fun CurChar => if bIsValid CurChar then CurChar else '_'
    let StrArray :=
      match StrArray with
      | FirstChar :: _ =>
        if '0' ≤ FirstChar ∧ FirstChar ≤ '9' then '_' :: StrArray else StrArray
      | [] => StrArray
    (true, ⟨StrArray⟩)

/-- A landscape transform: identity rotation, `Z` location 300, scale
`(100, 100, 50)`. -/
def exampleLandscapeTransform : FTransform := ⟨FQuat.Identity, ⟨0, 0, 300⟩, ⟨100, 100, 50⟩⟩

/-- A host transform with pairwise different components. -/
def exampleTransform : FTransform := ⟨⟨1, 2, 3, 4⟩, ⟨5, 6, 7⟩, ⟨1, 2, 3⟩⟩

/-- An engine transform as `FHoudiniApi::Transform_Init` leaves it. -/
def exampleTransformInit : HAPI_Transform :=
  ⟨(0, 0, 0), (0, 0, 0, 1), (1, 1, 1), (0, 0, 0), HAPI_RSTOrder.HAPI_SRT⟩

/-- A volume info before a codec fills it. -/
def exampleVolumeInfo : HAPI_VolumeInfo :=
  { xLength := 0, yLength := 0, zLength := 0, minX := 0, minY := 0, minZ := 0
    transform := exampleTransformInit
    type := HAPI_VolumeType.HAPI_VOLUMETYPE_INVALID
    storage := HAPI_StorageType.HAPI_STORAGETYPE_INVALID
    tupleSize := 0, tileSize := 0, hasTaper := false, xTaper := 0, yTaper := 0 }

/-- The single-precision value of the host's constant `PI`. -/
def examplePI : ℚ := 13176795 / 4194304

/-- A debug colour carrying the sentinel and `(min, max, spacing) =
(2.5, 7.5, 0.02)`. -/
def exampleSentinelColor : FLinearColor := ⟨5 / 2, 15 / 2, 1 / 50, examplePI⟩

/-- A group session answering every primitive query with the membership
`[1, 0, -1, 1]`. -/
def exampleGroupSession : GroupSession :=
  { GetGroupMembership := fun _ _ _ _ _ => some (false, fun i => [1, 0, -1, 1].getD i 0)
    GetGroupMembershipOnPackedInstancePart := fun _ _ _ _ _ => none }

/-- A group session answering every primitive query with the membership
`[0, -1, 1, 1]`. -/
def exampleLateGroupSession : GroupSession :=
  { GetGroupMembership := fun _ _ _ _ _ => some (false, fun i => [0, -1, 1, 1].getD i 0)
    GetGroupMembershipOnPackedInstancePart := fun _ _ _ _ _ => none }

/-- A part of four triangles over six points. -/
def examplePartInfo : HAPI_PartInfo :=
  { id := 0, faceCount := 4, vertexCount := 12, pointCount := 6, isInstanced := false }

/-- A default-constructed socket. -/
def exampleSocket0 : FHoudiniMeshSocket :=
  ⟨⟨FQuat.Identity, FVector.ZeroVector, FVector.OneVector⟩, "", "", ""⟩

/-- A descriptor as `FHoudiniApi::AttributeInfo_Init` leaves it. -/
def exampleAttributeInfoInit : HAPI_AttributeInfo :=
  { exist := false, owner := HAPI_ATTROWNER_INVALID
    storage := HAPI_StorageType.HAPI_STORAGETYPE_INVALID
    originalOwner := HAPI_ATTROWNER_INVALID, count := 0, tupleSize := 0 }

/-- The descriptors of the example part: the float attribute `N` exists on
the owners 1 and 3 (two elements of tuple size 1), the string attributes `S`
and `F` exist on owner 1 (two elements of tuple size 3), nothing else
exists. -/
def exampleGetAttributeInfo (name : String) (owner : HAPI_AttributeOwner) :
    HAPI_AttributeInfo :=
  if name = "N" ∧ (owner = 1 ∨ owner = 3) then
    { exist := true, owner := owner, storage := HAPI_StorageType.HAPI_STORAGETYPE_FLOAT
      originalOwner := owner, count := 2, tupleSize := 1 }
  else if (name = "S" ∨ name = "F") ∧ owner = 1 then
    { exist := true, owner := owner, storage := HAPI_StorageType.HAPI_STORAGETYPE_STRING
      originalOwner := owner, count := 2, tupleSize := 3 }
  else { exampleAttributeInfoInit with owner := owner }

/-- An engine session over the example part: every descriptor call succeeds;
the numeric data of `N` is `10, 11` on owner 1 and `30, 31` on owner 3; the
string handles of `S` are `5, 6, 5, 6, ..`; the string data call fails for
`F`. -/
def exampleAttributeSession : AttributeSession :=
  { AttributeInfo_Init := exampleAttributeInfoInit
    GetPartInfo := fun _ _ => some examplePartInfo
    GetAttributeNames := fun _ _ _ _ => none
    GetAttributeInfo := fun _ _ name owner => some (exampleGetAttributeInfo name owner)
    GetAttributeFloatData := fun _ _ _ info _ _ _ =>
      some fun i => if info.owner = 1 then 10 + (i : ℚ) else 30 + (i : ℚ)
    GetAttributeFloat64Data := fun _ _ _ _ _ _ _ => none
    GetAttributeIntData := fun _ _ _ info _ _ _ =>
      some fun i => if info.owner = 1 then 10 + (i : Int) else 30 + (i : Int)
    GetAttributeInt64Data := fun _ _ _ _ _ _ _ => none
    GetAttributeStringData := fun _ _ name _ _ _ =>
      if name = "F" then none else some fun i => 5 + ((i % 2 : Nat) : Int)
    ToFString := fun h => if h = 5 then "a" else "b" }

/-- A configuration of the socket extractors: position factor 100, value
equality of sockets, the default arguments of the string reader (no override,
invalid owner), the socket attribute names starting with `mysocket_`. -/
def exampleSocketConfig : SocketConfig :=
  { PositionFactor := 100
    Socket0 := exampleSocket0
    FindBetween := fun _ _ => FQuat.Identity
    socketEq := fun a b => decide (a = b)
    DefaultTupleSize := 0
    DefaultOwner := HAPI_ATTROWNER_INVALID
    HAPI_UNREAL_ATTRIB_MESH_SOCKET_PREFIX := "mysocket_"
    HAPI_UNREAL_GROUP_SOCKET_PREFIX := "socket"
    HAPI_UNREAL_GROUP_SOCKET_PREFIX_OLD := "mesh_socket"
    HAPI_UNREAL_ATTRIB_POSITION := "P"
    HAPI_UNREAL_ATTRIB_ROTATION := "rot"
    HAPI_UNREAL_ATTRIB_NORMAL := "N"
    HAPI_UNREAL_ATTRIB_SCALE := "scale"
    HAPI_UNREAL_ATTRIB_MESH_SOCKET_NAME := "mesh_socket_name"
    HAPI_UNREAL_ATTRIB_MESH_SOCKET_NAME_OLD := "mesh_socketname"
    HAPI_UNREAL_ATTRIB_MESH_SOCKET_ACTOR := "mesh_socket_actor"
    HAPI_UNREAL_ATTRIB_MESH_SOCKET_ACTOR_OLD := "mesh_socketactor"
    HAPI_UNREAL_ATTRIB_MESH_SOCKET_TAG := "mesh_socket_tag"
    HAPI_UNREAL_ATTRIB_MESH_SOCKET_TAG_OLD := "mesh_sockettag" }

/-- The descriptors of a part whose only attributes are the detail
attributes `mysocket_0_pos` (one element of three floats) and
`mysocket_0_name` (one element of `nameTupleSize` strings). -/
def exampleSocketGetAttributeInfo (nameTupleSize : Int) (name : String)
    (owner : HAPI_AttributeOwner) : HAPI_AttributeInfo :=
  if name = "mysocket_0_pos" ∧ owner = HAPI_ATTROWNER_DETAIL then
    { exist := true, owner := owner, storage := HAPI_StorageType.HAPI_STORAGETYPE_FLOAT
      originalOwner := owner, count := 1, tupleSize := 3 }
  else if name = "mysocket_0_name" ∧ owner = HAPI_ATTROWNER_DETAIL then
    { exist := true, owner := owner, storage := HAPI_StorageType.HAPI_STORAGETYPE_STRING
      originalOwner := owner, count := 1, tupleSize := nameTupleSize }
  else exampleAttributeInfoInit

/-- An engine session on the part of `exampleSocketGetAttributeInfo`: the
position is `(0, 0, 0)` and every string handle of the name attribute stands
for the text `hilt`. -/
def exampleSocketSession (nameTupleSize : Int) : AttributeSession :=
  { AttributeInfo_Init := exampleAttributeInfoInit
    GetPartInfo := fun _ _ => none
    GetAttributeNames := fun _ _ _ _ => none
    GetAttributeInfo := fun _ _ name owner =>
      some (exampleSocketGetAttributeInfo nameTupleSize name owner)
    GetAttributeFloatData := fun _ _ _ _ _ _ _ => some fun _ => 0
    GetAttributeFloat64Data := fun _ _ _ _ _ _ _ => none
    GetAttributeIntData := fun _ _ _ _ _ _ _ => none
    GetAttributeInt64Data := fun _ _ _ _ _ _ _ => none
    GetAttributeStringData := fun _ _ _ _ _ _ => some fun _ => 1
    ToFString := fun _ => "hilt" }

/-- An engine session on a part of six points whose only attribute is the
point attribute `P` (six elements of three floats, the value at buffer slot
`i` being `i`); every string handle stands for the text `socket_a`. -/
def exampleGroupSocketSession : AttributeSession :=
  { exampleSocketSession 1 with
    GetPartInfo := fun _ _ => some examplePartInfo
    GetAttributeInfo := fun _ _ name owner =>
      some (if name = "P" ∧ owner = HAPI_ATTROWNER_POINT then
        { exist := true, owner := owner, storage := HAPI_StorageType.HAPI_STORAGETYPE_FLOAT
          originalOwner := owner, count := 6, tupleSize := 3 }
      else exampleAttributeInfoInit)
    GetAttributeFloatData := fun _ _ _ _ _ _ _ => some fun i => (i : ℚ)
    ToFString := fun _ => "socket_a" }

/-- A geometry with one point group and no primitive group. -/
def exampleGroupNamesSession : GroupNamesSession :=
  { GetGeoInfo := fun _ => some (1, 0)
    GetGroupCountOnPackedInstancePart := fun _ _ => none
    GetGroupNames := fun _ _ _ => some fun _ => 1
    GetGroupNamesOnPackedInstancePart := fun _ _ _ _ => none }

/-- A socket with default name, actor, tag, rotation and scale at the
location `(x, y, z)`. -/
def exampleSocketAt (x y z : ℚ) : FHoudiniMeshSocket :=
  { exampleSocket0 with
    Transform := { exampleSocket0.Transform with Translation := ⟨x, y, z⟩ } }

/-- A default socket renamed `hilt`. -/
def exampleHiltSocket : FHoudiniMeshSocket :=
  { exampleSocket0 with Name := "hilt" }

/-- An engine session on a part with one primitive attribute and one detail
attribute, both named `unreal_uproperty_Mass`: floats of tuple size 1, two
elements on the primitives (`10, 11`) and one on the detail. -/
def exampleGenericSession : AttributeSession :=
  { exampleAttributeSession with
    GetPartInfo := fun _ _ => some { examplePartInfo with attributeCounts := [0, 0, 1, 1] }
    GetAttributeNames := fun _ _ _ _ => some fun _ => 1
    GetAttributeInfo := fun _ _ name owner =>
      some (if name = "unreal_uproperty_Mass" ∧ owner = HAPI_ATTROWNER_PRIM then
        { exist := true, owner := owner, storage := HAPI_StorageType.HAPI_STORAGETYPE_FLOAT
          originalOwner := owner, count := 2, tupleSize := 1 }
      else if name = "unreal_uproperty_Mass" ∧ owner = HAPI_ATTROWNER_DETAIL then
        { exist := true, owner := owner, storage := HAPI_StorageType.HAPI_STORAGETYPE_FLOAT
          originalOwner := owner, count := 1, tupleSize := 1 }
      else exampleAttributeInfoInit)
    GetAttributeFloatData := fun _ _ _ _ _ start _ => some fun i => 10 + (start.toNat : ℚ) + i
    ToFString := fun _ => "unreal_uproperty_Mass" }

/-- Settings of the example export. -/
def exampleHeightfieldConfig : HeightfieldConfig :=
  { bUseDefaultUE4Scaling := false, TransformInit := exampleTransformInit
    VolumeInfoInit := exampleVolumeInfo, PI := examplePI }

/-- An engine session in which `CreateHeightFieldInput` creates the nodes 1
(heightfield), 2 (height), 3 (mask) and 4 (merge), new volume nodes get the
id 10, and every call succeeds except `SetVolumeInfo` on the mask node 3. -/
def exampleMaskFailureSession : HeightfieldSession :=
  { CreateHeightFieldInput := fun _ _ _ _ => some (1, 2, 3, 4)
    HapiCookNode := fun _ _ => true
    GetGeoInfo := fun _ NodeId => some NodeId
    GetPartInfo := fun _ _ PartId => some PartId
    SetVolumeInfo := fun _ NodeId _ _ => decide (NodeId ≠ 3)
    SetHeightFieldData := fun _ _ _ _ _ _ _ => true
    CommitGeo := fun _ _ => true
    CreateHeightfieldInputVolumeNode := fun _ _ _ _ _ => some 10
    GetNodeInfo := fun _ NodeId => some (NodeId, 0)
    IsNodeValid := fun _ _ _ => some true
    ConnectNodeInput := fun _ _ _ _ _ => true
    Discarded := fun _ _ => true }

/-- A landscape of 2 x 2 height samples with a level, a landscape info and no
layer. -/
def exampleLayerlessProxy : ALandscapeProxy :=
  { LandscapeData := some ([32767, 32767, 32767, 32767], 2, 2, ⟨0, 0, 0⟩, ⟨100, 100, 0⟩)
    ActorToWorld := exampleLandscapeTransform
    HasLevel := true
    LandscapeInfo := some [] }

/-- An engine session in which every call succeeds: `CreateHeightFieldInput`
creates the nodes 1 (heightfield), 2 (height), 3 (mask) and 4 (merge), and a
new volume node gets the id 10 plus the number of calls issued so far. -/
def exampleSuccessSession : HeightfieldSession :=
  { exampleMaskFailureSession with
    SetVolumeInfo := fun _ _ _ _ => true
    CreateHeightfieldInputVolumeNode := fun Calls _ _ _ _ => some (10 + (Calls.length : Int)) }

/-- A layer of 2 x 2 samples with the name `LayerName`. -/
def exampleLayer (LayerName : String) : LandscapeLayer :=
  { LayerData := some ([0, 128, 255, 64], ⟨0, 0, 0, 0⟩, LayerName) }

/-- A landscape of 2 x 2 height samples with four layers: `grass`, a layer
without data, `Mask` and `rock`. -/
def exampleLayeredProxy : ALandscapeProxy :=
  { exampleLayerlessProxy with
    LandscapeInfo := some [exampleLayer "grass", ⟨none⟩, exampleLayer "Mask",
      exampleLayer "rock"] }

/-- An engine session like `exampleSuccessSession` in which `CommitGeo` fails
on every node other than the four nodes of the heightfield graph. -/
def exampleCommitFailureSession : HeightfieldSession :=
  { exampleSuccessSession with CommitGeo := fun _ NodeId => decide (NodeId < 10) }

/-- The number of `CreateHeightfieldInputVolumeNode` calls among `Calls`. -/
def createdVolumeCount (Calls : List HapiEvent) : Nat :=
  (Calls.filter fun e =>
    match e.call with
    | HapiCall.CreateHeightfieldInputVolumeNode _ _ _ _ => true
    | _ => false).length

/-- A landscape transform with the default scale `(100, 100, 100)` at the
origin. -/
def exampleDefaultScaleTransform : FTransform :=
  ⟨FQuat.Identity, ⟨0, 0, 0⟩, ⟨100, 100, 100⟩⟩

/-- The attribute names `unreal_material` and `unreal_material_hole`, with a
descriptor as `AttributeInfo_Init` leaves it. -/
def exampleMaterialConfig : MaterialConfig :=
  { HAPI_UNREAL_ATTRIB_MATERIAL := "unreal_material"
    HAPI_UNREAL_ATTRIB_MATERIAL_HOLE := "unreal_material_hole"
    AttributeInfo_Init := exampleAttributeInfoInit }

/-- An engine in which every geometry call succeeds. -/
def exampleGeometrySession : GeometrySession :=
  { status := fun _ _ => true }

/-- A landscape with the material `/Game/M_Ground.M_Ground` and the hole
material `/Game/M_Hole.M_Hole`. -/
def exampleMaterialProxy : ALandscapeProxy :=
  { exampleLayerlessProxy with
    LandscapeMaterial := some "/Game/M_Ground.M_Ground"
    LandscapeHoleMaterial := some "/Game/M_Hole.M_Hole" }

/-- A socket object as `NewObject` returns it. -/
def exampleNewSocket : UStaticMeshSocket :=
  { RelativeLocation := FVector.ZeroVector, RelativeRotation := ⟨0, 0, 0⟩
    RelativeScale := FVector.OneVector, SocketName := "", Tag := ""
    bSocketCreatedAtImport := false }

/-- A host whose `NewObject` always returns a live object; the rotation
conversion is a placeholder. -/
def exampleStaticMeshHost : StaticMeshHost :=
  { Rotator := fun q => ⟨q.X, q.Y, q.Z⟩, NewObject := fun _ => some exampleNewSocket }

/-- A mesh with a hand-made socket `manual`, a socket `old` imported at
creation, a null entry and a hand-made socket `grip`. -/
def exampleStaticMesh : UStaticMesh :=
  { IsPendingKill := false
    Sockets :=
      [some { exampleNewSocket with SocketName := "manual" },
        some { exampleNewSocket with SocketName := "old", bSocketCreatedAtImport := true },
        none,
        some { exampleNewSocket with SocketName := "grip" }] }

/-- A landscape of two components: the first has the override material `M_A`
and the override hole material `H_A`, the second has no override. -/
def exampleTwoTileProxy : ALandscapeProxy :=
  { exampleLayerlessProxy with
    LandscapeComponents := [⟨some "M_A", some "H_A"⟩, ⟨none, none⟩] }

/-! ## Theorems -/

/-! ### Group / vertex-list builder -/

theorem groupFaceBody_length (Full : List Int) (F : Nat) (st : VertexListState) :
    (groupFaceBody Full F st).NewVertexList.length = st.NewVertexList.length := by
  unfold groupFaceBody
  dsimp only
  split <;> simp

theorem groupFaceLoop_length (Full : List Int) (rest : List Int) :
    ∀ (F : Nat) (st : VertexListState),
      (groupFaceLoop Full F rest st).NewVertexList.length = st.NewVertexList.length := by
  induction rest with
  | nil => intro F st; rfl
  | cons m rest ih =>
    intro F st
    rw [groupFaceLoop, ih]
    split
    · rfl
    · exact groupFaceBody_length Full F st

theorem groupFaceBody_getElem? (Full : List Int) (F : Nat) (st : VertexListState) (j : Nat)
    (hj : j / 3 ≠ F) :
    (groupFaceBody Full F st).NewVertexList[j]? = st.NewVertexList[j]? := by
  unfold groupFaceBody
  dsimp only
  split
  · have h0 : F * 3 ≠ j := by omega
    have h1 : F * 3 + 1 ≠ j := by omega
    have h2 : F * 3 + 2 ≠ j := by omega
    rw [List.getElem?_set_ne h2, List.getElem?_set_ne h1, List.getElem?_set_ne h0]
  · rfl

theorem groupFaceLoop_getElem? (Full : List Int) (j : Nat) (rest : List Int) :
    ∀ (F : Nat) (st : VertexListState),
      (∀ m, F ≤ j / 3 → rest[j / 3 - F]? = some m → m ≤ 0) →
      (groupFaceLoop Full F rest st).NewVertexList[j]? = st.NewVertexList[j]? := by
  induction rest with
  | nil => intro F st _; rfl
  | cons m rest ih =>
    intro F st h
    rw [groupFaceLoop, ih]
    · split
      · rfl
      · rename_i hm
        apply groupFaceBody_getElem?
        intro hF
        apply hm
        apply h m (by omega)
        simp [hF]
    · intro m2 hle hget
      apply h m2 (by omega)
      have : j / 3 - F = (j / 3 - (F + 1)) + 1 := by omega
      rw [this, List.getElem?_cons_succ]
      exact hget

/-- C1: for every full vertex list and every reply of the engine to the
primitive-group membership query (any membership values, any `allEquals`
flag, also a failed query), `NewVertexList` has exactly the length of
`FullVertexList`, and for every primitive `f` whose membership value is
`<= 0` each of the slots `3f`, `3f+1`, `3f+2` that exists in the list holds the
sentinel `-1`. -/
theorem HapiGetVertexListForGroup_noncompaction (S : GroupSession) (GeoId : Int)
    (PartInfo : HAPI_PartInfo) (GroupName : String) (FullVertexList : List Int)
    (AllVertexList0 AllGroupFaceIndices0 : List Int) :
    (HapiGetVertexListForGroup S GeoId PartInfo GroupName FullVertexList
        AllVertexList0 AllGroupFaceIndices0).NewVertexList.length = FullVertexList.length ∧
    ∀ (f k : Nat) (m : Int),
      (HapiGetGroupMembership S GeoId PartInfo HAPI_GroupType.HAPI_GROUPTYPE_PRIM
        GroupName [] false).OutGroupMembership[f]? = some m →
      m ≤ 0 → k < 3 → 3 * f + k < FullVertexList.length →
      (HapiGetVertexListForGroup S GeoId PartInfo GroupName FullVertexList
        AllVertexList0 AllGroupFaceIndices0).NewVertexList[3 * f + k]? = some (-1) := by
  unfold HapiGetVertexListForGroup
  dsimp only
  split
  · refine ⟨by simp, ?_⟩
    intro f k m _ _ _ hlt
    simp [List.getElem?_replicate, hlt]
  · refine ⟨by rw [groupFaceLoop_length]; simp, ?_⟩
    intro f k m hget hm hk hlt
    have hdiv : (3 * f + k) / 3 = f := by omega
    rw [groupFaceLoop_getElem?]
    · simp [List.getElem?_replicate, hlt]
    · intro m2 _ hget2
      rw [hdiv, Nat.sub_zero, hget] at hget2
      cases hget2
      exact hm

/-- C1 at a concrete mesh: four triangles with membership `[1, 0, -1, 1]`;
the slot `3` of the excluded primitive `1` holds the sentinel. -/
theorem HapiGetVertexListForGroup_noncompaction_witness :
    (HapiGetGroupMembership exampleGroupSession 0 examplePartInfo
        HAPI_GroupType.HAPI_GROUPTYPE_PRIM "g" [] false).OutGroupMembership[1]? = some 0 ∧
    (0 : Int) ≤ 0 ∧ 0 < 3 ∧ 3 * 1 + 0 < [0, 1, 2, 2, 1, 3, 3, 1, 4, 4, 1, (5 : Int)].length ∧
    (HapiGetVertexListForGroup exampleGroupSession 0 examplePartInfo "g"
        [0, 1, 2, 2, 1, 3, 3, 1, 4, 4, 1, 5] [] []).NewVertexList.length
      = [0, 1, 2, 2, 1, 3, 3, 1, 4, 4, 1, (5 : Int)].length ∧
    (HapiGetVertexListForGroup exampleGroupSession 0 examplePartInfo "g"
        [0, 1, 2, 2, 1, 3, 3, 1, 4, 4, 1, 5] [] []).NewVertexList[3 * 1 + 0]? = some (-1) :=
  ⟨by decide, by decide, by decide, by decide,
    (HapiGetVertexListForGroup_noncompaction exampleGroupSession 0 examplePartInfo "g"
      [0, 1, 2, 2, 1, 3, 3, 1, 4, 4, 1, 5] [] []).1,
    (HapiGetVertexListForGroup_noncompaction exampleGroupSession 0 examplePartInfo "g"
      [0, 1, 2, 2, 1, 3, 3, 1, 4, 4, 1, 5] [] []).2 1 0 0 (by decide) (by decide) (by decide)
      (by decide)⟩

/-- The whole output on the concrete mesh of four triangles. -/
theorem HapiGetVertexListForGroup_example :
    (HapiGetVertexListForGroup exampleGroupSession 0 examplePartInfo "g"
        [0, 1, 2, 2, 1, 3, 3, 1, 4, 4, 1, 5] [] []).NewVertexList
      = [0, 1, 2, -1, -1, -1, -1, -1, -1, 4, 1, 5] := by
  decide

/-! ### Heightfield codecs -/

theorem index_div {n a b : Nat} (h : a < n) : (a + b * n) / n = b := by
  have hn : 0 < n := by omega
  rw [Nat.add_mul_div_right _ _ hn, Nat.div_eq_of_lt h, Nat.zero_add]

theorem index_mod {n a : Nat} (b : Nat) (h : a < n) : (a + b * n) % n = a := by
  rw [Nat.add_mul_mod_self_right, Nat.mod_eq_of_lt h]

theorem index_lt {n m a b : Nat} (ha : a < n) (hb : b < m) : a + b * n < n * m := by
  have h1 : (b + 1) * n ≤ m * n := Nat.mul_le_mul_right n hb
  have h2 : (b + 1) * n = b * n + n := by ring
  have h3 : m * n = n * m := Nat.mul_comm m n
  omega

/-- The writes of a list of index pairs, in order. -/
theorem convertLoop_eq_foldl (decode : Nat → ℚ) (data : List Nat) (X HX HY : Nat)
    (Out : List ℚ) :
    convertLoop decode data X HX HY Out =
      (convertLoopIndices X HX HY).foldl
        (fun out p => out.set p.1 (decode (data.getD p.2 0))) Out := by
  unfold convertLoop convertLoopIndices
  generalize List.range HY = L
  induction L generalizing Out with
  | nil => rfl
  | cons nY L ih =>
    rw [List.foldl_cons, ih, List.flatMap_cons, List.foldl_append, List.foldl_map]

theorem foldl_set_length (f : Nat → ℚ) (l : List (Nat × Nat)) :
    ∀ Out : List ℚ, (l.foldl (fun out p => out.set p.1 (f p.2)) Out).length = Out.length := by
  induction l with
  | nil => intro Out; rfl
  | cons p l ih => intro Out; rw [List.foldl_cons, ih, List.length_set]

theorem foldl_set_of_not_mem (f : Nat → ℚ) (h : Nat) (l : List (Nat × Nat)) :
    ∀ Out : List ℚ, h ∉ l.map Prod.fst →
      (l.foldl (fun out p => out.set p.1 (f p.2)) Out)[h]? = Out[h]? := by
  induction l with
  | nil => intro Out _; rfl
  | cons p l ih =>
    intro Out hmem
    rw [List.map_cons, List.mem_cons, not_or] at hmem
    rw [List.foldl_cons, ih _ hmem.2, List.getElem?_set_ne (Ne.symm hmem.1)]

theorem foldl_set_of_mem (f : Nat → ℚ) (h u : Nat) (l : List (Nat × Nat)) :
    ∀ Out : List ℚ, (l.map Prod.fst).Nodup → (h, u) ∈ l → h < Out.length →
      (l.foldl (fun out p => out.set p.1 (f p.2)) Out)[h]? = some (f u) := by
  induction l with
  | nil => intro Out _ hmem; cases hmem
  | cons p l ih =>
    intro Out hnd hmem hlt
    rw [List.map_cons, List.nodup_cons] at hnd
    rw [List.foldl_cons]
    rcases List.mem_cons.1 hmem with heq | hin
    · subst heq
      rw [foldl_set_of_not_mem f _ l _ hnd.1, List.getElem?_set_self hlt]
    · exact ih _ hnd.2 hin (by rw [List.length_set]; exact hlt)

theorem mem_convertLoopIndices {X HX HY : Nat} {p : Nat × Nat} :
    p ∈ convertLoopIndices X HX HY ↔
      ∃ nY nX, nY < HY ∧ nX < HX ∧ p = (nX + nY * HX, nY + nX * X) := by
  unfold convertLoopIndices
  simp only [List.mem_flatMap, List.mem_map, List.mem_range]
  constructor
  · rintro ⟨nY, hY, nX, hX, rfl⟩
    exact ⟨nY, nX, hY, hX, rfl⟩
  · rintro ⟨nY, nX, hY, hX, rfl⟩
    exact ⟨nY, hY, nX, hX, rfl⟩

theorem convertLoopIndices_fst_nodup (X HX HY : Nat) :
    ((convertLoopIndices X HX HY).map Prod.fst).Nodup := by
  unfold convertLoopIndices
  rw [List.map_flatMap, List.nodup_flatMap]
  constructor
  · intro nY _
    rw [List.map_map]
    apply List.Nodup.map _ (List.nodup_range HX)
    intro a b hab
    simpa using hab
  · apply List.Pairwise.imp_of_mem _ (List.nodup_range HY)
    intro a b _ _ hab x hxa hxb
    simp only [List.map_map, List.mem_map, List.mem_range, Function.comp] at hxa hxb
    obtain ⟨i, hi, rfl⟩ := hxa
    obtain ⟨j, hj, hij⟩ := hxb
    apply hab
    have h1 := @index_div HX i a hi
    have h2 := @index_div HX j b hj
    rw [hij] at h2
    omega

theorem convertLoopIndices_snd_nodup (X HX HY : Nat) (hXY : HY ≤ X) :
    ((convertLoopIndices X HX HY).map Prod.snd).Nodup := by
  unfold convertLoopIndices
  rw [List.map_flatMap, List.nodup_flatMap]
  constructor
  · intro nY hnY
    have hpos : 0 < X := by have := List.mem_range.1 hnY; omega
    rw [List.map_map]
    apply List.Nodup.map _ (List.nodup_range HX)
    intro a b hab
    simp only [Function.comp] at hab
    have : a * X = b * X := by omega
    exact Nat.eq_of_mul_eq_mul_right hpos this
  · apply List.Pairwise.imp_of_mem _ (List.nodup_range HY)
    intro a b ha hb hab x hxa hxb
    simp only [List.map_map, List.mem_map, List.mem_range, Function.comp] at hxa hxb
    obtain ⟨i, _, rfl⟩ := hxa
    obtain ⟨j, _, hij⟩ := hxb
    apply hab
    have ha2 : a < X := by have := List.mem_range.1 ha; omega
    have hb2 : b < X := by have := List.mem_range.1 hb; omega
    have h1 := index_mod i ha2
    have h2 := index_mod j hb2
    rw [hij] at h2
    omega

theorem convertLoopIndices_fst_perm (X HX HY : Nat) :
    ((convertLoopIndices X HX HY).map Prod.fst).Perm (List.range (HX * HY)) := by
  rw [List.perm_ext_iff_of_nodup (convertLoopIndices_fst_nodup X HX HY) (List.nodup_range _)]
  intro a
  rw [List.mem_range, List.mem_map]
  constructor
  · rintro ⟨p, hp, rfl⟩
    obtain ⟨nY, nX, hY, hX, rfl⟩ := mem_convertLoopIndices.1 hp
    exact index_lt hX hY
  · intro ha
    have hpos : 0 < HX := by
      rcases Nat.eq_zero_or_pos HX with h | h
      · rw [h, Nat.zero_mul] at ha; omega
      · exact h
    refine ⟨(a % HX + a / HX * HX, a / HX + a % HX * X), ?_, ?_⟩
    · exact mem_convertLoopIndices.2
        ⟨a / HX, a % HX, Nat.div_lt_of_lt_mul ha, Nat.mod_lt _ hpos, rfl⟩
    · exact Nat.mod_add_div' a HX

theorem convertLoopIndices_snd_perm (HX HY : Nat) :
    ((convertLoopIndices HY HX HY).map Prod.snd).Perm (List.range (HY * HX)) := by
  rw [List.perm_ext_iff_of_nodup (convertLoopIndices_snd_nodup HY HX HY (le_refl _))
    (List.nodup_range _)]
  intro a
  rw [List.mem_range, List.mem_map]
  constructor
  · rintro ⟨p, hp, rfl⟩
    obtain ⟨nY, nX, hY, hX, rfl⟩ := mem_convertLoopIndices.1 hp
    exact index_lt hY hX
  · intro ha
    have hpos : 0 < HY := by
      rcases Nat.eq_zero_or_pos HY with h | h
      · rw [h, Nat.zero_mul] at ha; omega
      · exact h
    refine ⟨(a / HY + a % HY * HX, a % HY + a / HY * HY), ?_, ?_⟩
    · exact mem_convertLoopIndices.2
        ⟨a % HY, a / HY, Nat.mod_lt _ hpos, Nat.div_lt_of_lt_mul ha, rfl⟩
    · exact Nat.mod_add_div' a HY

/-- Value of one output cell after the conversion loop over an
`XSize * YSize` grid. -/
theorem convertLoop_cell (decode : Nat → ℚ) (data : List Nat) (X Y nX nY : Nat)
    (hX : nX < Y) (hY : nY < X) :
    (convertLoop decode data X Y X (List.replicate (Y * X) 0))[nX + nY * Y]? =
      some (decode (data.getD (nY + nX * X) 0)) := by
  rw [convertLoop_eq_foldl]
  apply foldl_set_of_mem (fun u => decode (data.getD u 0)) _ _ _ _
    (convertLoopIndices_fst_nodup X Y X)
  · exact mem_convertLoopIndices.2 ⟨nY, nX, hY, hX, rfl⟩
  · rw [List.length_replicate]
    exact index_lt hX hY

theorem convertLoop_length (decode : Nat → ℚ) (data : List Nat) (X HX HY : Nat)
    (Out : List ℚ) : (convertLoop decode data X HX HY Out).length = Out.length := by
  rw [convertLoop_eq_foldl]
  exact foldl_set_length (fun u => decode (data.getD u 0)) _ Out

theorem ConvertLandscapeDataToHeightfieldData_values (bUse : Bool) (TI : HAPI_Transform)
    (data : List Nat) (X Y : Nat) (Min Max : FVector) (T : FTransform) (V0 : HAPI_VolumeInfo)
    (hX : 2 ≤ X) (hY : 2 ≤ Y) (hlen : data.length = X * Y) :
    ∃ r, ConvertLandscapeDataToHeightfieldData bUse TI data X Y Min Max T V0 = some r ∧
      r.HeightfieldFloatValues =
        convertLoop (heightValue T) data X Y X (List.replicate (Y * X) 0) := by
  unfold ConvertLandscapeDataToHeightfieldData
  have h1 : ¬ ((Y : Int) < 2 ∨ (X : Int) < 2) := by omega
  have h2 : ¬ ((data.length : Int) ≠ (Y : Int) * (X : Int)) := by
    rw [hlen]; push_cast; simp [mul_comm]
  have h3 : ((Y : Int) * (X : Int)).toNat = Y * X := by
    rw [← Nat.cast_mul, Int.toNat_natCast]
  simp only [h1, h2, if_false, Int.toNat_natCast, h3]
  exact ⟨_, rfl, rfl⟩

theorem ConvertLandscapeLayerDataToHeightfieldData_values (PI : ℚ)
    (data : List Nat) (X Y : Nat) (color : FLinearColor) (V0 : HAPI_VolumeInfo)
    (hX : 2 ≤ X) (hY : 2 ≤ Y) (hlen : data.length = X * Y) :
    ∃ r, ConvertLandscapeLayerDataToHeightfieldData PI data X Y color V0 = some r ∧
      r.LayerFloatValues =
        convertLoop (layerValue (layerCodec PI data color)) data X Y X
          (List.replicate (Y * X) 0) := by
  unfold ConvertLandscapeLayerDataToHeightfieldData
  have h1 : ¬ ((Y : Int) < 2 ∨ (X : Int) < 2) := by omega
  have h2 : ¬ ((data.length : Int) ≠ (Y : Int) * (X : Int)) := by
    rw [hlen]; push_cast; simp [mul_comm]
  have h3 : ((Y : Int) * (X : Int)).toNat = Y * X := by
    rw [← Nat.cast_mul, Int.toNat_natCast]
  simp only [h1, h2, if_false, Int.toNat_natCast, h3]
  exact ⟨_, rfl, rfl⟩

theorem scanMinMax_min (data : List Nat) :
    ∀ a b : Nat, (scanMinMax data a b).1 ≤ a ∧ (∀ x ∈ data, (scanMinMax data a b).1 ≤ x) ∧
      ((scanMinMax data a b).1 = a ∨ (scanMinMax data a b).1 ∈ data) := by
  unfold scanMinMax
  induction data with
  | nil => intro a b; simp
  | cons x data ih =>
    intro a b
    rw [List.foldl_cons]
    have ha : (if x < a then x else a) ≤ a ∧ (if x < a then x else a) ≤ x ∧
        ((if x < a then x else a) = a ∨ (if x < a then x else a) = x) := by
      split <;> omega
    obtain ⟨h1, h2, h3⟩ := ih (if x < a then x else a) (if x > b then x else b)
    dsimp only at h1 h2 h3 ⊢
    generalize (if x < a then x else a) = a2 at ha h1 h2 h3 ⊢
    generalize (if x > b then x else b) = b2 at h1 h2 h3 ⊢
    refine ⟨by omega, ?_, ?_⟩
    · intro y hy
      rcases List.mem_cons.1 hy with rfl | hy
      · omega
      · exact h2 y hy
    · rcases h3 with h3 | h3
      · rcases ha.2.2 with h4 | h4
        · left; rw [h3, h4]
        · right; rw [h3, h4]; exact List.mem_cons_self _ _
      · right; exact List.mem_cons_of_mem _ h3

/-- C3: for every `XSize >= 2`, `YSize >= 2` and input of length
`XSize * YSize`, both codecs return an output of length `XSize * YSize` whose
element at `nX + nY * YSize` is the decoded input element at `nY + nX * XSize`,
for every `nX < YSize` and `nY < XSize`; both indices are in range; the output
is the result of the writes `convertLoopIndices` in order, whose output
indices and whose input indices are each a permutation of
`0 .. XSize * YSize - 1` (every slot written once, every sample read once). -/
theorem codecs_transpose (bUse : Bool) (TI : HAPI_Transform) (PI : ℚ)
    (data : List Nat) (X Y : Nat) (Min Max : FVector) (T : FTransform)
    (color : FLinearColor) (V0 : HAPI_VolumeInfo)
    (hX : 2 ≤ X) (hY : 2 ≤ Y) (hlen : data.length = X * Y) :
    ∃ h l,
      ConvertLandscapeDataToHeightfieldData bUse TI data X Y Min Max T V0 = some h ∧
      ConvertLandscapeLayerDataToHeightfieldData PI data X Y color V0 = some l ∧
      h.HeightfieldFloatValues.length = X * Y ∧
      l.LayerFloatValues.length = X * Y ∧
      (∀ nX nY, nX < Y → nY < X →
        nY + nX * X < X * Y ∧ nX + nY * Y < X * Y ∧
        ∃ s : Nat, data[nY + nX * X]? = some s ∧
          h.HeightfieldFloatValues[nX + nY * Y]? = some (heightValue T s) ∧
          l.LayerFloatValues[nX + nY * Y]? =
            some (layerValue (layerCodec PI data color) s)) ∧
      h.HeightfieldFloatValues =
        (convertLoopIndices X Y X).foldl
          (fun out p => out.set p.1 (heightValue T (data.getD p.2 0)))
          (List.replicate (X * Y) 0) ∧
      l.LayerFloatValues =
        (convertLoopIndices X Y X).foldl
          (fun out p => out.set p.1 (layerValue (layerCodec PI data color) (data.getD p.2 0)))
          (List.replicate (X * Y) 0) ∧
      ((convertLoopIndices X Y X).map Prod.fst).Perm (List.range (X * Y)) ∧
      ((convertLoopIndices X Y X).map Prod.snd).Perm (List.range (X * Y)) := by
  obtain ⟨h, hh, hhv⟩ := ConvertLandscapeDataToHeightfieldData_values bUse TI data X Y Min Max
    T V0 hX hY hlen
  obtain ⟨l, hl, hlv⟩ := ConvertLandscapeLayerDataToHeightfieldData_values PI data X Y color V0
    hX hY hlen
  have hcomm : Y * X = X * Y := Nat.mul_comm Y X
  refine ⟨h, l, hh, hl, ?_, ?_, ?_, ?_, ?_, ?_, ?_⟩
  · rw [hhv, convertLoop_length, List.length_replicate, hcomm]
  · rw [hlv, convertLoop_length, List.length_replicate, hcomm]
  · intro nX nY hnX hnY
    have hlt : nY + nX * X < data.length := by rw [hlen]; exact index_lt hnY hnX
    refine ⟨by rw [← hlen]; exact hlt, by rw [← hcomm]; exact index_lt hnX hnY,
      data[nY + nX * X], List.getElem?_eq_getElem hlt, ?_, ?_⟩
    · rw [hhv, convertLoop_cell _ _ _ _ _ _ hnX hnY, List.getD_eq_getElem _ _ hlt]
    · rw [hlv, convertLoop_cell _ _ _ _ _ _ hnX hnY, List.getD_eq_getElem _ _ hlt]
  · rw [hhv, convertLoop_eq_foldl, hcomm]
  · rw [hlv, convertLoop_eq_foldl, hcomm]
  · rw [← hcomm]; exact convertLoopIndices_fst_perm X Y X
  · exact convertLoopIndices_snd_perm Y X

/-- C4: on every valid grid the layer codec stores, for the sample `s` of a
cell, `LayerMin + (s - IntMin) * LayerSpacing`. Without the sentinel (alpha
different from `PI`) `IntMin = 0`, `LayerMin = 0`, `LayerSpacing = 1/255`, so
that 0 decodes to 0, 255 to 1 and `s` to `s / 255`. With the sentinel (alpha
equal to `PI`) `LayerMin = R`, `LayerSpacing = B` and `IntMin` is the minimum
of the sample array. -/
theorem layer_codec_value_mapping (PI : ℚ) (data : List Nat) (X Y : Nat)
    (color : FLinearColor) (V0 : HAPI_VolumeInfo)
    (hX : 2 ≤ X) (hY : 2 ≤ Y) (hlen : data.length = X * Y) :
    ∃ r, ConvertLandscapeLayerDataToHeightfieldData PI data X Y color V0 = some r ∧
      (∀ nX nY, nX < Y → nY < X →
        ∃ s : Nat, data[nY + nX * X]? = some s ∧
          r.LayerFloatValues[nX + nY * Y]? =
            some ((layerCodec PI data color).LayerMin
              + ((s : ℚ) - ((layerCodec PI data color).IntMin : ℚ))
                * (layerCodec PI data color).LayerSpacing)) ∧
      (color.A ≠ PI →
        (layerCodec PI data color).IntMin = 0 ∧
        (layerCodec PI data color).LayerMin = 0 ∧
        (layerCodec PI data color).LayerSpacing = 1 / 255 ∧
        layerValue (layerCodec PI data color) 0 = 0 ∧
        layerValue (layerCodec PI data color) 255 = 1 ∧
        ∀ s : Nat, layerValue (layerCodec PI data color) s = (s : ℚ) / 255) ∧
      (color.A = PI →
        (layerCodec PI data color).LayerMin = color.R ∧
        (layerCodec PI data color).LayerSpacing = color.B ∧
        (layerCodec PI data color).IntMin ∈ data ∧
        ∀ x ∈ data, (layerCodec PI data color).IntMin ≤ x) := by
  obtain ⟨r, hr, hv⟩ := ConvertLandscapeLayerDataToHeightfieldData_values PI data X Y color V0
    hX hY hlen
  refine ⟨r, hr, ?_, ?_, ?_⟩
  · intro nX nY hnX hnY
    have hlt : nY + nX * X < data.length := by rw [hlen]; exact index_lt hnY hnX
    refine ⟨data[nY + nX * X], List.getElem?_eq_getElem hlt, ?_⟩
    rw [hv, convertLoop_cell _ _ _ _ _ _ hnX hnY, List.getD_eq_getElem _ _ hlt]
    unfold layerValue
    rw [add_comm]
  · intro hA
    have hc : layerCodec PI data color =
        { IntMin := 0, IntMax := 255, DigitRange := 255, LayerMin := 0, LayerMax := 1,
          LayerSpacing := 1 / 255 } := by
      unfold layerCodec
      simp only [hA, if_false]
    rw [hc]
    refine ⟨rfl, rfl, rfl, ?_, ?_, ?_⟩
    · norm_num [layerValue]
    · norm_num [layerValue]
    · intro s
      simp only [layerValue, Nat.cast_zero, sub_zero, add_zero]
      ring
  · intro hA
    have hpos : 0 < data.length := by
      rw [hlen]; exact Nat.mul_pos (by omega) (by omega)
    have hc : layerCodec PI data color =
        { IntMin := (scanMinMax data (data.getD 0 0) (data.getD 0 0)).1
          IntMax := (scanMinMax data (data.getD 0 0) (data.getD 0 0)).2
          DigitRange := ((scanMinMax data (data.getD 0 0) (data.getD 0 0)).2 : ℚ)
            - ((scanMinMax data (data.getD 0 0) (data.getD 0 0)).1 : ℚ)
          LayerMin := color.R, LayerMax := color.G, LayerSpacing := color.B } := by
      unfold layerCodec
      simp only [hA, if_true]
    rw [hc]
    obtain ⟨_, h2, h3⟩ := scanMinMax_min data (data.getD 0 0) (data.getD 0 0)
    refine ⟨rfl, rfl, ?_, h2⟩
    rcases h3 with h3 | h3
    · dsimp only
      rw [h3, List.getD_eq_getElem _ _ hpos]
      exact List.getElem_mem _
    · exact h3

/-- C3 at a concrete grid: `XSize = 2`, `YSize = 3`. -/
theorem codecs_transpose_witness :
    2 ≤ 2 ∧ 2 ≤ 3 ∧ [10, 11, 20, 21, 30, 31].length = 2 * 3 ∧
    ((convertLoopIndices 2 3 2).map Prod.fst).Perm (List.range (2 * 3)) ∧
    ((convertLoopIndices 2 3 2).map Prod.snd).Perm (List.range (2 * 3)) := by
  obtain ⟨_, _, _, _, _, _, _, _, _, h1, h2⟩ :=
    codecs_transpose false exampleTransformInit examplePI [10, 11, 20, 21, 30, 31] 2 3
      ⟨0, 0, 0⟩ ⟨1, 1, 1⟩ exampleLandscapeTransform exampleSentinelColor exampleVolumeInfo
      (by decide) (by decide) (by decide)
  exact ⟨by decide, by decide, by decide, h1, h2⟩

/-- The index pairs of the conversion loop on the grid `XSize = 2`,
`YSize = 3`. -/
theorem convertLoopIndices_example :
    convertLoopIndices 2 3 2 = [(0, 0), (1, 2), (2, 4), (3, 1), (4, 3), (5, 5)] := by
  decide

/-- C4 at the specification's scenario: alpha is `PI`, `(R, G, B) =
(2.5, 7.5, 0.02)`, samples `[100, 255, 128, 4]` on a `2 x 2` grid; the sample
128 is decoded with `IntMin = 4`, the minimum of the samples. -/
theorem layer_codec_value_mapping_witness :
    2 ≤ 2 ∧ 2 ≤ 2 ∧ [100, 255, 128, 4].length = 2 * 2 ∧
    ∃ r, ConvertLandscapeLayerDataToHeightfieldData examplePI [100, 255, 128, 4] 2 2
        exampleSentinelColor exampleVolumeInfo = some r ∧
      r.LayerFloatValues[1]? = some (5 / 2 + ((128 : ℚ) - 4) * (1 / 50)) := by
  obtain ⟨r, hr, hcell, _, hs⟩ :=
    layer_codec_value_mapping examplePI [100, 255, 128, 4] 2 2 exampleSentinelColor
      exampleVolumeInfo (by decide) (by decide) (by decide)
  refine ⟨by decide, by decide, by decide, r, hr, ?_⟩
  obtain ⟨s, hs1, hs2⟩ := hcell 1 0 (by decide) (by decide)
  have hs3 : s = 128 := by simpa using hs1.symm
  have hmin : (layerCodec examplePI [100, 255, 128, 4] exampleSentinelColor).IntMin = 4 := by
    simp [layerCodec, scanMinMax, exampleSentinelColor]
  obtain ⟨hR, hB, _, _⟩ := hs rfl
  rw [hmin, hR, hB, hs3] at hs2
  simpa [exampleSentinelColor] using hs2

/-! ### Transform converter -/

/-- The round trip in converting mode, component by component. -/
theorem convert_round_trip (F : ℚ) (T : FTransform) :
    TranslateHapiTransform true F (TranslateUnrealTransform true F T) =
      { Rotation := FQuat.neg T.Rotation
        Translation :=
          ⟨T.Translation.X / F * F, T.Translation.Y / F * F, T.Translation.Z / F * F⟩
        Scale3D := ⟨T.Scale3D.X, T.Scale3D.Z, T.Scale3D.Y⟩ } := by
  simp [TranslateHapiTransform, TranslateUnrealTransform, FQuat.neg]

/-- The round trip in non-converting mode, component by component. -/
theorem direct_round_trip (F : ℚ) (T : FTransform) :
    TranslateHapiTransform false F (TranslateUnrealTransform false F T) =
      { Rotation := T.Rotation
        Translation := ⟨T.Translation.X * F, T.Translation.Y * F, T.Translation.Z * F⟩
        Scale3D := T.Scale3D } := by
  simp [TranslateHapiTransform, TranslateUnrealTransform]

/-- C6, the code at the host scale `(1, 2, 3)`: the round trip in converting
mode returns the scale `(1, 3, 2)`, with Y and Z exchanged. -/
theorem scale_round_trip_exchanges_YZ :
    (TranslateHapiTransform true 100 (TranslateUnrealTransform true 100 exampleTransform)).Scale3D
      = ⟨1, 3, 2⟩ ∧
    (TranslateHapiTransform true 100 (TranslateUnrealTransform true 100 exampleTransform)).Scale3D
      ≠ exampleTransform.Scale3D := by
  rw [convert_round_trip]
  exact ⟨rfl, by decide⟩

/-- C7: in converting mode the rotation of
`TranslateHapiTransform (TranslateUnrealTransform T)` is the quaternion of `T`
with all four components negated, hence `q` or `-q`. -/
theorem rotation_round_trip (F : ℚ) (T : FTransform) :
    (TranslateHapiTransform true F (TranslateUnrealTransform true F T)).Rotation
      = FQuat.neg T.Rotation ∧
    ((TranslateHapiTransform true F (TranslateUnrealTransform true F T)).Rotation = T.Rotation ∨
      (TranslateHapiTransform true F (TranslateUnrealTransform true F T)).Rotation
        = FQuat.neg T.Rotation) := by
  rw [convert_round_trip]
  exact ⟨rfl, Or.inr rfl⟩

/-- C8, the code at the host translation `(5, 6, 7)` with unit factor 100:
the round trip in non-converting mode returns the translation
`(500, 600, 700)`, while rotation and scale are reproduced. -/
theorem direct_round_trip_scales_translation :
    (TranslateHapiTransform false 100
        (TranslateUnrealTransform false 100 exampleTransform)).Translation = ⟨500, 600, 700⟩ ∧
    (TranslateHapiTransform false 100
        (TranslateUnrealTransform false 100 exampleTransform)).Translation
      ≠ exampleTransform.Translation ∧
    (TranslateUnrealTransform false 100 exampleTransform).position = (5, 6, 7) ∧
    (TranslateHapiTransform false 100
        (TranslateUnrealTransform false 100 exampleTransform)).Rotation
      = exampleTransform.Rotation ∧
    (TranslateHapiTransform false 100
        (TranslateUnrealTransform false 100 exampleTransform)).Scale3D
      = exampleTransform.Scale3D := by
  rw [direct_round_trip]
  refine ⟨?_, ?_, ?_, rfl, rfl⟩
  · norm_num [exampleTransform]
  · norm_num [exampleTransform]
  · simp [TranslateUnrealTransform, exampleTransform]

/-! ### Mesh socket extractor -/

/-- The terminator test of `bIsValid` also keeps a `NUL` inside the character
array, where the reference definition would put an underscore: the strings
that the function is compared on are sequences of characters other than
`NUL`. -/
theorem SanitizeHAPIVariableName_keeps_NUL :
    SanitizeHAPIVariableName ⟨['a', NUL, '!', NUL]⟩ = (true, ⟨['a', NUL, '_', NUL]⟩) := by
  decide

/-! ### Group / vertex-list builder: member triangles and first-valid bookkeeping -/

theorem groupFaceBody_member_slot (Full : List Int) (F : Nat) (st : VertexListState) (j : Nat)
    (hj : j / 3 = F) (hF : F * 3 + 2 < Full.length)
    (hlen : st.NewVertexList.length = Full.length) :
    (groupFaceBody Full F st).NewVertexList[j]? = Full[j]? := by
  unfold groupFaceBody
  dsimp only
  rw [if_pos hF]
  have hj3 : j = F * 3 ∨ j = F * 3 + 1 ∨ j = F * 3 + 2 := by omega
  have hjlt : j < Full.length := by omega
  simp only [List.getElem?_set, List.length_set, hlen]
  rcases hj3 with h | h | h
  · subst h
    simp [hjlt, List.getD_eq_getElem?_getD, List.getElem?_eq_getElem hjlt]
  · subst h
    simp [hjlt, List.getD_eq_getElem?_getD, List.getElem?_eq_getElem hjlt]
  · subst h
    simp [hjlt, List.getD_eq_getElem?_getD, List.getElem?_eq_getElem hjlt]

theorem groupFaceLoop_member_slot (Full : List Int) (j : Nat) (rest : List Int) :
    ∀ (F : Nat) (st : VertexListState) (m : Int),
      st.NewVertexList.length = Full.length → F ≤ j / 3 → rest[j / 3 - F]? = some m → 0 < m →
      (j / 3) * 3 + 2 < Full.length →
      (groupFaceLoop Full F rest st).NewVertexList[j]? = Full[j]? := by
  induction rest with
  | nil => intro F st m _ _ h; simp at h
  | cons m0 rest ih =>
    intro F st m hlen hle hget hm hF
    rw [groupFaceLoop]
    by_cases hjF : j / 3 = F
    · rw [hjF, Nat.sub_self, List.getElem?_cons_zero] at hget
      cases hget
      rw [if_neg (by omega), groupFaceLoop_getElem?]
      · exact groupFaceBody_member_slot Full F st j hjF (by rw [← hjF]; exact hF) hlen
      · intro m2 hle2 _
        omega
    · have hsub : j / 3 - F = (j / 3 - (F + 1)) + 1 := by omega
      rw [hsub, List.getElem?_cons_succ] at hget
      apply ih (F + 1) _ m _ (by omega) hget hm hF
      split
      · exact hlen
      · rw [groupFaceBody_length]; exact hlen

theorem groupFaceLoop_AllFaceList (Full : List Int) (rest : List Int) :
    ∀ (F : Nat) (st : VertexListState),
      (groupFaceLoop Full F rest st).AllFaceList = st.AllFaceList ++ memberFaces F rest := by
  induction rest with
  | nil => intro F st; simp [groupFaceLoop, memberFaces]
  | cons m rest ih =>
    intro F st
    rw [groupFaceLoop, ih, memberFaces]
    split
    · rfl
    · simp [groupFaceBody]

theorem mem_memberFaces (rest : List Int) :
    ∀ (F : Nat) (x : Int),
      x ∈ memberFaces F rest ↔ ∃ i m, x = ((F + i : Nat) : Int) ∧ rest[i]? = some m ∧ 0 < m := by
  induction rest with
  | nil => intro F x; simp [memberFaces]
  | cons m0 rest ih =>
    intro F x
    rw [memberFaces]
    constructor
    · intro h
      split at h
      · obtain ⟨i, m, hx, hget, hm⟩ := (ih (F + 1) x).1 h
        exact ⟨i + 1, m, by rw [hx]; congr 1; omega, by simpa using hget, hm⟩
      · rcases List.mem_cons.1 h with h | h
        · exact ⟨0, m0, by simpa using h, by simp, by omega⟩
        · obtain ⟨i, m, hx, hget, hm⟩ := (ih (F + 1) x).1 h
          exact ⟨i + 1, m, by rw [hx]; congr 1; omega, by simpa using hget, hm⟩
    · rintro ⟨i, m, hx, hget, hm⟩
      cases i with
      | zero =>
        simp only [List.getElem?_cons_zero, Option.some.injEq] at hget
        subst hget
        rw [if_neg (by omega)]
        exact List.mem_cons.2 (Or.inl (by simpa using hx))
      | succ i =>
        rw [List.getElem?_cons_succ] at hget
        have hin : x ∈ memberFaces (F + 1) rest :=
          (ih (F + 1) x).2 ⟨i, m, by rw [hx]; congr 1; omega, hget, hm⟩
        split
        · exact hin
        · exact List.mem_cons_of_mem _ hin

theorem memberFaces_ge (rest : List Int) (F : Nat) (x : Int) (h : x ∈ memberFaces F rest) :
    (F : Int) ≤ x := by
  obtain ⟨i, _, hx, _, _⟩ := (mem_memberFaces rest F x).1 h
  rw [hx]
  omega

theorem memberFaces_sorted (rest : List Int) :
    ∀ F : Nat, (memberFaces F rest).Pairwise (· < ·) := by
  induction rest with
  | nil => intro F; simp [memberFaces]
  | cons m rest ih =>
    intro F
    rw [memberFaces]
    split
    · exact ih (F + 1)
    · refine List.pairwise_cons.2 ⟨?_, ih (F + 1)⟩
      intro x hx
      have := memberFaces_ge rest (F + 1) x hx
      omega

/-- C15: for every triangle mesh whose full vertex list has 3 entries per
primitive and every successful membership query, each primitive `f` with
membership `> 0` has `NewVertexList[3f+k] = FullVertexList[3f+k]` for
`k = 0, 1, 2` (same slots, same order), and the group's face list holds
exactly the indices of the member primitives, in ascending order. -/
theorem HapiGetVertexListForGroup_member_triangles (S : GroupSession) (GeoId : Int)
    (PartInfo : HAPI_PartInfo) (GroupName : String) (FullVertexList : List Int)
    (AllVertexList0 AllGroupFaceIndices0 : List Int)
    (hok : (HapiGetGroupMembership S GeoId PartInfo HAPI_GroupType.HAPI_GROUPTYPE_PRIM
      GroupName [] false).ok = true)
    (htri : FullVertexList.length = 3 * (HapiGetGroupMembership S GeoId PartInfo
      HAPI_GroupType.HAPI_GROUPTYPE_PRIM GroupName [] false).OutGroupMembership.length) :
    (∀ (f k : Nat) (m : Int),
      (HapiGetGroupMembership S GeoId PartInfo HAPI_GroupType.HAPI_GROUPTYPE_PRIM
        GroupName [] false).OutGroupMembership[f]? = some m →
      0 < m → k < 3 →
      3 * f + k < FullVertexList.length ∧
      (HapiGetVertexListForGroup S GeoId PartInfo GroupName FullVertexList
        AllVertexList0 AllGroupFaceIndices0).NewVertexList[3 * f + k]?
        = FullVertexList[3 * f + k]?) ∧
    (∀ x : Int,
      x ∈ (HapiGetVertexListForGroup S GeoId PartInfo GroupName FullVertexList
        AllVertexList0 AllGroupFaceIndices0).AllFaceList ↔
      ∃ (f : Nat) (m : Int), x = (f : Int) ∧
        (HapiGetGroupMembership S GeoId PartInfo HAPI_GroupType.HAPI_GROUPTYPE_PRIM
          GroupName [] false).OutGroupMembership[f]? = some m ∧ 0 < m) ∧
    (HapiGetVertexListForGroup S GeoId PartInfo GroupName FullVertexList
      AllVertexList0 AllGroupFaceIndices0).AllFaceList.Pairwise (· < ·) := by
  unfold HapiGetVertexListForGroup
  dsimp only
  rw [hok]
  simp only [Bool.not_true, Bool.false_eq_true, if_false]
  refine ⟨?_, ?_, ?_⟩
  · intro f k m hget hm hk
    have hf : f < (HapiGetGroupMembership S GeoId PartInfo HAPI_GroupType.HAPI_GROUPTYPE_PRIM
        GroupName [] false).OutGroupMembership.length := by
      by_contra hnot
      rw [List.getElem?_eq_none (by omega)] at hget
      cases hget
    have hdiv : (3 * f + k) / 3 = f := by omega
    refine ⟨by omega, ?_⟩
    apply groupFaceLoop_member_slot FullVertexList (3 * f + k) _ 0 _ m
    · simp
    · omega
    · rw [hdiv, Nat.sub_zero]; exact hget
    · exact hm
    · rw [hdiv]; omega
  · intro x
    rw [groupFaceLoop_AllFaceList, List.nil_append, mem_memberFaces]
    simp only [Nat.zero_add]
  · rw [groupFaceLoop_AllFaceList, List.nil_append]
    exact memberFaces_sorted _ 0

/-- C15 at the concrete mesh of four triangles with membership
`[1, 0, -1, 1]`: the member primitive 3 keeps its three entries in place. -/
theorem HapiGetVertexListForGroup_member_triangles_witness :
    (HapiGetGroupMembership exampleGroupSession 0 examplePartInfo
        HAPI_GroupType.HAPI_GROUPTYPE_PRIM "g" [] false).ok = true ∧
    [0, 1, 2, 2, 1, 3, 3, 1, 4, 4, 1, (5 : Int)].length =
      3 * (HapiGetGroupMembership exampleGroupSession 0 examplePartInfo
        HAPI_GroupType.HAPI_GROUPTYPE_PRIM "g" [] false).OutGroupMembership.length ∧
    (HapiGetVertexListForGroup exampleGroupSession 0 examplePartInfo "g"
        [0, 1, 2, 2, 1, 3, 3, 1, 4, 4, 1, 5] [] []).NewVertexList[3 * 3 + 2]?
      = [0, 1, 2, 2, 1, 3, 3, 1, 4, 4, 1, (5 : Int)][3 * 3 + 2]? ∧
    (HapiGetVertexListForGroup exampleGroupSession 0 examplePartInfo "g"
        [0, 1, 2, 2, 1, 3, 3, 1, 4, 4, 1, 5] [] []).AllFaceList.Pairwise (· < ·) :=
  ⟨by decide, by decide,
    ((HapiGetVertexListForGroup_member_triangles exampleGroupSession 0 examplePartInfo "g"
      [0, 1, 2, 2, 1, 3, 3, 1, 4, 4, 1, 5] [] [] (by decide) (by decide)).1 3 2 1
      (by decide) (by decide) (by decide)).2,
    (HapiGetVertexListForGroup_member_triangles exampleGroupSession 0 examplePartInfo "g"
      [0, 1, 2, 2, 1, 3, 3, 1, 4, 4, 1, 5] [] [] (by decide) (by decide)).2.2⟩

/-- The face list on the concrete mesh of four triangles. -/
theorem HapiGetVertexListForGroup_faces_example :
    (HapiGetVertexListForGroup exampleGroupSession 0 examplePartInfo "g"
        [0, 1, 2, 2, 1, 3, 3, 1, 4, 4, 1, 5] [] []).AllFaceList = [0, 3] := by
  decide

theorem groupFaceLoop_found (Full : List Int) (rest : List Int) :
    ∀ (F : Nat) (st : VertexListState), 0 < st.ProcessedWedges →
      0 < (groupFaceLoop Full F rest st).ProcessedWedges ∧
      (groupFaceLoop Full F rest st).FirstValidPrim = st.FirstValidPrim ∧
      (groupFaceLoop Full F rest st).FirstValidVertex = st.FirstValidVertex := by
  induction rest with
  | nil => intro F st h; exact ⟨h, rfl, rfl⟩
  | cons m rest ih =>
    intro F st h
    rw [groupFaceLoop]
    split
    · exact ih (F + 1) st h
    · have hb : 0 < (groupFaceBody Full F st).ProcessedWedges := by
        simp only [groupFaceBody]; omega
      obtain ⟨h1, h2, h3⟩ := ih (F + 1) _ hb
      have hne : ¬ st.ProcessedWedges = 0 := by omega
      refine ⟨h1, ?_, ?_⟩
      · rw [h2]; simp [groupFaceBody, hne]
      · rw [h3]; simp [groupFaceBody, hne]

theorem groupFaceLoop_no_member (Full : List Int) (rest : List Int) :
    ∀ (F : Nat) (st : VertexListState), (∀ m ∈ rest, m ≤ 0) →
      groupFaceLoop Full F rest st = st := by
  induction rest with
  | nil => intro F st _; rfl
  | cons m rest ih =>
    intro F st h
    rw [groupFaceLoop, if_pos (h m (List.mem_cons_self _ _))]
    exact ih (F + 1) st fun x hx => h x (List.mem_cons_of_mem _ hx)

theorem groupFaceLoop_first (Full : List Int) (rest : List Int) :
    ∀ (F : Nat) (st : VertexListState) (i : Nat) (m : Int), st.ProcessedWedges = 0 →
      rest[i]? = some m → 0 < m → (∀ j m2, j < i → rest[j]? = some m2 → m2 ≤ 0) →
      0 < (groupFaceLoop Full F rest st).ProcessedWedges ∧
      (groupFaceLoop Full F rest st).FirstValidPrim = ((F + i : Nat) : Int) ∧
      (groupFaceLoop Full F rest st).FirstValidVertex = 3 * ((F + i : Nat) : Int) := by
  induction rest with
  | nil => intro F st i m _ h; simp at h
  | cons m0 rest ih =>
    intro F st i m hz hget hm hmin
    rw [groupFaceLoop]
    cases i with
    | zero =>
      simp only [List.getElem?_cons_zero, Option.some.injEq] at hget
      subst hget
      rw [if_neg (by omega)]
      have hb : 0 < (groupFaceBody Full F st).ProcessedWedges := by
        simp only [groupFaceBody]; omega
      obtain ⟨h1, h2, h3⟩ := groupFaceLoop_found Full rest (F + 1) _ hb
      refine ⟨h1, ?_, ?_⟩
      · rw [h2]; simp [groupFaceBody, hz]
      · rw [h3]; simp [groupFaceBody, hz]; ring
    | succ i =>
      rw [List.getElem?_cons_succ] at hget
      have h0 : m0 ≤ 0 := hmin 0 m0 (by omega) (by simp)
      rw [if_pos h0]
      have := ih (F + 1) st i m hz hget hm
        (fun j m2 hj hg => hmin (j + 1) m2 (by omega) (by simpa using hg))
      have hidx : F + 1 + i = F + (i + 1) := by omega
      rw [hidx] at this
      exact this

/-- C16: when the membership query succeeds and `f` is the smallest
primitive index with membership `> 0`, `FirstValidPrim = f` and
`FirstValidVertex = 3 * f` (and the returned count is positive); when the
group has no member or the membership query fails, both are 0 and the
function returns 0. -/
theorem HapiGetVertexListForGroup_first_valid (S : GroupSession) (GeoId : Int)
    (PartInfo : HAPI_PartInfo) (GroupName : String) (FullVertexList : List Int)
    (AllVertexList0 AllGroupFaceIndices0 : List Int) :
    (∀ (f : Nat) (m : Int),
      (HapiGetGroupMembership S GeoId PartInfo HAPI_GroupType.HAPI_GROUPTYPE_PRIM
        GroupName [] false).ok = true →
      (HapiGetGroupMembership S GeoId PartInfo HAPI_GroupType.HAPI_GROUPTYPE_PRIM
        GroupName [] false).OutGroupMembership[f]? = some m →
      0 < m →
      (∀ (g : Nat) (m2 : Int), g < f →
        (HapiGetGroupMembership S GeoId PartInfo HAPI_GroupType.HAPI_GROUPTYPE_PRIM
          GroupName [] false).OutGroupMembership[g]? = some m2 → m2 ≤ 0) →
      (HapiGetVertexListForGroup S GeoId PartInfo GroupName FullVertexList
        AllVertexList0 AllGroupFaceIndices0).FirstValidPrim = (f : Int) ∧
      (HapiGetVertexListForGroup S GeoId PartInfo GroupName FullVertexList
        AllVertexList0 AllGroupFaceIndices0).FirstValidVertex = 3 * (f : Int) ∧
      0 < (HapiGetVertexListForGroup S GeoId PartInfo GroupName FullVertexList
        AllVertexList0 AllGroupFaceIndices0).ProcessedWedges) ∧
    (((HapiGetGroupMembership S GeoId PartInfo HAPI_GroupType.HAPI_GROUPTYPE_PRIM
        GroupName [] false).ok = false ∨
      ∀ m ∈ (HapiGetGroupMembership S GeoId PartInfo HAPI_GroupType.HAPI_GROUPTYPE_PRIM
        GroupName [] false).OutGroupMembership, m ≤ 0) →
      (HapiGetVertexListForGroup S GeoId PartInfo GroupName FullVertexList
        AllVertexList0 AllGroupFaceIndices0).FirstValidPrim = 0 ∧
      (HapiGetVertexListForGroup S GeoId PartInfo GroupName FullVertexList
        AllVertexList0 AllGroupFaceIndices0).FirstValidVertex = 0 ∧
      (HapiGetVertexListForGroup S GeoId PartInfo GroupName FullVertexList
        AllVertexList0 AllGroupFaceIndices0).ProcessedWedges = 0) := by
  unfold HapiGetVertexListForGroup
  dsimp only
  constructor
  · intro f m hok hget hm hmin
    rw [hok]
    simp only [Bool.not_true, Bool.false_eq_true, if_false]
    have h := groupFaceLoop_first FullVertexList _ 0
      { NewVertexList := List.replicate FullVertexList.length (-1)
        AllVertexList := AllVertexList0
        AllFaceList := []
        AllGroupFaceIndices := AllGroupFaceIndices0
        FirstValidVertex := 0
        FirstValidPrim := 0
        ProcessedWedges := 0 } f m rfl hget hm (fun j m2 hj hg => hmin j m2 hj hg)
    rw [Nat.zero_add] at h
    exact ⟨h.2.1, h.2.2, h.1⟩
  · intro h
    by_cases hok : (HapiGetGroupMembership S GeoId PartInfo HAPI_GroupType.HAPI_GROUPTYPE_PRIM
        GroupName [] false).ok = true
    · rw [hok]
      simp only [Bool.not_true, Bool.false_eq_true, if_false]
      have hall : ∀ m ∈ (HapiGetGroupMembership S GeoId PartInfo
          HAPI_GroupType.HAPI_GROUPTYPE_PRIM GroupName [] false).OutGroupMembership, m ≤ 0 := by
        rcases h with h | h
        · rw [hok] at h; cases h
        · exact h
      rw [groupFaceLoop_no_member _ _ _ _ hall]
      exact ⟨rfl, rfl, rfl⟩
    · have hf : (HapiGetGroupMembership S GeoId PartInfo HAPI_GroupType.HAPI_GROUPTYPE_PRIM
          GroupName [] false).ok = false := by
        simpa using hok
      rw [hf]
      exact ⟨rfl, rfl, rfl⟩

/-- C16 at a concrete mesh of four triangles with membership `[0, -1, 1, 1]`:
the first member primitive is 2 and its first vertex slot is 6. -/
theorem HapiGetVertexListForGroup_first_valid_witness :
    (HapiGetGroupMembership exampleLateGroupSession 0 examplePartInfo
        HAPI_GroupType.HAPI_GROUPTYPE_PRIM "g" [] false).ok = true ∧
    (HapiGetGroupMembership exampleLateGroupSession 0 examplePartInfo
        HAPI_GroupType.HAPI_GROUPTYPE_PRIM "g" [] false).OutGroupMembership[2]? = some 1 ∧
    (HapiGetVertexListForGroup exampleLateGroupSession 0 examplePartInfo "g"
        [0, 1, 2, 2, 1, 3, 3, 1, 4, 4, 1, 5] [] []).FirstValidPrim = ((2 : Nat) : Int) ∧
    (HapiGetVertexListForGroup exampleLateGroupSession 0 examplePartInfo "g"
        [0, 1, 2, 2, 1, 3, 3, 1, 4, 4, 1, 5] [] []).FirstValidVertex = 3 * ((2 : Nat) : Int) :=
  have h := (HapiGetVertexListForGroup_first_valid exampleLateGroupSession 0 examplePartInfo "g"
      [0, 1, 2, 2, 1, 3, 3, 1, 4, 4, 1, 5] [] []).1 2 1 (by decide) (by decide) (by decide)
      (by
        intro g m2 hg hget
        have hcases : g = 0 ∨ g = 1 := by omega
        rcases hcases with rfl | rfl
        · have : m2 = 0 := by
            have h0 : (HapiGetGroupMembership exampleLateGroupSession 0 examplePartInfo
              HAPI_GroupType.HAPI_GROUPTYPE_PRIM "g" [] false).OutGroupMembership[0]?
                = some 0 := by decide
            rw [h0] at hget; cases hget; rfl
          omega
        · have : m2 = -1 := by
            have h1 : (HapiGetGroupMembership exampleLateGroupSession 0 examplePartInfo
              HAPI_GroupType.HAPI_GROUPTYPE_PRIM "g" [] false).OutGroupMembership[1]?
                = some (-1) := by decide
            rw [h1] at hget; cases hget; rfl
          omega)
  ⟨by decide, by decide, h.1, h.2.1⟩

/-! ### Attribute accessor -/

theorem allOwners_eq : allOwners = [0, 1, 2, 3] := by decide

/-- The numeric readers keep the descriptor and the buffer consistent: on a
successful read the array has `count * tupleSize` entries, the tuple size
being the override when that is positive. -/
theorem numeric_read_size (S : AttributeSession) (g p : Int) (n : String)
    (info0 : HAPI_AttributeInfo) (ts : Int) (owner : HAPI_AttributeOwner) :
    ((HapiGetAttributeDataAsFloat S g p n info0 ts owner).ok = true →
      (HapiGetAttributeDataAsFloat S g p n info0 ts owner).OutData.length =
        ((HapiGetAttributeDataAsFloat S g p n info0 ts owner).OutAttributeInfo.count *
          (HapiGetAttributeDataAsFloat S g p n info0 ts owner).OutAttributeInfo.tupleSize).toNat ∧
      (0 < ts →
        (HapiGetAttributeDataAsFloat S g p n info0 ts owner).OutAttributeInfo.tupleSize = ts)) ∧
    ((HapiGetAttributeDataAsInteger S g p n info0 ts owner).ok = true →
      (HapiGetAttributeDataAsInteger S g p n info0 ts owner).OutData.length =
        ((HapiGetAttributeDataAsInteger S g p n info0 ts owner).OutAttributeInfo.count *
          (HapiGetAttributeDataAsInteger S g p n info0 ts owner).OutAttributeInfo.tupleSize).toNat ∧
      (0 < ts →
        (HapiGetAttributeDataAsInteger S g p n info0 ts owner).OutAttributeInfo.tupleSize
          = ts)) := by
  constructor
  · unfold HapiGetAttributeDataAsFloat
    dsimp only
    split
    · intro h; cases h
    · split
      · intro h; cases h
      · split
        · intro h; cases h
        · intro _
          refine ⟨by simp, ?_⟩
          intro hts
          simp [hts]
  · unfold HapiGetAttributeDataAsInteger
    dsimp only
    split
    · intro h; cases h
    · split
      · intro h; cases h
      · split
        · intro h; cases h
        · intro _
          refine ⟨by simp, ?_⟩
          intro hts
          simp [hts]

/-- The numeric readers leave no descriptor behind on failure: whenever they
return false the caller's descriptor has `exists == false`. -/
theorem numeric_read_failure (S : AttributeSession) (g p : Int) (n : String)
    (info0 : HAPI_AttributeInfo) (ts : Int) (owner : HAPI_AttributeOwner) :
    ((HapiGetAttributeDataAsFloat S g p n info0 ts owner).ok = false →
      (HapiGetAttributeDataAsFloat S g p n info0 ts owner).OutAttributeInfo.exist = false) ∧
    ((HapiGetAttributeDataAsInteger S g p n info0 ts owner).ok = false →
      (HapiGetAttributeDataAsInteger S g p n info0 ts owner).OutAttributeInfo.exist = false) := by
  constructor
  · unfold HapiGetAttributeDataAsFloat
    dsimp only
    split
    · intro _; rfl
    · split
      · intro _; rfl
      · split
        · intro _; rfl
        · intro h; cases h
  · unfold HapiGetAttributeDataAsInteger
    dsimp only
    split
    · intro _; rfl
    · split
      · intro _; rfl
      · split
        · intro _; rfl
        · intro h; cases h

/-- C12, the string reader at the string attribute `S` (two elements, engine
tuple size 3) read with the tuple-size override 1: the read succeeds with an
array of 2 entries and a descriptor whose tuple size is still 3, so the array
length is not `count * tupleSize` and the tuple size is not the override. -/
theorem string_read_descriptor_mismatch :
    ∃ r, HapiGetAttributeDataAsString exampleAttributeSession 0 0 "S" exampleAttributeInfoInit 1
        HAPI_ATTROWNER_INVALID = Outcome.done r ∧
      r.ok = true ∧ r.OutData = ["a", "b"] ∧ r.OutAttributeInfo.count = 2 ∧
      r.OutAttributeInfo.tupleSize = 3 ∧
      (r.OutData.length : Int) ≠ r.OutAttributeInfo.count * r.OutAttributeInfo.tupleSize :=
  ⟨{ ok := true, OutAttributeInfo := exampleGetAttributeInfo "S" 1, OutData := ["a", "b"]
     Probed := [0, 1] }, by decide, rfl, rfl, by decide, by decide, by decide⟩

/-- C13, the string reader at the string attribute `F`, whose descriptor is
found on owner 1 and whose data call fails: the reader returns false and the
caller's descriptor has `exists == true`. -/
theorem string_read_failure_keeps_descriptor :
    ∃ r, HapiGetAttributeDataAsString exampleAttributeSession 0 0 "F" exampleAttributeInfoInit 0
        HAPI_ATTROWNER_INVALID = Outcome.done r ∧
      r.ok = false ∧ r.OutAttributeInfo.exist = true ∧
      exampleAttributeSession.GetAttributeStringData 0 0 "F" (exampleGetAttributeInfo "F" 1) 0
        (exampleGetAttributeInfo "F" 1).count = none :=
  ⟨{ ok := false, OutAttributeInfo := exampleGetAttributeInfo "F" 1, OutData := []
     Probed := [0, 1] }, by decide, rfl, by decide, rfl⟩

/-! ### Mesh socket extractor: deduplication -/

theorem uniqueAfter_append_singleton {α : Type} (eq : α → α → Bool) (s : α) (news : List α) :
    ∀ base : List α, uniqueAfter eq base news → (∀ a ∈ base ++ news, eq a s = false) →
      uniqueAfter eq base (news ++ [s]) := by
  induction news with
  | nil =>
    intro base _ h
    exact ⟨fun a ha => h a (by simpa using ha), trivial⟩
  | cons t rest ih =>
    intro base hu h
    refine ⟨hu.1, ?_⟩
    apply ih (base ++ [t]) hu.2
    intro a ha
    apply h a
    simpa using ha

theorem extendsUnique_refl {α : Type} (eq : α → α → Bool) (A : List α) :
    ExtendsUnique eq A A :=
  ⟨[], by simp, trivial⟩

theorem extendsUnique_addUnique {α : Type} (eq : α → α → Bool) (A B : List α) (s : α)
    (h : ExtendsUnique eq A B) : ExtendsUnique eq A (AddUnique eq B s) := by
  obtain ⟨news, hB, hu⟩ := h
  unfold AddUnique
  split
  · exact ⟨news, hB, hu⟩
  · rename_i hany
    refine ⟨news ++ [s], by rw [hB, List.append_assoc], ?_⟩
    apply uniqueAfter_append_singleton eq s news A hu
    intro a ha
    rw [← hB] at ha
    have : ¬ (B.any fun a => eq a s) = true := hany
    rw [List.any_eq_true] at this
    cases hae : eq a s with
    | false => rfl
    | true => exact absurd ⟨a, ha, hae⟩ this

theorem uniqueAfter_new {α : Type} (eq : α → α → Bool) (news : List α) :
    ∀ (base pre post : List α) (s : α), uniqueAfter eq base news →
      base ++ news = pre ++ s :: post → base.length ≤ pre.length →
      ∀ a ∈ pre, eq a s = false := by
  induction news with
  | nil =>
    intro base pre post s _ heq hlen
    have := congrArg List.length heq
    simp at this
    omega
  | cons t rest ih =>
    intro base pre post s hu heq hlen
    by_cases hl : base.length = pre.length
    · obtain ⟨h1, h2⟩ := List.append_inj heq hl
      cases h2
      rw [← h1]
      exact hu.1
    · apply ih (base ++ [t]) pre post s hu.2
      · rw [List.append_assoc]; exact heq
      · rw [List.length_append, List.length_singleton]; omega

theorem uniqueAfter_pairwise {α : Type} (eq : α → α → Bool) (news : List α) :
    ∀ base : List α, uniqueAfter eq base news →
      base.Pairwise (fun a b => eq a b = false) →
      (base ++ news).Pairwise (fun a b => eq a b = false) := by
  induction news with
  | nil => intro base _ h; simpa using h
  | cons t rest ih =>
    intro base hu hp
    have := ih (base ++ [t]) hu.2 (by
      rw [List.pairwise_append]
      exact ⟨hp, List.pairwise_singleton _ _, fun a ha b hb => by
        rw [List.mem_singleton.1 hb]; exact hu.1 a ha⟩)
    rw [List.append_assoc] at this
    exact this

/-- What `ExtendsUnique` gives: the old collection is a prefix of the new
one, every element behind that prefix differs from all elements in front of
it, and a collection without equal elements stays so. -/
theorem extendsUnique_spec {α : Type} (eq : α → α → Bool) (A B : List α)
    (h : ExtendsUnique eq A B) :
    A <+: B ∧
    (∀ (pre post : List α) (s : α), B = pre ++ s :: post → A.length ≤ pre.length →
      ∀ a ∈ pre, eq a s = false) ∧
    (A.Pairwise (fun a b => eq a b = false) → B.Pairwise (fun a b => eq a b = false)) := by
  obtain ⟨news, hB, hu⟩ := h
  refine ⟨⟨news, hB.symm⟩, ?_, ?_⟩
  · intro pre post s heq hlen
    exact uniqueAfter_new eq news A pre post s hu (by rw [← hB]; exact heq) hlen
  · intro hp
    rw [hB]
    exact uniqueAfter_pairwise eq news A hu hp

theorem pointLoop_extends (C : SocketConfig) (A : SocketArrays) (AllEquals : Bool)
    (Before : List FHoudiniMeshSocket) (ms : List Int) :
    ∀ (PointIdx : Nat) (st : List FHoudiniMeshSocket × Int),
      ExtendsUnique C.socketEq Before st.1 →
      ExtendsUnique C.socketEq Before (Group.pointLoop C A AllEquals PointIdx ms st).1 := by
  induction ms with
  | nil => intro _ st h; exact h
  | cons m rest ih =>
    intro PointIdx st h
    rw [Group.pointLoop]
    split
    · split
      · exact h
      · exact ih _ st h
    · apply ih
      exact extendsUnique_addUnique _ _ _ _ h

theorem groupLoop_extends (C : SocketConfig) (GS : GroupSession) (GeoId : Int)
    (PartInfo : HAPI_PartInfo) (A : SocketArrays) (Before : List FHoudiniMeshSocket)
    (names : List String) :
    ∀ st : List FHoudiniMeshSocket × Int,
      ExtendsUnique C.socketEq Before st.1 →
      ExtendsUnique C.socketEq Before (Group.groupLoop C GS GeoId PartInfo A names st).1 := by
  induction names with
  | nil => intro st h; exact h
  | cons name rest ih =>
    intro st h
    rw [Group.groupLoop]
    split
    · exact ih st h
    · apply ih
      exact pointLoop_extends C A _ Before _ 0 st h

theorem socketLoop_extends (C : SocketConfig) (S : AttributeSession) (GeoId PartId : Int)
    (Before : List FHoudiniMeshSocket) (fuel : Nat) :
    ∀ (SocketIdx : Nat) (All : List FHoudiniMeshSocket) (n : Int)
      (r : List FHoudiniMeshSocket × Int),
      ExtendsUnique C.socketEq Before All →
      DetailAttribute.socketLoop C S GeoId PartId fuel SocketIdx All n = Outcome.done r →
      ExtendsUnique C.socketEq Before r.1 := by
  induction fuel with
  | zero => intro _ _ _ r _ h; simp [DetailAttribute.socketLoop] at h
  | succ fuel ih =>
    intro SocketIdx All n r hext h
    rw [DetailAttribute.socketLoop] at h
    cases hread : DetailAttribute.readArrays C S GeoId PartId SocketIdx with
    | rangeError i k => rw [hread] at h; simp [Outcome.bind] at h
    | outOfFuel => rw [hread] at h; simp [Outcome.bind] at h
    | done read =>
      rw [hread] at h
      cases read with
      | none =>
        simp only [Outcome.bind, Outcome.done.injEq] at h
        rw [← h]
        exact hext
      | some A =>
        simp only [Outcome.bind] at h
        exact ih _ _ _ r (extendsUnique_addUnique _ _ _ _ hext) h

theorem AddMeshSocketsToArray_Group_extends (C : SocketConfig) (S : AttributeSession)
    (GS : GroupSession) (G : GroupNamesSession) (GeoId PartId : Int)
    (All : List FHoudiniMeshSocket) (isPackedPrim : Bool) (r : List FHoudiniMeshSocket × Int)
    (h : AddMeshSocketsToArray_Group C S GS G GeoId PartId All isPackedPrim = Outcome.done r) :
    ExtendsUnique C.socketEq All r.1 := by
  unfold AddMeshSocketsToArray_Group at h
  dsimp only at h
  split at h
  · cases h; exact extendsUnique_refl _ _
  · split at h
    · cases h; exact extendsUnique_refl _ _
    · split at h
      · cases h; exact extendsUnique_refl _ _
      · generalize readStringWithFallback C S GeoId PartId
          C.HAPI_UNREAL_ATTRIB_MESH_SOCKET_NAME C.HAPI_UNREAL_ATTRIB_MESH_SOCKET_NAME_OLD = o1 at h
        generalize readStringWithFallback C S GeoId PartId
          C.HAPI_UNREAL_ATTRIB_MESH_SOCKET_ACTOR C.HAPI_UNREAL_ATTRIB_MESH_SOCKET_ACTOR_OLD = o2 at h
        generalize readStringWithFallback C S GeoId PartId
          C.HAPI_UNREAL_ATTRIB_MESH_SOCKET_TAG C.HAPI_UNREAL_ATTRIB_MESH_SOCKET_TAG_OLD = o3 at h
        cases o1 <;> cases o2 <;> cases o3 <;> simp only [Outcome.bind, reduceCtorEq] at h
        cases h
        exact groupLoop_extends C GS GeoId _ _ All _ _ (extendsUnique_refl _ _)

/-- C17: for both extraction strategies and every `operator==` of the socket
type, whenever the call returns, the sockets present before the call are a
prefix of the collection after it (unchanged, in order), every socket behind
that prefix was appended only when no socket equal to it was in the
collection, and a collection without two equal sockets before the call has
none after it. -/
theorem socket_deduplication (C : SocketConfig) (S : AttributeSession) (GS : GroupSession)
    (G : GroupNamesSession) (fuel : Nat) (GeoId PartId : Int)
    (AllSockets : List FHoudiniMeshSocket) (isPackedPrim : Bool)
    (r : List FHoudiniMeshSocket × Int) :
    (AddMeshSocketsToArray_DetailAttribute C S fuel GeoId PartId AllSockets = Outcome.done r →
      AllSockets <+: r.1 ∧
      (∀ (pre post : List FHoudiniMeshSocket) (s : FHoudiniMeshSocket),
        r.1 = pre ++ s :: post → AllSockets.length ≤ pre.length →
        ∀ a ∈ pre, C.socketEq a s = false) ∧
      (AllSockets.Pairwise (fun a b => C.socketEq a b = false) →
        r.1.Pairwise (fun a b => C.socketEq a b = false))) ∧
    (AddMeshSocketsToArray_Group C S GS G GeoId PartId AllSockets isPackedPrim
        = Outcome.done r →
      AllSockets <+: r.1 ∧
      (∀ (pre post : List FHoudiniMeshSocket) (s : FHoudiniMeshSocket),
        r.1 = pre ++ s :: post → AllSockets.length ≤ pre.length →
        ∀ a ∈ pre, C.socketEq a s = false) ∧
      (AllSockets.Pairwise (fun a b => C.socketEq a b = false) →
        r.1.Pairwise (fun a b => C.socketEq a b = false))) := by
  constructor
  · intro h
    exact extendsUnique_spec _ _ _
      (socketLoop_extends C S GeoId PartId AllSockets fuel 0 AllSockets 0 r
        (extendsUnique_refl _ _) h)
  · intro h
    exact extendsUnique_spec _ _ _
      (AddMeshSocketsToArray_Group_extends C S GS G GeoId PartId AllSockets isPackedPrim r h)

/-! ### Mesh socket extractor: the indexed-detail strategy -/

theorem HapiGetAttributeDataAsFloat_detail_ok (S : AttributeSession) (g p : Int) (n : String)
    (info0 info : HAPI_AttributeInfo) (values : Nat → ℚ)
    (hinfo : S.GetAttributeInfo g p n HAPI_ATTROWNER_DETAIL = some info)
    (hex : info.exist = true)
    (hdata : S.GetAttributeFloatData g p n info (-1) 0 info.count = some values) :
    HapiGetAttributeDataAsFloat S g p n info0 0 HAPI_ATTROWNER_DETAIL =
      { ok := true, OutAttributeInfo := info
        OutData := (List.range (info.count * info.tupleSize).toNat).map values
        Probed := [HAPI_ATTROWNER_DETAIL] } := by
  have hf : findAttributeInfo S g p n HAPI_ATTROWNER_DETAIL
      = ([HAPI_ATTROWNER_DETAIL], some info) := by
    unfold findAttributeInfo
    rw [if_neg (by decide), hinfo]
  simp only [HapiGetAttributeDataAsFloat, hf, gt_iff_lt, lt_self_iff_false, if_false, hdata]
  simp [hex]

theorem HapiGetAttributeDataAsFloat_detail_absent (S : AttributeSession) (g p : Int)
    (n : String) (info0 info : HAPI_AttributeInfo)
    (hinfo : S.GetAttributeInfo g p n HAPI_ATTROWNER_DETAIL = some info)
    (hex : info.exist = false) :
    (HapiGetAttributeDataAsFloat S g p n info0 0 HAPI_ATTROWNER_DETAIL).ok = false := by
  have hf : findAttributeInfo S g p n HAPI_ATTROWNER_DETAIL
      = ([HAPI_ATTROWNER_DETAIL], some info) := by
    unfold findAttributeInfo
    rw [if_neg (by decide), hinfo]
  simp [HapiGetAttributeDataAsFloat, hf, hex]

theorem readArrays_absent (C : SocketConfig) (S : AttributeSession) (g p : Int) (i : Nat)
    (info : HAPI_AttributeInfo)
    (hinfo : S.GetAttributeInfo g p (DetailAttribute.attrName C i "_pos")
      HAPI_ATTROWNER_DETAIL = some info)
    (hex : info.exist = false) :
    DetailAttribute.readArrays C S g p i = Outcome.done none := by
  unfold DetailAttribute.readArrays
  dsimp only
  rw [HapiGetAttributeDataAsFloat_detail_absent S g p _ _ info hinfo hex]
  rfl

theorem readArrays_present (C : SocketConfig) (S : AttributeSession) (g p : Int) (i : Nat)
    (info : HAPI_AttributeInfo) (values : Nat → ℚ)
    (hinfo : S.GetAttributeInfo g p (DetailAttribute.attrName C i "_pos")
      HAPI_ATTROWNER_DETAIL = some info)
    (hex : info.exist = true)
    (hdata : S.GetAttributeFloatData g p (DetailAttribute.attrName C i "_pos") info (-1) 0
      info.count = some values)
    (hstr : ∀ suffix ∈ ["_name", "_actor", "_tag"],
      ∃ r, HapiGetAttributeDataAsString S g p (DetailAttribute.attrName C i suffix)
        S.AttributeInfo_Init C.DefaultTupleSize C.DefaultOwner = Outcome.done r) :
    ∃ A, DetailAttribute.readArrays C S g p i = Outcome.done (some A) ∧
      A.Positions = (List.range (info.count * info.tupleSize).toNat).map values ∧
      A.bHasRotation = (HapiGetAttributeDataAsFloat S g p (DetailAttribute.attrName C i "_rot")
        S.AttributeInfo_Init 0 HAPI_ATTROWNER_DETAIL).ok ∧
      A.bHasScale = (HapiGetAttributeDataAsFloat S g p (DetailAttribute.attrName C i "_scale")
        S.AttributeInfo_Init 0 HAPI_ATTROWNER_DETAIL).ok ∧
      (∀ r, HapiGetAttributeDataAsString S g p (DetailAttribute.attrName C i "_name")
        S.AttributeInfo_Init C.DefaultTupleSize C.DefaultOwner = Outcome.done r →
        A.bHasNames = r.ok ∧ A.Names = r.OutData) ∧
      (∀ r, HapiGetAttributeDataAsString S g p (DetailAttribute.attrName C i "_actor")
        S.AttributeInfo_Init C.DefaultTupleSize C.DefaultOwner = Outcome.done r →
        A.bHasActors = r.ok ∧ A.Actors = r.OutData) ∧
      (∀ r, HapiGetAttributeDataAsString S g p (DetailAttribute.attrName C i "_tag")
        S.AttributeInfo_Init C.DefaultTupleSize C.DefaultOwner = Outcome.done r →
        A.bHasTags = r.ok ∧ A.Tags = r.OutData) := by
  obtain ⟨r1, h1⟩ := hstr "_name" (by simp)
  obtain ⟨r2, h2⟩ := hstr "_actor" (by simp)
  obtain ⟨r3, h3⟩ := hstr "_tag" (by simp)
  unfold DetailAttribute.readArrays
  dsimp only
  rw [HapiGetAttributeDataAsFloat_detail_ok S g p _ _ info values hinfo hex hdata, h1, h2, h3]
  simp only [Bool.not_true, Bool.false_eq_true, if_false, hex, Outcome.bind]
  refine ⟨_, rfl, rfl, rfl, rfl, ?_, ?_, ?_⟩
  · intro r hr; cases hr; exact ⟨rfl, rfl⟩
  · intro r hr; cases hr; exact ⟨rfl, rfl⟩
  · intro r hr; cases hr; exact ⟨rfl, rfl⟩

theorem socketLoop_run (C : SocketConfig) (S : AttributeSession) (g p : Int) (n : Nat)
    (hsome : ∀ i, i < n → ∃ A, DetailAttribute.readArrays C S g p i = Outcome.done (some A))
    (hnone : DetailAttribute.readArrays C S g p n = Outcome.done none) :
    ∀ (d k : Nat) (All : List FHoudiniMeshSocket) (cnt : Int) (fuel : Nat),
      k + d = n → d < fuel →
      DetailAttribute.socketLoop C S g p fuel k All cnt =
        Outcome.done
          (((List.range' k d).filterMap (DetailAttribute.socketAt C S g p)).foldl
            (AddUnique C.socketEq) All, cnt + (d : Int)) := by
  intro d
  induction d with
  | zero =>
    intro k All cnt fuel hk hfuel
    obtain ⟨fuel, rfl⟩ : ∃ f, fuel = f + 1 := ⟨fuel - 1, by omega⟩
    have hkn : k = n := by omega
    rw [DetailAttribute.socketLoop, hkn, hnone]
    simp [Outcome.bind]
  | succ d ih =>
    intro k All cnt fuel hk hfuel
    obtain ⟨fuel, rfl⟩ : ∃ f, fuel = f + 1 := ⟨fuel - 1, by omega⟩
    obtain ⟨A, hA⟩ := hsome k (by omega)
    have hat : DetailAttribute.socketAt C S g p k
        = some (DetailAttribute.CurrentSocket C.PositionFactor C.Socket0 A 0) := by
      unfold DetailAttribute.socketAt
      rw [hA]
    rw [DetailAttribute.socketLoop, hA]
    simp only [Outcome.bind, DetailAttribute.AddSocketToArray]
    rw [ih (k + 1) _ _ fuel (by omega) (by omega)]
    rw [List.range'_succ, List.filterMap_cons, hat]
    simp only [List.foldl_cons, Nat.cast_add, Nat.cast_one]
    congr 2
    ring

/-- The indexed-detail strategy on a part on which the detail attributes
`<prefix>i_pos` exist and are read for `i < n`, `<prefix>n_pos` does not
exist, and the string reads of the indices below `n` return: with more than
`n` loop iterations allowed the function returns `n`, the collection is the
caller's with the socket of each index `0 .. n-1` passed to `AddUnique` in
order, and the socket of index `i` is built from element 0 of the arrays read
for `i`, with zero position, identity rotation, unit scale and the default
name, actor and tag where the array is absent or too short. -/
theorem detail_socket_family (C : SocketConfig) (S : AttributeSession) (g p : Int)
    (All : List FHoudiniMeshSocket) (n : Nat)
    (hpos : ∀ i, i < n → ∃ info values,
      S.GetAttributeInfo g p (DetailAttribute.attrName C i "_pos") HAPI_ATTROWNER_DETAIL
        = some info ∧ info.exist = true ∧
      S.GetAttributeFloatData g p (DetailAttribute.attrName C i "_pos") info (-1) 0 info.count
        = some values)
    (hend : ∃ info,
      S.GetAttributeInfo g p (DetailAttribute.attrName C n "_pos") HAPI_ATTROWNER_DETAIL
        = some info ∧ info.exist = false)
    (hstr : ∀ i, i < n → ∀ suffix ∈ ["_name", "_actor", "_tag"],
      ∃ r, HapiGetAttributeDataAsString S g p (DetailAttribute.attrName C i suffix)
        S.AttributeInfo_Init C.DefaultTupleSize C.DefaultOwner = Outcome.done r)
    (fuel : Nat) (hfuel : n < fuel) :
    AddMeshSocketsToArray_DetailAttribute C S fuel g p All =
      Outcome.done
        (((List.range n).filterMap (DetailAttribute.socketAt C S g p)).foldl
          (AddUnique C.socketEq) All, (n : Int)) ∧
    ((List.range n).filterMap (DetailAttribute.socketAt C S g p)).length = n ∧
    ∀ i, i < n → ∃ A s,
      DetailAttribute.readArrays C S g p i = Outcome.done (some A) ∧
      ((List.range n).filterMap (DetailAttribute.socketAt C S g p))[i]? = some s ∧
      s = DetailAttribute.CurrentSocket C.PositionFactor C.Socket0 A 0 ∧
      (A.Positions.length < 3 → s.Transform.Translation = FVector.ZeroVector) ∧
      (A.bHasRotation = false → s.Transform.Rotation = FQuat.Identity) ∧
      (A.bHasScale = false → s.Transform.Scale3D = FVector.OneVector) ∧
      (A.bHasNames = false → s.Name = C.Socket0.Name) ∧
      (A.bHasActors = false → s.Actor = C.Socket0.Actor) ∧
      (A.bHasTags = false → s.Tag = C.Socket0.Tag) := by
  have hsome : ∀ i, i < n →
      ∃ A, DetailAttribute.readArrays C S g p i = Outcome.done (some A) := by
    intro i hi
    obtain ⟨info, values, h1, h2, h3⟩ := hpos i hi
    obtain ⟨A, hA, _⟩ := readArrays_present C S g p i info values h1 h2 h3 (hstr i hi)
    exact ⟨A, hA⟩
  have hnone : DetailAttribute.readArrays C S g p n = Outcome.done none := by
    obtain ⟨info, h1, h2⟩ := hend
    exact readArrays_absent C S g p n info h1 h2
  have hat : ∀ i, i < n → ∀ A, DetailAttribute.readArrays C S g p i = Outcome.done (some A) →
      DetailAttribute.socketAt C S g p i
        = some (DetailAttribute.CurrentSocket C.PositionFactor C.Socket0 A 0) := by
    intro i _ A hA
    unfold DetailAttribute.socketAt
    rw [hA]
  have hmap : (List.range n).filterMap (DetailAttribute.socketAt C S g p)
      = (List.range n).map fun i =>
          ((DetailAttribute.socketAt C S g p i).getD C.Socket0) := by
    rw [← List.filterMap_eq_map]
    apply List.filterMap_congr
    intro i hi
    obtain ⟨A, hA⟩ := hsome i (List.mem_range.mp hi)
    simp [hat i (List.mem_range.mp hi) A hA]
  refine ⟨?_, ?_, ?_⟩
  · have h := socketLoop_run C S g p n hsome hnone n 0 All 0 fuel (by omega) hfuel
    rw [AddMeshSocketsToArray_DetailAttribute, h, List.range_eq_range']
    simp
  · rw [hmap]; simp
  · intro i hi
    obtain ⟨A, hA⟩ := hsome i hi
    refine ⟨A, _, hA, ?_, rfl, ?_, ?_, ?_, ?_, ?_, ?_⟩
    · rw [hmap, List.getElem?_map, List.getElem?_range hi]
      simp [hat i hi A hA]
    · intro h
      have : ¬ (0 * 3 + 2 < A.Positions.length) := by omega
      simp [DetailAttribute.CurrentSocket, this]
    · intro h
      simp [DetailAttribute.CurrentSocket, h]
    · intro h
      simp [DetailAttribute.CurrentSocket, h]
    · intro h
      simp [DetailAttribute.CurrentSocket, h]
    · intro h
      simp [DetailAttribute.CurrentSocket, h]
    · intro h
      simp [DetailAttribute.CurrentSocket, h]

theorem detail_socket_family_witness :
    AddMeshSocketsToArray_DetailAttribute exampleSocketConfig (exampleSocketSession 1) 2 0 0 []
      = Outcome.done ([{ exampleSocket0 with Name := "hilt" }], 1) :=
  (detail_socket_family exampleSocketConfig (exampleSocketSession 1) 0 0 [] 1
    (by
      intro i hi
      obtain rfl : i = 0 := by omega
      exact ⟨_, _, rfl, by decide, rfl⟩)
    ⟨_, rfl, by decide⟩
    (by
      intro i hi
      obtain rfl : i = 0 := by omega
      intro suffix hs
      simp only [List.mem_cons, List.mem_singleton, List.not_mem_nil, or_false] at hs
      rcases hs with rfl | rfl | rfl
      · exact ⟨_, rfl⟩
      · exact ⟨_, rfl⟩
      · exact ⟨_, rfl⟩)
    2 (by decide)).1.trans (by decide!)

/-- C18, the indexed-detail strategy on a part whose only attributes are the
detail attributes `mysocket_0_pos` and `mysocket_0_name`, the name attribute
having tuple size 2: `mysocket_0_pos` exists and `mysocket_1_pos` does not,
and with any number of loop iterations allowed the call does not return: the
string reader writes its output array of length 1 at index 1. -/
theorem detail_socket_family_name_overrun :
    ((exampleSocketSession 2).GetAttributeInfo 0 0
        (DetailAttribute.attrName exampleSocketConfig 0 "_pos") HAPI_ATTROWNER_DETAIL).map
      (fun info => info.exist) = some true ∧
    ((exampleSocketSession 2).GetAttributeInfo 0 0
        (DetailAttribute.attrName exampleSocketConfig 1 "_pos") HAPI_ATTROWNER_DETAIL).map
      (fun info => info.exist) = some false ∧
    ∀ fuel : Nat,
      AddMeshSocketsToArray_DetailAttribute exampleSocketConfig (exampleSocketSession 2)
        (fuel + 1) 0 0 [] = Outcome.rangeError 1 1 := by
  refine ⟨by decide, by decide, ?_⟩
  intro fuel
  have h : DetailAttribute.readArrays exampleSocketConfig (exampleSocketSession 2) 0 0 0
      = Outcome.rangeError 1 1 := by decide!
  rw [AddMeshSocketsToArray_DetailAttribute, DetailAttribute.socketLoop, h]
  rfl

theorem socket_deduplication_witness :
    (AddMeshSocketsToArray_DetailAttribute exampleSocketConfig (exampleSocketSession 1) 2 0 0
        [exampleHiltSocket] = Outcome.done ([exampleHiltSocket], 1) ∧
      [exampleHiltSocket].Pairwise (fun a b => exampleSocketConfig.socketEq a b = false)) ∧
    (AddMeshSocketsToArray_Group exampleSocketConfig exampleGroupSocketSession
        exampleLateGroupSession exampleGroupNamesSession 0 0 [exampleSocket0] false
        = Outcome.done ([exampleSocket0, exampleSocketAt 300 500 400,
            exampleSocketAt 600 800 700, exampleSocketAt 900 1100 1000], 3) ∧
      [exampleSocket0] <+: [exampleSocket0, exampleSocketAt 300 500 400,
            exampleSocketAt 600 800 700, exampleSocketAt 900 1100 1000] ∧
      [exampleSocket0, exampleSocketAt 300 500 400,
            exampleSocketAt 600 800 700, exampleSocketAt 900 1100 1000].Pairwise
        (fun a b => exampleSocketConfig.socketEq a b = false)) :=
  have hd : AddMeshSocketsToArray_DetailAttribute exampleSocketConfig (exampleSocketSession 1)
      2 0 0 [exampleHiltSocket] = Outcome.done ([exampleHiltSocket], 1) := by decide!
  have hg : AddMeshSocketsToArray_Group exampleSocketConfig exampleGroupSocketSession
      exampleLateGroupSession exampleGroupNamesSession 0 0 [exampleSocket0] false
      = Outcome.done ([exampleSocket0, exampleSocketAt 300 500 400,
          exampleSocketAt 600 800 700, exampleSocketAt 900 1100 1000], 3) := by decide!
  ⟨⟨hd, ((socket_deduplication exampleSocketConfig (exampleSocketSession 1)
      exampleLateGroupSession exampleGroupNamesSession 2 0 0 [exampleHiltSocket] false
      ([exampleHiltSocket], 1)).1 hd).2.2 (List.pairwise_singleton _ _)⟩,
    hg, ((socket_deduplication exampleSocketConfig exampleGroupSocketSession
      exampleLateGroupSession exampleGroupNamesSession 0 0 0 [exampleSocket0] false _).2 hg).1,
    ((socket_deduplication exampleSocketConfig exampleGroupSocketSession
      exampleLateGroupSession exampleGroupNamesSession 0 0 0 [exampleSocket0] false _).2 hg).2.2
      (List.pairwise_singleton _ _)⟩

/-! ### Generic attribute list: split-primitive narrowing -/

theorem GetGenericAttributeList_body_spec (S : AttributeSession) (g p : Int)
    (Pre : String) (owner : HAPI_AttributeOwner) (HandleSplit : Bool) (AttribIndex : Int)
    (sh : Int) (a : FHoudiniGenericAttribute) (rd : GenericRead)
    (h : GetGenericAttributeList.body S g p Pre owner HandleSplit AttribIndex sh
      = some (a, rd)) :
    rd.AttribName = S.ToFString sh ∧
    ((HandleSplit = true ∧ 0 ≤ AttribIndex ∧ AttribIndex < a.AttributeCount) →
      rd.AttribStart = AttribIndex ∧ rd.AttribCount = 1 ∧
      a.valueNum = a.AttributeTupleSize.toNat) ∧
    (¬ (HandleSplit = true ∧ 0 ≤ AttribIndex ∧ AttribIndex < a.AttributeCount) →
      rd.AttribStart = 0 ∧ rd.AttribCount = a.AttributeCount ∧
      a.valueNum = (a.AttributeCount * a.AttributeTupleSize).toNat) := by
  unfold GetGenericAttributeList.body at h
  dsimp only at h
  split at h
  · cases h
  · split at h
    · cases h
    · rename_i info hinfo
      (split at h <;> (try (split at h))) <;> first
        | (rename_i hst _ values hv
           cases h
           refine ⟨rfl, ?_, ?_⟩
           · intro hc
             have hn : (HandleSplit && decide (AttribIndex ≥ 0 ∧ AttribIndex < info.count))
                 = true := by
               simp only [Bool.and_eq_true, decide_eq_true_eq]
               exact ⟨hc.1, hc.2.1, hc.2.2⟩
             simp only [hn]
             simp [FHoudiniGenericAttribute.valueNum, hst]
           · intro hc
             have hn : (HandleSplit && decide (AttribIndex ≥ 0 ∧ AttribIndex < info.count))
                 = false := by
               rw [Bool.eq_false_iff]
               intro ht
               simp only [Bool.and_eq_true, decide_eq_true_eq] at ht
               exact hc ⟨ht.1, ht.2.1, ht.2.2⟩
             simp only [hn]
             simp [FHoudiniGenericAttribute.valueNum, hst])
        | cases h

/-- C19, as stated, fails: with the primitive owner and the given index 5, an
attribute of two elements of tuple size 1 is added after a data call with
`(start, length) = (0, 2)`, and its value array holds 2 values, not
`tupleSize = 1`. -/
theorem generic_attribute_index_out_of_range :
    HAPI_ATTROWNER_PRIM ≠ HAPI_ATTROWNER_DETAIL ∧ (5 : Int) ≠ -1 ∧
    (GetGenericAttributeList exampleGenericSession 0 0 "unreal_uproperty_" []
        HAPI_ATTROWNER_PRIM 5).Reads = [⟨"unreal_uproperty_Mass", 0, 2⟩] ∧
    (GetGenericAttributeList exampleGenericSession 0 0 "unreal_uproperty_" []
        HAPI_ATTROWNER_PRIM 5).OutFoundAttributes.map
      (fun a => (a.AttributeTupleSize, a.valueNum)) = [(1, 2)] := by
  refine ⟨by decide, by decide, by decide!, by decide!⟩

/-- C19, amended: every attribute that `GetGenericAttributeList` adds is
filled by one data call. For a non-Detail owner and a given index (not -1)
that lies in `[0, count)` of that attribute, the call reads
`(start = index, length = 1)` and the value array holds `tupleSize` values;
for the Detail owner, for the index -1, and for an index outside
`[0, count)` of that attribute, the call reads `(start = 0, length = count)`
and the value array holds `count * tupleSize` values. The attributes present
before the call are kept in front and the return value is the number of
attributes added. -/
theorem generic_attribute_split_narrowing (S : AttributeSession) (g p : Int) (Pre : String)
    (Out0 : List FHoudiniGenericAttribute) (owner : HAPI_AttributeOwner) (idx : Int) :
    ∃ added : List FHoudiniGenericAttribute,
      (GetGenericAttributeList S g p Pre Out0 owner idx).OutFoundAttributes = Out0 ++ added ∧
      (GetGenericAttributeList S g p Pre Out0 owner idx).Reads.length = added.length ∧
      (GetGenericAttributeList S g p Pre Out0 owner idx).FoundCount = (added.length : Int) ∧
      ∀ (k : Nat) (a : FHoudiniGenericAttribute) (rd : GenericRead),
        added[k]? = some a →
        (GetGenericAttributeList S g p Pre Out0 owner idx).Reads[k]? = some rd →
        ((owner ≠ HAPI_ATTROWNER_DETAIL ∧ idx ≠ -1 ∧ 0 ≤ idx ∧ idx < a.AttributeCount) →
          rd.AttribStart = idx ∧ rd.AttribCount = 1 ∧
          a.valueNum = a.AttributeTupleSize.toNat) ∧
        ((owner = HAPI_ATTROWNER_DETAIL ∨ idx = -1 ∨ idx < 0 ∨ a.AttributeCount ≤ idx) →
          rd.AttribStart = 0 ∧ rd.AttribCount = a.AttributeCount ∧
          a.valueNum = (a.AttributeCount * a.AttributeTupleSize).toNat) := by
  unfold GetGenericAttributeList
  cases hpi : S.GetPartInfo g p with
  | none => exact ⟨[], by simp, rfl, rfl, by intro k a rd h; simp at h⟩
  | some PartInfo =>
    dsimp only
    cases hn : S.GetAttributeNames g p owner (PartInfo.attributeCounts.getD owner.toNat 0) with
    | none => exact ⟨[], by simp, rfl, rfl, by intro k a rd h; simp at h⟩
    | some names =>
      dsimp only
      refine ⟨_, rfl, by simp, by simp, ?_⟩
      intro k a rd ha hrd
      rw [List.getElem?_map] at ha hrd
      cases hf : (List.filterMap
          (GetGenericAttributeList.body S g p Pre owner
            (decide (owner ≠ HAPI_ATTROWNER_DETAIL) && decide (idx ≠ -1))
            (if (decide (owner ≠ HAPI_ATTROWNER_DETAIL) && decide (idx ≠ -1)) = true then idx
              else -1))
          (List.map names
            (List.range (PartInfo.attributeCounts.getD owner.toNat 0).toNat)))[k]? with
      | none => rw [hf] at ha; cases ha
      | some pr =>
        rw [hf] at ha hrd
        obtain ⟨a1, rd1⟩ := pr
        simp only [Option.map_some', Option.some.injEq] at ha hrd
        subst ha hrd
        have hmem := List.getElem?_mem hf
        rw [List.mem_filterMap] at hmem
        obtain ⟨sh, _, hbody⟩ := hmem
        obtain ⟨_, h1, h2⟩ := GetGenericAttributeList_body_spec S g p Pre owner _ _ sh a1 rd1 hbody
        constructor
        · rintro ⟨ho, hi, h0, hlt⟩
          have hs : (decide (owner ≠ HAPI_ATTROWNER_DETAIL) && decide (idx ≠ -1)) = true := by
            simp [ho, hi]
          rw [hs] at h1
          simp only [if_true] at h1
          exact h1 ⟨trivial, h0, hlt⟩
        · intro hc
          apply h2
          rintro ⟨hs, h0, hlt⟩
          simp only [Bool.and_eq_true, decide_eq_true_eq] at hs
          rw [if_pos (by simp [hs.1, hs.2])] at h0 hlt
          rcases hc with hc | hc | hc | hc
          · exact hs.1 hc
          · exact hs.2 hc
          · omega
          · omega

theorem generic_attribute_split_narrowing_witness :
    ∃ added : List FHoudiniGenericAttribute,
      (GetGenericAttributeList exampleGenericSession 0 0 "unreal_uproperty_" []
        HAPI_ATTROWNER_PRIM 1).OutFoundAttributes = [] ++ added ∧
      (GetGenericAttributeList exampleGenericSession 0 0 "unreal_uproperty_" []
        HAPI_ATTROWNER_PRIM 1).Reads = [⟨"unreal_uproperty_Mass", 1, 1⟩] ∧
      added.map (fun a => (a.AttributeTupleSize, a.valueNum)) = [(1, 1)] := by
  obtain ⟨added, h1, _, _, _⟩ := generic_attribute_split_narrowing exampleGenericSession 0 0
    "unreal_uproperty_" [] HAPI_ATTROWNER_PRIM 1
  refine ⟨added, h1, by decide!, ?_⟩
  have h : (GetGenericAttributeList exampleGenericSession 0 0 "unreal_uproperty_" []
      HAPI_ATTROWNER_PRIM 1).OutFoundAttributes.map
      (fun a => (a.AttributeTupleSize, a.valueNum)) = [(1, 1)] := by decide!
  rw [h1] at h
  simpa using h

/-! ### Heightfield export: mask synthesis -/

theorem SetHeightfieldData_success (E : HeightfieldSession) (VolumeNodeId PartId : Int)
    (FloatValues : List ℚ) (VolumeInfo : HAPI_VolumeInfo) (HeightfieldName : String)
    (Calls : List HapiEvent)
    (h : (SetHeightfieldData E VolumeNodeId PartId FloatValues VolumeInfo HeightfieldName
      Calls).1 = true) :
    ∃ GeoInfo_nodeId PartInfo_id,
      (SetHeightfieldData E VolumeNodeId PartId FloatValues VolumeInfo HeightfieldName Calls).2
        = Calls ++
          [⟨HapiCall.HapiCookNode VolumeNodeId, true⟩,
            ⟨HapiCall.GetGeoInfo VolumeNodeId, true⟩,
            ⟨HapiCall.GetPartInfo GeoInfo_nodeId PartId, true⟩,
            ⟨HapiCall.SetVolumeInfo VolumeNodeId PartInfo_id VolumeInfo, true⟩,
            ⟨HapiCall.SetHeightFieldData GeoInfo_nodeId PartInfo_id HeightfieldName FloatValues
              0 FloatValues.length, true⟩] := by
  unfold SetHeightfieldData at h ⊢
  dsimp only at h ⊢
  cases hc : E.HapiCookNode Calls VolumeNodeId with
  | false => simp [hc] at h
  | true =>
    simp only [hc, Bool.not_true, Bool.false_eq_true, if_false] at h ⊢
    cases hg : E.GetGeoInfo (logCall Calls (HapiCall.HapiCookNode VolumeNodeId) true)
        VolumeNodeId with
    | none => simp [hg] at h
    | some g =>
      simp only [hg] at h ⊢
      cases hp : E.GetPartInfo
          (logCall (logCall Calls (HapiCall.HapiCookNode VolumeNodeId) true)
            (HapiCall.GetGeoInfo VolumeNodeId) true) g PartId with
      | none => simp [hp] at h
      | some part =>
        simp only [hp] at h ⊢
        cases hs : E.SetVolumeInfo
            (logCall (logCall (logCall Calls (HapiCall.HapiCookNode VolumeNodeId) true)
              (HapiCall.GetGeoInfo VolumeNodeId) true) (HapiCall.GetPartInfo g PartId) true)
            VolumeNodeId part VolumeInfo with
        | false => simp [hs] at h
        | true =>
          simp only [hs, Bool.not_true, Bool.false_eq_true, if_false] at h ⊢
          refine ⟨g, part, ?_⟩
          rw [h]
          simp [logCall]

/-- The synthesized mask: when `InitDefaultHeightfieldMask` returns true, it
has issued exactly five successful calls, among them `SetVolumeInfo` on the
mask node with the height volume's info (transform included) and one upload
named `mask` of `xLength * yLength` samples, all 0. -/
theorem InitDefaultHeightfieldMask_success (E : HeightfieldSession)
    (HeightVolumeInfo : HAPI_VolumeInfo) (MaskVolumeNodeId : Int) (Calls : List HapiEvent)
    (h : (InitDefaultHeightfieldMask E HeightVolumeInfo MaskVolumeNodeId Calls).1 = true) :
    ∃ GeoInfo_nodeId PartInfo_id,
      (InitDefaultHeightfieldMask E HeightVolumeInfo MaskVolumeNodeId Calls).2
        = Calls ++
          [⟨HapiCall.HapiCookNode MaskVolumeNodeId, true⟩,
            ⟨HapiCall.GetGeoInfo MaskVolumeNodeId, true⟩,
            ⟨HapiCall.GetPartInfo GeoInfo_nodeId 0, true⟩,
            ⟨HapiCall.SetVolumeInfo MaskVolumeNodeId PartInfo_id HeightVolumeInfo, true⟩,
            ⟨HapiCall.SetHeightFieldData GeoInfo_nodeId PartInfo_id "mask"
              (List.replicate (HeightVolumeInfo.xLength * HeightVolumeInfo.yLength).toNat 0)
              0 (HeightVolumeInfo.xLength * HeightVolumeInfo.yLength).toNat, true⟩] := by
  obtain ⟨g, part, hg⟩ := SetHeightfieldData_success E MaskVolumeNodeId 0 _ _ _ Calls h
  refine ⟨g, part, ?_⟩
  unfold InitDefaultHeightfieldMask
  dsimp only
  rw [hg]
  simp

theorem InitDefaultHeightfieldMask_success_witness :
    ∃ GeoInfo_nodeId PartInfo_id,
      (InitDefaultHeightfieldMask { exampleMaskFailureSession with
          SetVolumeInfo := fun _ _ _ _ => true } exampleVolumeInfo 3 []).2
        = [] ++
          [⟨HapiCall.HapiCookNode 3, true⟩,
            ⟨HapiCall.GetGeoInfo 3, true⟩,
            ⟨HapiCall.GetPartInfo GeoInfo_nodeId 0, true⟩,
            ⟨HapiCall.SetVolumeInfo 3 PartInfo_id exampleVolumeInfo, true⟩,
            ⟨HapiCall.SetHeightFieldData GeoInfo_nodeId PartInfo_id "mask"
              (List.replicate (exampleVolumeInfo.xLength * exampleVolumeInfo.yLength).toNat 0)
              0 (exampleVolumeInfo.xLength * exampleVolumeInfo.yLength).toNat, true⟩] :=
  InitDefaultHeightfieldMask_success _ exampleVolumeInfo 3 [] (by decide)

/-- C20, a landscape without layers, exported through an engine session in
which only `SetVolumeInfo` on the mask node (node 3) fails: the run returns
true, no upload of samples to the mask node has succeeded, and the mask
node's geometry has been committed. -/
theorem mask_upload_failure_ignored :
    exampleLayerlessProxy.LandscapeInfo = some [] ∧
    (CreateHeightfieldFromLandscape exampleHeightfieldConfig exampleMaskFailureSession
      (some exampleLayerlessProxy) (-1) "landscape").ok = true ∧
    uploadsTo 3 (CreateHeightfieldFromLandscape exampleHeightfieldConfig
      exampleMaskFailureSession (some exampleLayerlessProxy) (-1) "landscape").Calls = [] ∧
    (∀ e ∈ (CreateHeightfieldFromLandscape exampleHeightfieldConfig
        exampleMaskFailureSession (some exampleLayerlessProxy) (-1) "landscape").Calls,
      ∀ n p name values s l, e.call = HapiCall.SetHeightFieldData n p name values s l →
        name = "height") ∧
    (⟨HapiCall.CommitGeo 3, true⟩ : HapiEvent) ∈
      (CreateHeightfieldFromLandscape exampleHeightfieldConfig exampleMaskFailureSession
        (some exampleLayerlessProxy) (-1) "landscape").Calls := by
  have hrun : (CreateHeightfieldFromLandscape exampleHeightfieldConfig
      exampleMaskFailureSession (some exampleLayerlessProxy) (-1) "landscape").Calls.map
        (fun e => match e.call with
          | HapiCall.SetHeightFieldData _ _ name _ _ _ => some name
          | _ => none)
      = [none, none, none, none, none, none, some "height", none, none, none, none, none,
          none, none, none, none, none, none, none, none, none, none, none, none, none, none,
          none] := by decide!
  refine ⟨rfl, by decide!, by decide!, ?_, by decide!⟩
  intro e he n p name values s l hcall
  have hm := List.mem_map_of_mem (fun e : HapiEvent => match e.call with
          | HapiCall.SetHeightFieldData _ _ name _ _ _ => some name
          | _ => none) he
  rw [hrun] at hm
  dsimp only at hm
  rw [hcall] at hm
  simpa using hm

/-! ### Heightfield export: the trace of engine calls -/

theorem issuesOnly_refl (P : HapiCall → Bool) (Calls : List HapiEvent) :
    IssuesOnly P Calls Calls :=
  ⟨[], by simp, by simp⟩

theorem issuesOnly_trans {P : HapiCall → Bool} {A B C : List HapiEvent}
    (h1 : IssuesOnly P A B) (h2 : IssuesOnly P B C) : IssuesOnly P A C := by
  obtain ⟨n1, rfl, hn1⟩ := h1
  obtain ⟨n2, rfl, hn2⟩ := h2
  refine ⟨n1 ++ n2, by simp, ?_⟩
  intro e he
  rcases List.mem_append.mp he with h | h
  · exact hn1 e h
  · exact hn2 e h

theorem issuesOnly_log {P : HapiCall → Bool} {A B : List HapiEvent} (c : HapiCall)
    (success : Bool) (hc : P c = true) (h : IssuesOnly P A B) :
    IssuesOnly P A (logCall B c success) := by
  obtain ⟨n1, rfl, hn1⟩ := h
  refine ⟨n1 ++ [⟨c, success⟩], by simp [logCall], ?_⟩
  intro e he
  rcases List.mem_append.mp he with h | h
  · exact hn1 e h
  · simp only [List.mem_singleton] at h
    subst h
    exact hc

theorem issuesOnly_discarded {P : HapiCall → Bool} {A B : List HapiEvent}
    (E : HeightfieldSession) (c : HapiCall) (hc : P c = true) (h : IssuesOnly P A B) :
    IssuesOnly P A (discardedCall E B c) :=
  issuesOnly_log c _ hc h

theorem issuesOnly_mono {P Q : HapiCall → Bool} {A B : List HapiEvent}
    (hPQ : ∀ c, P c = true → Q c = true) (h : IssuesOnly P A B) : IssuesOnly Q A B := by
  obtain ⟨n1, rfl, hn1⟩ := h
  exact ⟨n1, rfl, fun e he => hPQ _ (hn1 e he)⟩

theorem IsHoudiniNodeValid_calls (E : HeightfieldSession) (NodeId : Int)
    (Calls : List HapiEvent) :
    IssuesOnly (HapiCall.volumeCall NodeId) Calls (IsHoudiniNodeValid E NodeId Calls).2 := by
  unfold IsHoudiniNodeValid
  split
  · exact issuesOnly_refl _ _
  · split
    · exact issuesOnly_log _ _ (by simp [HapiCall.volumeCall]) (issuesOnly_refl _ _)
    · dsimp only
      split <;>
        exact issuesOnly_log _ _ (by simp [HapiCall.volumeCall])
          (issuesOnly_log _ _ (by simp [HapiCall.volumeCall]) (issuesOnly_refl _ _))

theorem SetHeightfieldData_calls (E : HeightfieldSession) (VolumeNodeId PartId : Int)
    (FloatValues : List ℚ) (VolumeInfo : HAPI_VolumeInfo) (HeightfieldName : String)
    (Calls : List HapiEvent) :
    IssuesOnly (HapiCall.volumeCall VolumeNodeId) Calls
      (SetHeightfieldData E VolumeNodeId PartId FloatValues VolumeInfo HeightfieldName
        Calls).2 := by
  unfold SetHeightfieldData
  dsimp only
  repeat (any_goals split)
  all_goals
    repeat (first
      | exact issuesOnly_refl _ _
      | apply issuesOnly_log _ _ (by simp [HapiCall.volumeCall]))

theorem addVolumeAttributes_calls (E : HeightfieldSession) (NodeId PartId : Int)
    (addLevelPath : Bool) (Calls : List HapiEvent) :
    IssuesOnly (HapiCall.volumeCall NodeId) Calls
      (addVolumeAttributes E NodeId PartId addLevelPath Calls) := by
  unfold addVolumeAttributes
  dsimp only
  have h3 := issuesOnly_discarded E (HapiCall.AddActorPathAttribute NodeId PartId)
    (by simp [HapiCall.volumeCall])
    (issuesOnly_discarded E (HapiCall.CreateAttributesFromTags NodeId PartId)
      (by simp [HapiCall.volumeCall])
      (issuesOnly_discarded E (HapiCall.AddLandscapeMaterialAttributesToVolume NodeId PartId)
        (by simp [HapiCall.volumeCall])
        (issuesOnly_refl (HapiCall.volumeCall NodeId) Calls)))
  split
  · exact issuesOnly_discarded E _ (by simp [HapiCall.volumeCall]) h3
  · exact h3

theorem layerBody_shape (Cfg : HeightfieldConfig) (E : HeightfieldSession) (XSize YSize : Int)
    (Info : HAPI_VolumeInfo) (HeightFieldId MaskId MergeId PartId : Int)
    (Layer : LandscapeLayer) (st : LayerLoopState) :
    ∃ (node : Int) (pre mid : List HapiEvent),
      (pre = [] ∨ ∃ name ok,
        pre = [⟨HapiCall.CreateHeightfieldInputVolumeNode HeightFieldId name XSize YSize, ok⟩]) ∧
      (Layer.IsMask = true → pre = [] ∧ node = MaskId) ∧
      (∀ e ∈ mid, HapiCall.volumeCall node e.call = true) ∧
      (layerBody Cfg E XSize YSize Info HeightFieldId MaskId MergeId PartId Layer st
          = LayerStep.next { st with Calls := st.Calls ++ pre ++ mid } ∨
        (Layer.IsMask = true ∧
          layerBody Cfg E XSize YSize Info HeightFieldId MaskId MergeId PartId Layer st
            = LayerStep.next
              { Calls := st.Calls ++ pre ++ mid ++ [⟨HapiCall.CommitGeo node, true⟩]
                MaskInitialized := true, MergeInputIndex := st.MergeInputIndex }) ∨
        layerBody Cfg E XSize YSize Info HeightFieldId MaskId MergeId PartId Layer st
          = LayerStep.returnFalse
            (st.Calls ++ pre ++ mid ++ [⟨HapiCall.CommitGeo node, false⟩]) ∨
        (Layer.IsMask = false ∧
          layerBody Cfg E XSize YSize Info HeightFieldId MaskId MergeId PartId Layer st
            = LayerStep.next
              { Calls := st.Calls ++ pre ++ mid ++
                  [⟨HapiCall.CommitGeo node, true⟩,
                    ⟨HapiCall.ConnectNodeInput MergeId st.MergeInputIndex node 0, true⟩]
                MaskInitialized := st.MaskInitialized
                MergeInputIndex := st.MergeInputIndex + 1 }) ∨
        (Layer.IsMask = false ∧
          layerBody Cfg E XSize YSize Info HeightFieldId MaskId MergeId PartId Layer st
            = LayerStep.returnFalse
              (st.Calls ++ pre ++ mid ++
                [⟨HapiCall.CommitGeo node, true⟩,
                  ⟨HapiCall.ConnectNodeInput MergeId st.MergeInputIndex node 0, false⟩]))) := by
  have skip0 : ∀ step : LayerStep, step = LayerStep.next st →
      ∃ (node : Int) (pre mid : List HapiEvent),
      (pre = [] ∨ ∃ name ok,
        pre = [⟨HapiCall.CreateHeightfieldInputVolumeNode HeightFieldId name XSize YSize, ok⟩]) ∧
      (Layer.IsMask = true → pre = [] ∧ node = MaskId) ∧
      (∀ e ∈ mid, HapiCall.volumeCall node e.call = true) ∧
      (step = LayerStep.next { st with Calls := st.Calls ++ pre ++ mid } ∨
        (Layer.IsMask = true ∧ step = LayerStep.next
              { Calls := st.Calls ++ pre ++ mid ++ [⟨HapiCall.CommitGeo node, true⟩]
                MaskInitialized := true, MergeInputIndex := st.MergeInputIndex }) ∨
        step = LayerStep.returnFalse
            (st.Calls ++ pre ++ mid ++ [⟨HapiCall.CommitGeo node, false⟩]) ∨
        (Layer.IsMask = false ∧ step = LayerStep.next
              { Calls := st.Calls ++ pre ++ mid ++
                  [⟨HapiCall.CommitGeo node, true⟩,
                    ⟨HapiCall.ConnectNodeInput MergeId st.MergeInputIndex node 0, true⟩]
                MaskInitialized := st.MaskInitialized
                MergeInputIndex := st.MergeInputIndex + 1 }) ∨
        (Layer.IsMask = false ∧ step = LayerStep.returnFalse
              (st.Calls ++ pre ++ mid ++
                [⟨HapiCall.CommitGeo node, true⟩,
                  ⟨HapiCall.ConnectNodeInput MergeId st.MergeInputIndex node 0, false⟩]))) := by
    intro step hstep
    refine ⟨MaskId, [], [], Or.inl rfl, fun _ => ⟨rfl, rfl⟩, by simp, Or.inl ?_⟩
    rw [hstep]
    cases st
    simp
  unfold layerBody
  cases hld : Layer.LayerData with
  | none => exact skip0 _ rfl
  | some data =>
    obtain ⟨CurrentLayerIntData, LayerUsageDebugColor, LayerName⟩ := data
    dsimp only
    cases hconv : ConvertLandscapeLayerDataToHeightfieldData Cfg.PI CurrentLayerIntData XSize
        YSize LayerUsageDebugColor Cfg.VolumeInfoInit with
    | none => exact skip0 _ rfl
    | some converted =>
      dsimp only
      have hmask : Layer.IsMask = decide (LayerName.toLower = "mask") := by
        unfold LandscapeLayer.IsMask
        rw [hld]
      generalize hcreated :
        (if (!decide (LayerName.toLower = "mask")) = true then
          ((E.CreateHeightfieldInputVolumeNode st.Calls HeightFieldId LayerName XSize
              YSize).getD (-1),
            logCall st.Calls
              (HapiCall.CreateHeightfieldInputVolumeNode HeightFieldId LayerName XSize YSize)
              (E.CreateHeightfieldInputVolumeNode st.Calls HeightFieldId LayerName XSize
                YSize).isSome)
        else (MaskId, st.Calls)) = created
      have hpre : ∃ pre, created.2 = st.Calls ++ pre ∧
          (pre = [] ∨ ∃ name ok,
            pre = [⟨HapiCall.CreateHeightfieldInputVolumeNode HeightFieldId name XSize YSize,
              ok⟩]) ∧
          (Layer.IsMask = true → pre = [] ∧ created.1 = MaskId) := by
        rw [← hcreated, hmask]
        by_cases hm : LayerName.toLower = "mask"
        · simp [hm]
        · simp only [hm, decide_False, Bool.not_false, if_true]
          exact ⟨_, rfl, Or.inr ⟨_, _, rfl⟩, by simp⟩
      obtain ⟨pre, hpre1, hpre2, hpre3⟩ := hpre
      obtain ⟨node, calls0⟩ := created
      simp only at hpre1 hpre3 ⊢
      subst hpre1
      obtain ⟨v, hv, hvP⟩ := IsHoudiniNodeValid_calls E node (st.Calls ++ pre)
      generalize IsHoudiniNodeValid E node (st.Calls ++ pre) = valid at hv ⊢
      obtain ⟨ok1, calls1⟩ := valid
      simp only at hv ⊢
      subst hv
      cases ok1 with
      | false =>
        refine ⟨node, pre, v, hpre2, hpre3, hvP, Or.inl ?_⟩
        simp
      | true =>
        simp only [Bool.not_true, Bool.false_eq_true, if_false]
        obtain ⟨u, hu, huP⟩ := SetHeightfieldData_calls E node PartId
          converted.LayerFloatValues
          { converted.LayerVolumeInfo with transform := Info.transform } LayerName
          (st.Calls ++ pre ++ v)
        generalize SetHeightfieldData E node PartId converted.LayerFloatValues
          { converted.LayerVolumeInfo with transform := Info.transform } LayerName
          (st.Calls ++ pre ++ v) = sent at hu ⊢
        obtain ⟨ok2, calls2⟩ := sent
        simp only at hu ⊢
        subst hu
        have hvu : ∀ e ∈ v ++ u, HapiCall.volumeCall node e.call = true := by
          intro e he
          rcases List.mem_append.mp he with h | h
          · exact hvP e h
          · exact huP e h
        cases ok2 with
        | false =>
          refine ⟨node, pre, v ++ u, hpre2, hpre3, hvu, Or.inl ?_⟩
          simp
        | true =>
          simp only [Bool.not_true, Bool.false_eq_true, if_false]
          obtain ⟨w, hw, hwP⟩ := addVolumeAttributes_calls E node PartId true
            (st.Calls ++ pre ++ v ++ u)
          generalize addVolumeAttributes E node PartId true (st.Calls ++ pre ++ v ++ u)
            = calls3 at hw ⊢
          subst hw
          have hvuw : ∀ e ∈ v ++ u ++ w, HapiCall.volumeCall node e.call = true := by
            intro e he
            rcases List.mem_append.mp he with h | h
            · exact hvu e h
            · exact hwP e h
          refine ⟨node, pre, v ++ u ++ w, hpre2, hpre3, hvuw, ?_⟩
          cases hc : E.CommitGeo (st.Calls ++ pre ++ v ++ u ++ w) node with
          | false =>
            refine Or.inr (Or.inr (Or.inl ?_))
            simp [logCall]
          | true =>
            simp only [Bool.not_true, Bool.false_eq_true, if_false]
            by_cases hm : LayerName.toLower = "mask"
            · refine Or.inr (Or.inl ⟨by simp [hmask, hm], ?_⟩)
              simp [hm, logCall]
            · simp only [hm, decide_False, Bool.not_false, if_true]
              cases hcn : E.ConnectNodeInput
                  (logCall (st.Calls ++ pre ++ v ++ u ++ w) (HapiCall.CommitGeo node) true)
                  MergeId st.MergeInputIndex node 0 with
              | false =>
                refine Or.inr (Or.inr (Or.inr (Or.inr ⟨by simp [hmask, hm], ?_⟩)))
                simp [logCall]
              | true =>
                refine Or.inr (Or.inr (Or.inr (Or.inl ⟨by simp [hmask, hm], ?_⟩)))
                simp [logCall]

theorem volumeCall_not_connect (NodeId : Int) (c : HapiCall)
    (h : HapiCall.volumeCall NodeId c = true) : (!c.isConnectNodeInput) = true := by
  cases c <;> simp_all [HapiCall.volumeCall, HapiCall.isConnectNodeInput]

theorem volumeCall_not_commit (NodeId : Int) (c : HapiCall)
    (h : HapiCall.volumeCall NodeId c = true) : c.isCommitGeo = false := by
  cases c <;> simp_all [HapiCall.volumeCall, HapiCall.isCommitGeo]

theorem connectSlots_append (A B : List HapiEvent) :
    connectSlots (A ++ B) = connectSlots A ++ connectSlots B := by
  simp [connectSlots, List.filterMap_append]

theorem connectSlots_eq_nil (l : List HapiEvent)
    (h : ∀ e ∈ l, (!e.call.isConnectNodeInput) = true) : connectSlots l = [] := by
  unfold connectSlots
  rw [List.filterMap_eq_nil_iff]
  intro e he
  have := h e he
  cases hc : e.call <;> simp_all [HapiCall.isConnectNodeInput]

theorem connectSlots_issuesOnly {A B : List HapiEvent}
    (h : IssuesOnly (fun c => !c.isConnectNodeInput) A B) :
    connectSlots B = connectSlots A := by
  obtain ⟨n, rfl, hn⟩ := h
  rw [connectSlots_append, connectSlots_eq_nil n hn, List.append_nil]

theorem HapiGetParentNodeId_calls (E : HeightfieldSession) (NodeId : Int)
    (Calls : List HapiEvent) :
    IssuesOnly (fun c => !c.isConnectNodeInput && !c.isCommitGeo) Calls
      (HapiGetParentNodeId E NodeId Calls).2 := by
  unfold HapiGetParentNodeId
  repeat (any_goals split)
  all_goals
    repeat (first
      | exact issuesOnly_refl _ _
      | apply issuesOnly_log _ _
          (by simp [HapiCall.isConnectNodeInput, HapiCall.isCommitGeo]))

theorem CreateHeightfieldInputNode_calls (E : HeightfieldSession) (NodeName : String)
    (XSize YSize HeightfieldNodeId : Int) (Calls : List HapiEvent) :
    IssuesOnly (fun c => !c.isConnectNodeInput) Calls
      (CreateHeightfieldInputNode E NodeName XSize YSize HeightfieldNodeId Calls).2 := by
  unfold CreateHeightfieldInputNode
  repeat (any_goals split)
  all_goals
    repeat (first
      | exact issuesOnly_refl _ _
      | apply issuesOnly_log _ _ (by simp [HapiCall.isConnectNodeInput]))

theorem finishHeightfield_calls (E : HeightfieldSession) (Info : HAPI_VolumeInfo)
    (CenterOffset : FVector) (HeightFieldId MaskId PartId Created : Int)
    (st : LayerLoopState) :
    IssuesOnly (fun c => !c.isConnectNodeInput) st.Calls
      (finishHeightfield E Info CenterOffset HeightFieldId MaskId PartId Created st).Calls := by
  have hmask : IssuesOnly (fun c => !c.isConnectNodeInput) st.Calls
      (if (!st.MaskInitialized) = true then
        (E.CommitGeo
            (addVolumeAttributes E MaskId PartId true
              (InitDefaultHeightfieldMask E Info MaskId st.Calls).2) MaskId,
          logCall
            (addVolumeAttributes E MaskId PartId true
              (InitDefaultHeightfieldMask E Info MaskId st.Calls).2)
            (HapiCall.CommitGeo MaskId)
            (E.CommitGeo
              (addVolumeAttributes E MaskId PartId true
                (InitDefaultHeightfieldMask E Info MaskId st.Calls).2) MaskId))
      else (true, st.Calls)).2 := by
    split
    · apply issuesOnly_log _ _ (by simp [HapiCall.isConnectNodeInput])
      apply issuesOnly_trans _
        (issuesOnly_mono (volumeCall_not_connect MaskId)
          (addVolumeAttributes_calls E MaskId PartId true _))
      exact issuesOnly_mono (volumeCall_not_connect MaskId)
        (SetHeightfieldData_calls E MaskId 0 _ _ _ _)
    · exact issuesOnly_refl _ _
  have tail : ∀ masked : Bool × List HapiEvent,
      IssuesOnly (fun c => !c.isConnectNodeInput) st.Calls masked.2 →
      IssuesOnly (fun c => !c.isConnectNodeInput) st.Calls
        (if (!masked.1) = true then (⟨false, Created, masked.2⟩ : HeightfieldExport)
        else
          let parent := HapiGetParentNodeId E HeightFieldId masked.2
          let Calls := discardedCall E parent.2 (HapiCall.SetObjectTransform parent.1)
          let Calls := discardedCall E Calls
            (HapiCall.SetParmFloatValue HeightFieldId "t" 0 CenterOffset.X)
          let Calls := discardedCall E Calls (HapiCall.SetParmFloatValue HeightFieldId "t" 1 0)
          let Calls := discardedCall E Calls
            (HapiCall.SetParmFloatValue HeightFieldId "t" 2 CenterOffset.Y)
          let cooked := E.HapiCookNode Calls HeightFieldId
          let Calls := logCall Calls (HapiCall.HapiCookNode HeightFieldId) cooked
          if (!cooked) = true then ⟨false, Created, Calls⟩
          else ⟨true, HeightFieldId, Calls⟩).Calls := by
    intro masked hm
    dsimp only
    split
    · exact hm
    · have hparent := issuesOnly_trans hm
        (issuesOnly_mono (fun c hc => by simp_all)
          (HapiGetParentNodeId_calls E HeightFieldId _))
      split <;>
        exact issuesOnly_log _ _ (by simp [HapiCall.isConnectNodeInput])
          (issuesOnly_discarded E _ (by simp [HapiCall.isConnectNodeInput])
            (issuesOnly_discarded E _ (by simp [HapiCall.isConnectNodeInput])
              (issuesOnly_discarded E _ (by simp [HapiCall.isConnectNodeInput])
                (issuesOnly_discarded E _ (by simp [HapiCall.isConnectNodeInput]) hparent))))
  exact tail _ hmask

theorem CreateHeightfieldFromLandscape_shape (Cfg : HeightfieldConfig)
    (E : HeightfieldSession) (LandscapeProxy : Option ALandscapeProxy) (Created : Int)
    (InputNodeNameStr : String) :
    (IssuesOnly (fun c => !c.isConnectNodeInput) []
        (CreateHeightfieldFromLandscape Cfg E LandscapeProxy Created InputNodeNameStr).Calls ∧
      (CreateHeightfieldFromLandscape Cfg E LandscapeProxy Created InputNodeNameStr).ok
        = false) ∨
    ∃ (XSize YSize : Int) (Info : HAPI_VolumeInfo) (CenterOffset : FVector)
      (HeightFieldId MaskId MergeId : Int) (Layers : List LandscapeLayer)
      (Calls0 : List HapiEvent),
      IssuesOnly (fun c => !c.isConnectNodeInput) [] Calls0 ∧
      ((∃ Calls, layerLoop Cfg E XSize YSize Info HeightFieldId MaskId MergeId 0 Layers
            { Calls := Calls0, MaskInitialized := false, MergeInputIndex := 2 }
            = LayerStep.returnFalse Calls ∧
          CreateHeightfieldFromLandscape Cfg E LandscapeProxy Created InputNodeNameStr
            = ⟨false, Created, Calls⟩) ∨
        (∃ st, layerLoop Cfg E XSize YSize Info HeightFieldId MaskId MergeId 0 Layers
            { Calls := Calls0, MaskInitialized := false, MergeInputIndex := 2 }
            = LayerStep.next st ∧
          CreateHeightfieldFromLandscape Cfg E LandscapeProxy Created InputNodeNameStr
            = finishHeightfield E Info CenterOffset HeightFieldId MaskId 0 Created st)) := by
  unfold CreateHeightfieldFromLandscape
  cases LandscapeProxy with
  | none => exact Or.inl ⟨issuesOnly_refl _ _, rfl⟩
  | some Proxy =>
    dsimp only
    cases hdata : Proxy.LandscapeData with
    | none => exact Or.inl ⟨issuesOnly_refl _ _, rfl⟩
    | some data =>
      obtain ⟨HeightData, XSize, YSize, Min, Max⟩ := data
      dsimp only
      cases hconv : ConvertLandscapeDataToHeightfieldData Cfg.bUseDefaultUE4Scaling
          Cfg.TransformInit HeightData XSize YSize Min Max Proxy.ActorToWorld
          Cfg.VolumeInfoInit with
      | none => exact Or.inl ⟨issuesOnly_refl _ _, rfl⟩
      | some height =>
        dsimp only
        have hcreate := CreateHeightfieldInputNode_calls E InputNodeNameStr XSize YSize (-1) []
        generalize CreateHeightfieldInputNode E InputNodeNameStr XSize YSize (-1) []
          = created at hcreate ⊢
        obtain ⟨ids, Calls1⟩ := created
        cases ids with
        | none => exact Or.inl ⟨hcreate, rfl⟩
        | some ids =>
          obtain ⟨HeightFieldId, HeightId, MaskId, MergeId⟩ := ids
          dsimp only at hcreate ⊢
          have hsent := issuesOnly_trans hcreate
            (issuesOnly_mono (volumeCall_not_connect HeightId)
              (SetHeightfieldData_calls E HeightId 0 height.HeightfieldFloatValues
                height.HeightfieldVolumeInfo "height" Calls1))
          generalize SetHeightfieldData E HeightId 0 height.HeightfieldFloatValues
            height.HeightfieldVolumeInfo "height" Calls1 = sent at hsent ⊢
          obtain ⟨ok, Calls2⟩ := sent
          cases ok with
          | false => exact Or.inl ⟨hsent, rfl⟩
          | true =>
            simp only [Bool.not_true, Bool.false_eq_true, if_false]
            have hattr := issuesOnly_trans hsent
              (issuesOnly_mono (volumeCall_not_connect HeightId)
                (addVolumeAttributes_calls E HeightId 0 Proxy.HasLevel Calls2))
            generalize addVolumeAttributes E HeightId 0 Proxy.HasLevel Calls2
              = Calls3 at hattr ⊢
            have hcommit := issuesOnly_log (HapiCall.CommitGeo HeightId)
              (E.CommitGeo Calls3 HeightId)
              (by simp [HapiCall.isConnectNodeInput]) hattr
            cases hc : E.CommitGeo Calls3 HeightId with
            | false =>
              rw [hc] at hcommit
              exact Or.inl ⟨hcommit, rfl⟩
            | true =>
              rw [hc] at hcommit
              simp only [Bool.not_true, Bool.false_eq_true, if_false]
              cases hinfo : Proxy.LandscapeInfo with
              | none => exact Or.inl ⟨hcommit, rfl⟩
              | some Layers =>
                dsimp only
                refine Or.inr ⟨XSize, YSize, height.HeightfieldVolumeInfo, height.CenterOffset,
                  HeightFieldId, MaskId, MergeId, Layers, _, hcommit, ?_⟩
                cases hloop : layerLoop Cfg E XSize YSize height.HeightfieldVolumeInfo
                    HeightFieldId MaskId MergeId 0 Layers
                    { Calls := logCall Calls3 (HapiCall.CommitGeo HeightId) true
                      MaskInitialized := false, MergeInputIndex := 2 } with
                | returnFalse Calls => exact Or.inl ⟨Calls, rfl, rfl⟩
                | next st => exact Or.inr ⟨st, rfl, rfl⟩

theorem layerLoop_slots (Cfg : HeightfieldConfig) (E : HeightfieldSession) (XSize YSize : Int)
    (Info : HAPI_VolumeInfo) (HeightFieldId MaskId MergeId PartId : Int) :
    ∀ (Layers : List LandscapeLayer) (st : LayerLoopState) (k : Nat),
      connectSlots st.Calls = (List.range k).map (fun j => ((2 : Int) + (j : Int), true)) →
      st.MergeInputIndex = 2 + (k : Int) →
      (∀ st', layerLoop Cfg E XSize YSize Info HeightFieldId MaskId MergeId PartId Layers st
          = LayerStep.next st' →
        ∃ m : Nat,
          connectSlots st'.Calls
            = (List.range m).map (fun j => ((2 : Int) + (j : Int), true)) ∧
          st'.MergeInputIndex = 2 + (m : Int)) ∧
      (∀ Calls, layerLoop Cfg E XSize YSize Info HeightFieldId MaskId MergeId PartId Layers st
          = LayerStep.returnFalse Calls →
        ∃ m : Nat,
          connectSlots Calls
              = (List.range m).map (fun j => ((2 : Int) + (j : Int), true)) ∨
          connectSlots Calls
              = (List.range m).map (fun j => ((2 : Int) + (j : Int), true))
                ++ [((2 : Int) + (m : Int), false)]) := by
  intro Layers
  induction Layers with
  | nil =>
    intro st k hk hidx
    refine ⟨?_, ?_⟩
    · intro st' h
      simp only [layerLoop, LayerStep.next.injEq] at h
      subst h
      exact ⟨k, hk, hidx⟩
    · intro Calls h
      simp [layerLoop] at h
  | cons Layer rest ih =>
    intro st k hk hidx
    obtain ⟨node, pre, mid, hpre, _, hmid, hshape⟩ :=
      layerBody_shape Cfg E XSize YSize Info HeightFieldId MaskId MergeId PartId Layer st
    have hpre0 : connectSlots pre = [] := by
      rcases hpre with rfl | ⟨name, ok, rfl⟩ <;> simp [connectSlots]
    have hmid0 : connectSlots mid = [] :=
      connectSlots_eq_nil mid (fun e he => volumeCall_not_connect node _ (hmid e he))
    have hquiet : connectSlots (st.Calls ++ pre ++ mid) = connectSlots st.Calls := by
      rw [connectSlots_append, connectSlots_append, hpre0, hmid0]
      simp
    simp only [layerLoop]
    rcases hshape with h | ⟨_, h⟩ | h | ⟨_, h⟩ | ⟨_, h⟩
    · rw [h]
      exact ih _ k (by simpa using hquiet.trans hk) (by simpa using hidx)
    · rw [h]
      refine ih _ k ?_ (by simpa using hidx)
      simp only [connectSlots_append, hquiet, hk]
      simp [connectSlots]
    · rw [h]
      refine ⟨fun st' h' => (by cases h'), fun Calls h' => ?_⟩
      cases h'
      refine ⟨k, Or.inl ?_⟩
      simp only [connectSlots_append, hquiet, hk]
      simp [connectSlots]
    · rw [h]
      refine ih _ (k + 1) ?_ (by simp [hidx]; ring)
      simp only [connectSlots_append, hquiet, hk, List.range_succ, List.map_append]
      simp [connectSlots, hidx]
    · rw [h]
      refine ⟨fun st' h' => (by cases h'), fun Calls h' => ?_⟩
      cases h'
      refine ⟨k, Or.inr ?_⟩
      simp only [connectSlots_append, hquiet, hk]
      simp [connectSlots, hidx]

/-! ### Heightfield export: merge-slot allocation -/

/-- C21: in every run of `CreateHeightfieldFromLandscape` the `ConnectNodeInput`
calls, in order of issue, use the input slots 2, 3, .., 2 + m - 1, each once
and each successfully, except that a run that returns false may end with one
more, failed, call at slot 2 + m; so no call connects slot 0 or 1, and the
k-th layer wired into the merge node has slot 2 + k however many layers were
skipped. A layer whose name equals `mask` without regard to case issues no
`CreateHeightfieldInputVolumeNode` and no `ConnectNodeInput` call, its
`SetVolumeInfo` and `CommitGeo` calls are on the mask node, and it leaves the
next merge slot unchanged. -/
theorem merge_slot_allocation (Cfg : HeightfieldConfig) (E : HeightfieldSession)
    (LandscapeProxy : Option ALandscapeProxy) (Created : Int) (InputNodeNameStr : String) :
    (∃ m : Nat,
      connectSlots
          (CreateHeightfieldFromLandscape Cfg E LandscapeProxy Created InputNodeNameStr).Calls
        = (List.range m).map (fun j => ((2 : Int) + (j : Int), true)) ∨
      ((CreateHeightfieldFromLandscape Cfg E LandscapeProxy Created InputNodeNameStr).ok
          = false ∧
        connectSlots
            (CreateHeightfieldFromLandscape Cfg E LandscapeProxy Created InputNodeNameStr).Calls
          = (List.range m).map (fun j => ((2 : Int) + (j : Int), true))
            ++ [((2 : Int) + (m : Int), false)])) ∧
    (∀ (XSize YSize : Int) (Info : HAPI_VolumeInfo) (HeightFieldId MaskId MergeId PartId : Int)
      (Layer : LandscapeLayer) (st : LayerLoopState), Layer.IsMask = true →
      ∃ new : List HapiEvent,
        (layerBody Cfg E XSize YSize Info HeightFieldId MaskId MergeId PartId Layer st).Calls
          = st.Calls ++ new ∧
        (∀ e ∈ new,
          (∀ p name x y, e.call ≠ HapiCall.CreateHeightfieldInputVolumeNode p name x y) ∧
          (∀ n i c o, e.call ≠ HapiCall.ConnectNodeInput n i c o) ∧
          (∀ n p v, e.call = HapiCall.SetVolumeInfo n p v → n = MaskId) ∧
          (∀ n, e.call = HapiCall.CommitGeo n → n = MaskId)) ∧
        (∀ st', layerBody Cfg E XSize YSize Info HeightFieldId MaskId MergeId PartId Layer st
            = LayerStep.next st' → st'.MergeInputIndex = st.MergeInputIndex)) := by
  constructor
  · rcases CreateHeightfieldFromLandscape_shape Cfg E LandscapeProxy Created InputNodeNameStr
      with ⟨h, _⟩ | ⟨XSize, YSize, Info, CenterOffset, HeightFieldId, MaskId, MergeId, Layers,
        Calls0, h0, hloop⟩
    · exact ⟨0, Or.inl (by rw [connectSlots_issuesOnly h]; simp [connectSlots])⟩
    · have hinv := layerLoop_slots Cfg E XSize YSize Info HeightFieldId MaskId MergeId 0 Layers
        { Calls := Calls0, MaskInitialized := false, MergeInputIndex := 2 } 0
        (by rw [connectSlots_issuesOnly h0]; simp [connectSlots]) (by simp)
      rcases hloop with ⟨Calls, hl, hr⟩ | ⟨st, hl, hr⟩
      · obtain ⟨m, hm⟩ := hinv.2 Calls hl
        rw [hr]
        rcases hm with hm | hm
        · exact ⟨m, Or.inl hm⟩
        · exact ⟨m, Or.inr ⟨rfl, hm⟩⟩
      · obtain ⟨m, hm, _⟩ := hinv.1 st hl
        rw [hr, connectSlots_issuesOnly
          (finishHeightfield_calls E Info CenterOffset HeightFieldId MaskId 0 Created st)]
        exact ⟨m, Or.inl hm⟩
  · intro XSize YSize Info HeightFieldId MaskId MergeId PartId Layer st hmask
    obtain ⟨node, pre, mid, _, hpm, hmid, hshape⟩ :=
      layerBody_shape Cfg E XSize YSize Info HeightFieldId MaskId MergeId PartId Layer st
    obtain ⟨rfl, rfl⟩ := hpm hmask
    have hvol : ∀ e ∈ mid,
        (∀ p name x y, e.call ≠ HapiCall.CreateHeightfieldInputVolumeNode p name x y) ∧
        (∀ n i c o, e.call ≠ HapiCall.ConnectNodeInput n i c o) ∧
        (∀ n p v, e.call = HapiCall.SetVolumeInfo n p v → n = node) ∧
        (∀ n, e.call = HapiCall.CommitGeo n → n = node) := by
      intro e he
      have hv := hmid e he
      cases hc : e.call <;> simp_all [HapiCall.volumeCall]
    rcases hshape with h | ⟨_, h⟩ | h | ⟨hf, _⟩ | ⟨hf, _⟩
    · rw [h]
      exact ⟨mid, by simp [LayerStep.Calls], hvol,
        fun st' h' => by cases h'; rfl⟩
    · rw [h]
      refine ⟨mid ++ [⟨HapiCall.CommitGeo node, true⟩], by simp [LayerStep.Calls], ?_,
        fun st' h' => by cases h'; rfl⟩
      intro e he
      rcases List.mem_append.mp he with he | he
      · exact hvol e he
      · simp only [List.mem_singleton] at he
        subst he
        simp
    · rw [h]
      refine ⟨mid ++ [⟨HapiCall.CommitGeo node, false⟩], by simp [LayerStep.Calls], ?_,
        fun st' h' => by cases h'⟩
      intro e he
      rcases List.mem_append.mp he with he | he
      · exact hvol e he
      · simp only [List.mem_singleton] at he
        subst he
        simp
    · rw [hmask] at hf; cases hf
    · rw [hmask] at hf; cases hf

theorem merge_slot_allocation_witness :
    connectSlots
        (CreateHeightfieldFromLandscape exampleHeightfieldConfig exampleSuccessSession
          (some exampleLayeredProxy) (-1) "landscape").Calls = [(2, true), (3, true)] ∧
    ∃ m : Nat,
      connectSlots
          (CreateHeightfieldFromLandscape exampleHeightfieldConfig exampleSuccessSession
            (some exampleLayeredProxy) (-1) "landscape").Calls
        = (List.range m).map (fun j => ((2 : Int) + (j : Int), true)) ∨
      ((CreateHeightfieldFromLandscape exampleHeightfieldConfig exampleSuccessSession
            (some exampleLayeredProxy) (-1) "landscape").ok = false ∧
        connectSlots
            (CreateHeightfieldFromLandscape exampleHeightfieldConfig exampleSuccessSession
              (some exampleLayeredProxy) (-1) "landscape").Calls
          = (List.range m).map (fun j => ((2 : Int) + (j : Int), true))
            ++ [((2 : Int) + (m : Int), false)]) :=
  ⟨by decide!,
    (merge_slot_allocation exampleHeightfieldConfig exampleSuccessSession
      (some exampleLayeredProxy) (-1) "landscape").1⟩

/-! ### Heightfield export: per-layer failure policy -/

/-- C22, as stated, fails: on a landscape with the layers `grass`, a layer
without data, `Mask` and `rock`, when the engine fails the `CommitGeo` of the
first layer's volume node, the run returns false although the graph was
created and the height volume committed; the failed commit is the last call
and only one layer volume node was ever created, so the remaining layers were
not processed. -/
theorem layer_commit_failure_is_fatal :
    (CreateHeightfieldFromLandscape exampleHeightfieldConfig exampleCommitFailureSession
      (some exampleLayeredProxy) (-1) "landscape").ok = false ∧
    (⟨HapiCall.CommitGeo 2, true⟩ : HapiEvent) ∈
      (CreateHeightfieldFromLandscape exampleHeightfieldConfig exampleCommitFailureSession
        (some exampleLayeredProxy) (-1) "landscape").Calls ∧
    (CreateHeightfieldFromLandscape exampleHeightfieldConfig exampleCommitFailureSession
      (some exampleLayeredProxy) (-1) "landscape").Calls.getLast?
      = some ⟨HapiCall.CommitGeo 22, false⟩ ∧
    createdVolumeCount
      (CreateHeightfieldFromLandscape exampleHeightfieldConfig exampleCommitFailureSession
        (some exampleLayeredProxy) (-1) "landscape").Calls = 1 := by
  refine ⟨by decide!, by decide!, by decide!, by decide!⟩

/-- C22, amended: one iteration of the layer loop makes the function return
false exactly when the last call that it issued is a failed `CommitGeo` or a
failed `ConnectNodeInput`; every other way an iteration ends (no layer data,
failed conversion, failed node creation, invalid node, failed upload, or
success) lets the loop go on with the remaining layers, and an iteration that
ends without a successful `CommitGeo` leaves the next merge slot and the mask
flag as they were. -/
theorem layer_failure_policy (Cfg : HeightfieldConfig) (E : HeightfieldSession)
    (XSize YSize : Int) (Info : HAPI_VolumeInfo) (HeightFieldId MaskId MergeId PartId : Int)
    (Layer : LandscapeLayer) (st : LayerLoopState) :
    ∃ new : List HapiEvent,
      (layerBody Cfg E XSize YSize Info HeightFieldId MaskId MergeId PartId Layer st).Calls
        = st.Calls ++ new ∧
      ((∃ Calls, layerBody Cfg E XSize YSize Info HeightFieldId MaskId MergeId PartId Layer st
          = LayerStep.returnFalse Calls) ↔
        ∃ c, new.getLast? = some ⟨c, false⟩ ∧
          (c.isCommitGeo = true ∨ c.isConnectNodeInput = true)) ∧
      (∀ st', layerBody Cfg E XSize YSize Info HeightFieldId MaskId MergeId PartId Layer st
          = LayerStep.next st' →
        (∀ rest, layerLoop Cfg E XSize YSize Info HeightFieldId MaskId MergeId PartId
            (Layer :: rest) st
          = layerLoop Cfg E XSize YSize Info HeightFieldId MaskId MergeId PartId rest st') ∧
        ((∀ e ∈ new, e.call.isCommitGeo = false) →
          st'.MergeInputIndex = st.MergeInputIndex ∧
          st'.MaskInitialized = st.MaskInitialized)) ∧
      (∀ Calls, layerBody Cfg E XSize YSize Info HeightFieldId MaskId MergeId PartId Layer st
          = LayerStep.returnFalse Calls →
        ∀ rest, layerLoop Cfg E XSize YSize Info HeightFieldId MaskId MergeId PartId
            (Layer :: rest) st = LayerStep.returnFalse Calls) := by
  obtain ⟨node, pre, mid, hpre, _, hmid, hshape⟩ :=
    layerBody_shape Cfg E XSize YSize Info HeightFieldId MaskId MergeId PartId Layer st
  have hquiet : ∀ e ∈ pre ++ mid,
      e.call.isCommitGeo = false ∧ e.call.isConnectNodeInput = false := by
    intro e he
    rcases List.mem_append.mp he with he | he
    · rcases hpre with rfl | ⟨name, ok, rfl⟩
      · simp at he
      · simp only [List.mem_singleton] at he
        subst he
        simp [HapiCall.isCommitGeo, HapiCall.isConnectNodeInput]
    · exact ⟨volumeCall_not_commit node _ (hmid e he),
        by simpa using volumeCall_not_connect node _ (hmid e he)⟩
  have hloop : ∀ step, layerBody Cfg E XSize YSize Info HeightFieldId MaskId MergeId PartId
      Layer st = step →
      (∀ st', step = LayerStep.next st' →
        ∀ rest, layerLoop Cfg E XSize YSize Info HeightFieldId MaskId MergeId PartId
            (Layer :: rest) st
          = layerLoop Cfg E XSize YSize Info HeightFieldId MaskId MergeId PartId rest st') ∧
      (∀ Calls, step = LayerStep.returnFalse Calls →
        ∀ rest, layerLoop Cfg E XSize YSize Info HeightFieldId MaskId MergeId PartId
            (Layer :: rest) st = LayerStep.returnFalse Calls) := by
    intro step hstep
    constructor
    · intro st' h rest
      simp only [layerLoop, hstep, h]
    · intro Calls h rest
      simp only [layerLoop, hstep, h]
  rcases hshape with h | ⟨_, h⟩ | h | ⟨_, h⟩ | ⟨_, h⟩
  · refine ⟨pre ++ mid, by rw [h]; simp [LayerStep.Calls], ?_, ?_, ?_⟩
    · constructor
      · rintro ⟨Calls, hc⟩
        rw [h] at hc
        cases hc
      · rintro ⟨c, hc, hk⟩
        have hm := hquiet _ (List.mem_of_getLast?_eq_some hc)
        rcases hk with hk | hk
        · rw [hm.1] at hk; cases hk
        · rw [hm.2] at hk; cases hk
    · intro st' hst'
      refine ⟨(hloop _ h).1 st' (by rw [← hst', h]), fun _ => ?_⟩
      rw [h] at hst'
      cases hst'
      exact ⟨rfl, rfl⟩
    · intro Calls hc
      rw [h] at hc
      cases hc
  · refine ⟨pre ++ mid ++ [⟨HapiCall.CommitGeo node, true⟩],
      by rw [h]; simp [LayerStep.Calls], ?_, ?_, ?_⟩
    · constructor
      · rintro ⟨Calls, hc⟩
        rw [h] at hc
        cases hc
      · rintro ⟨c, hc, _⟩
        simp at hc
    · intro st' hst'
      refine ⟨(hloop _ h).1 st' (by rw [← hst', h]), fun hno => ?_⟩
      have := hno ⟨HapiCall.CommitGeo node, true⟩ (by simp)
      simp [HapiCall.isCommitGeo] at this
    · intro Calls hc
      rw [h] at hc
      cases hc
  · refine ⟨pre ++ mid ++ [⟨HapiCall.CommitGeo node, false⟩],
      by rw [h]; simp [LayerStep.Calls], ?_, ?_, ?_⟩
    · constructor
      · intro _
        exact ⟨HapiCall.CommitGeo node, by simp, Or.inl rfl⟩
      · intro _
        exact ⟨_, h⟩
    · intro st' hst'
      rw [h] at hst'
      cases hst'
    · intro Calls hc
      exact (hloop _ h).2 Calls (by rw [← hc, h])
  · refine ⟨pre ++ mid ++ [⟨HapiCall.CommitGeo node, true⟩,
        ⟨HapiCall.ConnectNodeInput MergeId st.MergeInputIndex node 0, true⟩],
      by rw [h]; simp [LayerStep.Calls], ?_, ?_, ?_⟩
    · constructor
      · rintro ⟨Calls, hc⟩
        rw [h] at hc
        cases hc
      · rintro ⟨c, hc, _⟩
        simp [List.getLast?_append] at hc
    · intro st' hst'
      refine ⟨(hloop _ h).1 st' (by rw [← hst', h]), fun hno => ?_⟩
      have := hno ⟨HapiCall.CommitGeo node, true⟩ (by simp)
      simp [HapiCall.isCommitGeo] at this
    · intro Calls hc
      rw [h] at hc
      cases hc
  · refine ⟨pre ++ mid ++ [⟨HapiCall.CommitGeo node, true⟩,
        ⟨HapiCall.ConnectNodeInput MergeId st.MergeInputIndex node 0, false⟩],
      by rw [h]; simp [LayerStep.Calls], ?_, ?_, ?_⟩
    · constructor
      · intro _
        exact ⟨HapiCall.ConnectNodeInput MergeId st.MergeInputIndex node 0,
          by simp [List.getLast?_append], Or.inr rfl⟩
      · intro _
        exact ⟨_, h⟩
    · intro st' hst'
      rw [h] at hst'
      cases hst'
    · intro Calls hc
      exact (hloop _ h).2 Calls (by rw [← hc, h])

theorem layer_failure_policy_witness :
    ∃ new : List HapiEvent,
      (layerBody exampleHeightfieldConfig exampleCommitFailureSession 2 2 exampleVolumeInfo
        1 3 4 0 (exampleLayer "grass") ⟨[], false, 2⟩).Calls = [] ++ new ∧
      new.getLast? = some ⟨HapiCall.CommitGeo 10, false⟩ := by
  obtain ⟨new, h, _⟩ := layer_failure_policy exampleHeightfieldConfig
    exampleCommitFailureSession 2 2 exampleVolumeInfo 1 3 4 0 (exampleLayer "grass")
    ⟨[], false, 2⟩
  refine ⟨new, h, ?_⟩
  have hl : (layerBody exampleHeightfieldConfig exampleCommitFailureSession 2 2
      exampleVolumeInfo 1 3 4 0 (exampleLayer "grass") ⟨[], false, 2⟩).Calls.getLast?
      = some ⟨HapiCall.CommitGeo 10, false⟩ := by decide!
  rw [h] at hl
  simpa using hl

/-! ### Heightfield export: call ordering -/

theorem connectsFollowCommits_nil : ConnectsFollowCommits [] := by
  intro k e n i c o h
  simp at h

theorem connectsFollowCommits_append (A B : List HapiEvent) (hA : ConnectsFollowCommits A)
    (hB : ∀ e ∈ B, (!e.call.isConnectNodeInput) = true) : ConnectsFollowCommits (A ++ B) := by
  intro k e n i c o hk hcall
  by_cases hlt : k < A.length
  · rw [List.getElem?_append_left hlt] at hk
    obtain ⟨j, rfl, hj⟩ := hA k e n i c o hk hcall
    exact ⟨j, rfl, by rw [List.getElem?_append_left (by omega)]; exact hj⟩
  · rw [List.getElem?_append_right (by omega)] at hk
    have := hB e (List.getElem?_mem hk)
    rw [hcall] at this
    simp [HapiCall.isConnectNodeInput] at this

theorem connectsFollowCommits_issuesOnly {A B : List HapiEvent}
    (hA : ConnectsFollowCommits A) (h : IssuesOnly (fun c => !c.isConnectNodeInput) A B) :
    ConnectsFollowCommits B := by
  obtain ⟨n, rfl, hn⟩ := h
  exact connectsFollowCommits_append A n hA hn

theorem connectsFollowCommits_connect (A : List HapiEvent) (hA : ConnectsFollowCommits A)
    (n i c o : Int) (ok : Bool) :
    ConnectsFollowCommits
      (A ++ [⟨HapiCall.CommitGeo c, true⟩, ⟨HapiCall.ConnectNodeInput n i c o, ok⟩]) := by
  intro k e n' i' c' o' hk hcall
  by_cases hlt : k < A.length
  · rw [List.getElem?_append_left hlt] at hk
    obtain ⟨j, rfl, hj⟩ := hA k e n' i' c' o' hk hcall
    exact ⟨j, rfl, by rw [List.getElem?_append_left (by omega)]; exact hj⟩
  · rw [List.getElem?_append_right (by omega)] at hk
    obtain ⟨d, hd⟩ : ∃ d, k = A.length + d := ⟨k - A.length, by omega⟩
    subst hd
    simp only [Nat.add_sub_cancel_left] at hk
    match d, hk with
    | 0, hk =>
      simp at hk
      subst hk
      simp at hcall
    | 1, hk =>
      simp at hk
      subst hk
      simp only [HapiCall.ConnectNodeInput.injEq] at hcall
      obtain ⟨_, _, rfl, _⟩ := hcall
      exact ⟨A.length, rfl, by rw [List.getElem?_append_right (le_refl _)]; simp⟩
    | d + 2, hk => simp at hk

theorem layerLoop_connectsFollowCommits (Cfg : HeightfieldConfig) (E : HeightfieldSession)
    (XSize YSize : Int) (Info : HAPI_VolumeInfo) (HeightFieldId MaskId MergeId PartId : Int) :
    ∀ (Layers : List LandscapeLayer) (st : LayerLoopState),
      ConnectsFollowCommits st.Calls →
      ConnectsFollowCommits
        (layerLoop Cfg E XSize YSize Info HeightFieldId MaskId MergeId PartId Layers
          st).Calls := by
  intro Layers
  induction Layers with
  | nil =>
    intro st h
    simpa [layerLoop, LayerStep.Calls] using h
  | cons Layer rest ih =>
    intro st hst
    obtain ⟨node, pre, mid, hpre, _, hmid, hshape⟩ :=
      layerBody_shape Cfg E XSize YSize Info HeightFieldId MaskId MergeId PartId Layer st
    have hquiet : ConnectsFollowCommits (st.Calls ++ pre ++ mid) := by
      apply connectsFollowCommits_append _ _
        (connectsFollowCommits_append _ _ hst ?_)
        (fun e he => volumeCall_not_connect node _ (hmid e he))
      intro e he
      rcases hpre with rfl | ⟨name, ok, rfl⟩
      · simp at he
      · simp only [List.mem_singleton] at he
        subst he
        simp [HapiCall.isConnectNodeInput]
    have hcommit : ∀ ok, ConnectsFollowCommits
        (st.Calls ++ pre ++ mid ++ [⟨HapiCall.CommitGeo node, ok⟩]) := by
      intro ok
      apply connectsFollowCommits_append _ _ hquiet
      intro e he
      simp only [List.mem_singleton] at he
      subst he
      simp [HapiCall.isConnectNodeInput]
    simp only [layerLoop]
    rcases hshape with h | ⟨_, h⟩ | h | ⟨_, h⟩ | ⟨_, h⟩
    · rw [h]
      exact ih _ hquiet
    · rw [h]
      exact ih _ (hcommit true)
    · rw [h]
      exact hcommit false
    · rw [h]
      exact ih _ (connectsFollowCommits_connect _ hquiet _ _ _ _ _)
    · rw [h]
      exact connectsFollowCommits_connect _ hquiet _ _ _ _ _

theorem finishHeightfield_ok (E : HeightfieldSession) (Info : HAPI_VolumeInfo)
    (CenterOffset : FVector) (HeightFieldId MaskId PartId Created : Int)
    (st : LayerLoopState)
    (h : (finishHeightfield E Info CenterOffset HeightFieldId MaskId PartId Created st).ok
      = true) :
    (finishHeightfield E Info CenterOffset HeightFieldId MaskId PartId Created st).Calls.getLast?
      = some ⟨HapiCall.HapiCookNode
          (finishHeightfield E Info CenterOffset HeightFieldId MaskId PartId Created
            st).CreatedHeightfieldNodeId, true⟩ := by
  unfold finishHeightfield at h ⊢
  dsimp only at h ⊢
  generalize (if (!st.MaskInitialized) = true then
        (E.CommitGeo
            (addVolumeAttributes E MaskId PartId true
              (InitDefaultHeightfieldMask E Info MaskId st.Calls).2) MaskId,
          logCall
            (addVolumeAttributes E MaskId PartId true
              (InitDefaultHeightfieldMask E Info MaskId st.Calls).2)
            (HapiCall.CommitGeo MaskId)
            (E.CommitGeo
              (addVolumeAttributes E MaskId PartId true
                (InitDefaultHeightfieldMask E Info MaskId st.Calls).2) MaskId))
      else (true, st.Calls)) = masked at h ⊢
  split at h
  · cases h
  · rename_i hm
    simp only [hm, if_false] at h ⊢
    split at h
    · cases h
    · rename_i hc
      simp only [hc, if_false]
      have hc2 := hc
      simp at hc2
      simp [logCall, hc2]

/-- C23, as stated, fails: in the run on the landscape with the layers
`grass`, a layer without data, `Mask` and `rock`, with every engine call
succeeding, the `CommitGeo` of the volume node 22 of `grass` is call number 24
and the `ConnectNodeInput` that wires node 22 into the merge node is call
number 25, after the commit; no `CommitGeo` of node 22 follows the wiring. -/
theorem connect_comes_after_commit :
    (CreateHeightfieldFromLandscape exampleHeightfieldConfig exampleSuccessSession
      (some exampleLayeredProxy) (-1) "landscape").ok = true ∧
    (CreateHeightfieldFromLandscape exampleHeightfieldConfig exampleSuccessSession
      (some exampleLayeredProxy) (-1) "landscape").Calls[24]?
      = some ⟨HapiCall.CommitGeo 22, true⟩ ∧
    (CreateHeightfieldFromLandscape exampleHeightfieldConfig exampleSuccessSession
      (some exampleLayeredProxy) (-1) "landscape").Calls[25]?
      = some ⟨HapiCall.ConnectNodeInput 4 2 22 0, true⟩ ∧
    ((CreateHeightfieldFromLandscape exampleHeightfieldConfig exampleSuccessSession
      (some exampleLayeredProxy) (-1) "landscape").Calls.drop 26).all
        (fun e => decide (e.call ≠ HapiCall.CommitGeo 22)) = true := by
  refine ⟨by decide!, by decide!, by decide!, by decide!⟩

/-- C23, amended: in every run of `CreateHeightfieldFromLandscape`, the call
issued right before a `ConnectNodeInput` is the successful `CommitGeo` of the
volume node that the `ConnectNodeInput` wires into the merge node (the commit
comes first, the wiring second); and in a run that returns true the last call
is the cook of the created heightfield node, so every `CommitGeo` of the run
is issued before that final cook. -/
theorem commit_before_connect_and_cook (Cfg : HeightfieldConfig) (E : HeightfieldSession)
    (LandscapeProxy : Option ALandscapeProxy) (Created : Int) (InputNodeNameStr : String) :
    (∀ (k : Nat) (e : HapiEvent) (n i c o : Int),
      (CreateHeightfieldFromLandscape Cfg E LandscapeProxy Created InputNodeNameStr).Calls[k]?
        = some e →
      e.call = HapiCall.ConnectNodeInput n i c o →
      ∃ j, k = j + 1 ∧
        (CreateHeightfieldFromLandscape Cfg E LandscapeProxy Created InputNodeNameStr).Calls[j]?
          = some ⟨HapiCall.CommitGeo c, true⟩) ∧
    ((CreateHeightfieldFromLandscape Cfg E LandscapeProxy Created InputNodeNameStr).ok = true →
      (CreateHeightfieldFromLandscape Cfg E LandscapeProxy Created
          InputNodeNameStr).Calls.getLast?
        = some ⟨HapiCall.HapiCookNode
            (CreateHeightfieldFromLandscape Cfg E LandscapeProxy Created
              InputNodeNameStr).CreatedHeightfieldNodeId, true⟩ ∧
      ∀ (k : Nat) (e : HapiEvent) (n : Int),
        (CreateHeightfieldFromLandscape Cfg E LandscapeProxy Created InputNodeNameStr).Calls[k]?
          = some e →
        e.call = HapiCall.CommitGeo n →
        k + 1 < (CreateHeightfieldFromLandscape Cfg E LandscapeProxy Created
          InputNodeNameStr).Calls.length) := by
  have hlast : ∀ (Calls : List HapiEvent) (node : Int),
      Calls.getLast? = some ⟨HapiCall.HapiCookNode node, true⟩ →
      ∀ (k : Nat) (e : HapiEvent) (n : Int), Calls[k]? = some e →
        e.call = HapiCall.CommitGeo n → k + 1 < Calls.length := by
    intro Calls node hl k e n hk hcall
    have hklt : k < Calls.length := by
      by_contra hge
      rw [List.getElem?_eq_none (by omega)] at hk
      cases hk
    by_contra hnot
    have hk1 : k = Calls.length - 1 := by omega
    rw [List.getLast?_eq_getElem?, ← hk1, hk] at hl
    cases hl
    simp at hcall
  rcases CreateHeightfieldFromLandscape_shape Cfg E LandscapeProxy Created InputNodeNameStr
    with ⟨h, hok⟩ | ⟨XSize, YSize, Info, CenterOffset, HeightFieldId, MaskId, MergeId, Layers,
      Calls0, h0, hloop⟩
  · refine ⟨connectsFollowCommits_issuesOnly connectsFollowCommits_nil h, fun hk => ?_⟩
    rw [hok] at hk
    cases hk
  · have hinv := layerLoop_connectsFollowCommits Cfg E XSize YSize Info HeightFieldId MaskId
      MergeId 0 Layers { Calls := Calls0, MaskInitialized := false, MergeInputIndex := 2 }
      (connectsFollowCommits_issuesOnly connectsFollowCommits_nil h0)
    rcases hloop with ⟨Calls, hl, hr⟩ | ⟨st, hl, hr⟩
    · rw [hl] at hinv
      rw [hr]
      exact ⟨hinv, fun hk => by cases hk⟩
    · rw [hl] at hinv
      rw [hr]
      refine ⟨connectsFollowCommits_issuesOnly hinv
        (finishHeightfield_calls E Info CenterOffset HeightFieldId MaskId 0 Created st),
        fun hk => ?_⟩
      have hf := finishHeightfield_ok E Info CenterOffset HeightFieldId MaskId 0 Created st hk
      exact ⟨hf, hlast _ _ hf⟩

theorem commit_before_connect_and_cook_witness :
    ∃ j, 25 = j + 1 ∧
      (CreateHeightfieldFromLandscape exampleHeightfieldConfig exampleSuccessSession
        (some exampleLayeredProxy) (-1) "landscape").Calls[j]?
        = some ⟨HapiCall.CommitGeo 22, true⟩ :=
  (commit_before_connect_and_cook exampleHeightfieldConfig exampleSuccessSession
    (some exampleLayeredProxy) (-1) "landscape").1 25
    ⟨HapiCall.ConnectNodeInput 4 2 22 0, true⟩ 4 2 22 0 (by decide!) rfl

/-! ### Heightfield codecs: the zero level -/

/-- C28, the height codec at the sample 32768: for every transform it decodes
to the Z position offset plus one spacing step, and it is the sample 32767
that decodes to the Z position offset. On a 2 x 2 landscape of samples 32768
with the default scale at the origin, `ConvertLandscapeDataToHeightfieldData`
gives four values `512 / 65535`, not the Z position offset 0. -/
theorem zero_level_sample_is_32767 :
    (∀ T : FTransform, heightValue T 32768 = ZPositionOffset T + ZSpacing T) ∧
    (∀ T : FTransform, heightValue T 32767 = ZPositionOffset T) ∧
    ZPositionOffset exampleDefaultScaleTransform = 0 ∧
    (ConvertLandscapeDataToHeightfieldData false exampleTransformInit
        [32768, 32768, 32768, 32768] 2 2 ⟨0, 0, 0⟩ ⟨100, 100, 0⟩
        exampleDefaultScaleTransform exampleVolumeInfo).map
      (fun d => d.HeightfieldFloatValues)
      = some [512 / 65535, 512 / 65535, 512 / 65535, 512 / 65535] := by
  refine ⟨?_, ?_, ?_, ?_⟩
  · intro T
    simp only [heightValue, ZCenterOffset]
    norm_num
    ring
  · intro T
    simp only [heightValue, ZCenterOffset]
    norm_num
  · norm_num [ZPositionOffset, exampleDefaultScaleTransform]
  · decide!

/-! ### Attribute accessor: index safety of the string reader -/

theorem stringHandleLoop_overrun (f : Int → String) :
    ∀ (handles : List Int) (Idx : Nat) (st : StringLoopState),
      Idx ≤ st.OutData.length → st.OutData.length < Idx + handles.length →
      stringHandleLoop f Idx handles st
        = Outcome.rangeError st.OutData.length st.OutData.length := by
  intro handles
  induction handles with
  | nil =>
    intro Idx st h1 h2
    simp at h2
    omega
  | cons h rest ih =>
    intro Idx st h1 h2
    have key : ∀ (v : String) (g : List String → StringLoopState),
        (∀ l, (g l).OutData = l) →
        (setChecked st.OutData Idx v).bind
            (fun OutData => stringHandleLoop f (Idx + 1) rest (g OutData))
          = Outcome.rangeError st.OutData.length st.OutData.length := by
      intro v g hg
      unfold setChecked
      by_cases hlt : Idx < st.OutData.length
      · rw [if_pos hlt]
        simp only [Outcome.bind]
        have hlen : (g (st.OutData.set Idx v)).OutData.length = st.OutData.length := by
          rw [hg, List.length_set]
        rw [ih (Idx + 1) _ (by rw [hlen]; omega)
          (by rw [hlen]; simp only [List.length_cons] at h2; omega), hlen]
      · rw [if_neg hlt]
        have : Idx = st.OutData.length := by omega
        rw [this]
        rfl
    unfold stringHandleLoop
    split
    · exact key "" (fun l => { st with OutData := l }) (fun _ => rfl)
    · split
      · exact key _ (fun l => { st with OutData := l }) (fun _ => rfl)
      · exact key _ (fun l =>
          { OutData := l
            StringHandleToStringMap := st.StringHandleToStringMap ++ [(h, f h)]
            Resolved := st.Resolved ++ [h] }) (fun _ => rfl)

/-- The string reader on an existing descriptor with `count >= 1` and
`tupleSize >= 2` whose data call succeeds: the call stops at the range check
of the write `OutData[count]`, the output array having `count` elements. -/
theorem HapiGetAttributeDataAsStringFromInfo_overrun (S : AttributeSession) (g p : Int)
    (info : HAPI_AttributeInfo) (name : String) (OutData0 : List String)
    (values : Nat → Int) (hex : info.exist = true) (hcount : 1 ≤ info.count)
    (htuple : 2 ≤ info.tupleSize)
    (hdata : S.GetAttributeStringData g p name info 0 info.count = some values) :
    HapiGetAttributeDataAsStringFromInfo S g p info name OutData0
      = Outcome.rangeError info.count.toNat info.count.toNat := by
  unfold HapiGetAttributeDataAsStringFromInfo
  simp only [hex, Bool.not_true, Bool.false_eq_true, if_false, hdata]
  have hlen : (SetNum OutData0 info.count.toNat "").length = info.count.toNat := by
    unfold SetNum
    simp only [List.length_append, List.length_take, List.length_replicate]
    omega
  have hn : info.count.toNat < (info.count * info.tupleSize).toNat := by
    have h1 : info.count * 2 ≤ info.count * info.tupleSize :=
      Int.mul_le_mul_of_nonneg_left htuple (by omega)
    omega
  rw [stringHandleLoop_overrun S.ToFString _ 0 _ (Nat.zero_le _)
    (by simp only [hlen, List.length_map, List.length_range]; omega)]
  simp only [hlen]
  rfl

theorem HapiGetAttributeDataAsStringFromInfo_overrun_witness :
    HapiGetAttributeDataAsStringFromInfo exampleAttributeSession 0 0
        (exampleGetAttributeInfo "S" 1) "S" [] = Outcome.rangeError 2 2 :=
  HapiGetAttributeDataAsStringFromInfo_overrun exampleAttributeSession 0 0
    (exampleGetAttributeInfo "S" 1) "S" [] (fun i => 5 + ((i % 2 : Nat) : Int))
    (by decide) (by decide) (by decide) rfl

/-- C29, the string reader on the existing string attribute `S` (count 2,
tuple size 3 as reported by the engine): the handle buffer has 6 entries, the
output array 2, and the call stops at the range check of the write at index
2. The same happens when the tuple size 2 is set through the override. -/
theorem string_output_index_out_of_range :
    (exampleGetAttributeInfo "S" 1).exist = true ∧
    (exampleGetAttributeInfo "S" 1).count = 2 ∧
    (exampleGetAttributeInfo "S" 1).tupleSize = 3 ∧
    HapiGetAttributeDataAsStringFromInfo exampleAttributeSession 0 0
        (exampleGetAttributeInfo "S" 1) "S" [] = Outcome.rangeError 2 2 ∧
    HapiGetAttributeDataAsString exampleAttributeSession 0 0 "S" exampleAttributeInfoInit 0
        HAPI_ATTROWNER_INVALID = Outcome.rangeError 2 2 ∧
    HapiGetAttributeDataAsString exampleAttributeSession 0 0 "S" exampleAttributeInfoInit 2
        HAPI_ATTROWNER_INVALID = Outcome.rangeError 2 2 := by
  refine ⟨by decide, by decide, by decide, by decide, by decide, by decide⟩

/-! ### Tag sanitization: idempotence -/

theorem bIsValid_replace (c : Char) : bIsValid (if bIsValid c then c else '_') = true := by
  by_cases h : bIsValid c = true
  · rw [if_pos h]; exact h
  · rw [if_neg h]; decide

theorem map_replace_idem (s : List Char) :
    (s.map fun c => if bIsValid c then c else '_').map
        (fun c => if bIsValid c then c else '_')
      = s.map fun c => if bIsValid c then c else '_' := by
  rw [List.map_map]
  apply List.map_congr_left
  intro c _
  simp only [Function.comp]
  rw [if_pos (bIsValid_replace c)]

/-- C30: `SanitizeHAPIVariableName` is idempotent on every character array: a
second call returns what the first call returned and leaves the string as the
first call left it. After a call that returns true every element of the array
passes the validity test of the function (ASCII letter, digit, underscore or
the terminator) and the first element is not a digit, so the second call
replaces nothing and inserts nothing. -/
theorem SanitizeHAPIVariableName_idempotent (String : FString) :
    SanitizeHAPIVariableName (SanitizeHAPIVariableName String).2
      = SanitizeHAPIVariableName String ∧
    ((SanitizeHAPIVariableName String).1 = true →
      (∀ c ∈ (SanitizeHAPIVariableName String).2.Data, bIsValid c = true) ∧
      (∀ c ∈ (SanitizeHAPIVariableName String).2.Data.head?,
        ¬ ('0' ≤ c ∧ c ≤ '9'))) := by
  obtain ⟨Data⟩ := String
  cases Data with
  | nil => exact ⟨rfl, fun h => by simp [SanitizeHAPIVariableName] at h⟩
  | cons c s =>
    have hc := bIsValid_replace c
    have hs := map_replace_idem s
    have hu : bIsValid '_' = true := by decide
    have hud : ¬ ('0' ≤ '_' ∧ '_' ≤ '9') := by decide
    have hmem : ∀ x ∈ (s.map fun c => if bIsValid c then c else '_'), bIsValid x = true := by
      intro x hx
      obtain ⟨d, _, rfl⟩ := List.mem_map.1 hx
      exact bIsValid_replace d
    simp only [SanitizeHAPIVariableName, List.length_cons, List.map_cons]
    generalize (if bIsValid c = true then c else '_') = c2 at hc
    generalize (s.map fun c => if bIsValid c then c else '_') = t at hs hmem
    by_cases hd : '0' ≤ c2 ∧ c2 ≤ '9'
    · simp only [hd, and_self, if_true, List.length_cons, List.map_cons, hu, hc, hs, hud,
        if_false, Nat.le_zero_eq, Nat.add_one_ne_zero, true_and]
      refine fun _ => ⟨?_, ?_⟩
      · intro x hx
        rcases List.mem_cons.1 hx with rfl | hx
        · exact hu
        · rcases List.mem_cons.1 hx with rfl | hx
          · exact hc
          · exact hmem x hx
      · intro x hx
        simp only [List.head?_cons, Option.mem_def, Option.some.injEq] at hx
        subst hx
        exact hud
    · simp only [hd, if_false, List.length_cons, List.map_cons, hc, hs, if_true,
        Nat.le_zero_eq, Nat.add_one_ne_zero, true_and]
      refine fun _ => ⟨?_, ?_⟩
      · intro x hx
        rcases List.mem_cons.1 hx with rfl | hx
        · exact hc
        · exact hmem x hx
      · intro x hx
        simp only [List.head?_cons, Option.mem_def, Option.some.injEq] at hx
        subst hx
        exact hd

theorem SanitizeHAPIVariableName_idempotent_witness :
    SanitizeHAPIVariableName
        (SanitizeHAPIVariableName (FString.ofChars ['2', ' ', 'F', 'a', 's', 't', '!'])).2
      = (true, FString.ofChars ['_', '2', '_', 'F', 'a', 's', 't', '_']) :=
  (SanitizeHAPIVariableName_idempotent
    (FString.ofChars ['2', ' ', 'F', 'a', 's', 't', '!'])).1.trans (by decide)

/-! ### Landscape mesh export: the global materials -/

/-- C27, a landscape with the material `/Game/M_Ground.M_Ground` and the hole
material `/Game/M_Hole.M_Hole`, every engine call succeeding: the function
returns true, the material attribute is written with the material's path
name, and the hole-material attribute is written with the empty string, not
with the hole material's path name. -/
theorem global_hole_material_written_empty :
    exampleMaterialProxy.LandscapeHoleMaterial = some "/Game/M_Hole.M_Hole" ∧
    (AddLandscapeGlobalMaterialAttribute exampleMaterialConfig exampleGeometrySession 7
      (some exampleMaterialProxy) []).1 = true ∧
    stringsWritten "unreal_material"
      (AddLandscapeGlobalMaterialAttribute exampleMaterialConfig exampleGeometrySession 7
        (some exampleMaterialProxy) []).2 = [[some "/Game/M_Ground.M_Ground"]] ∧
    stringsWritten "unreal_material_hole"
      (AddLandscapeGlobalMaterialAttribute exampleMaterialConfig exampleGeometrySession 7
        (some exampleMaterialProxy) []).2 = [[some ""]] := by
  refine ⟨rfl, by decide, by decide, by decide⟩

/-- The hole-material attribute for every landscape: whenever the function
returns true, the one string written to the hole-material attribute is the
empty string, whatever the hole material is, and the one string written to
the material attribute is the material's path name, or the empty string when
there is no material. -/
theorem global_material_strings (Cfg : MaterialConfig) (E : GeometrySession) (NodeId : Int)
    (Proxy : ALandscapeProxy) (Calls : List GeometryEvent)
    (hne : Cfg.HAPI_UNREAL_ATTRIB_MATERIAL ≠ Cfg.HAPI_UNREAL_ATTRIB_MATERIAL_HOLE)
    (h : (AddLandscapeGlobalMaterialAttribute Cfg E NodeId (some Proxy) Calls).1 = true) :
    stringsWritten Cfg.HAPI_UNREAL_ATTRIB_MATERIAL_HOLE
        (AddLandscapeGlobalMaterialAttribute Cfg E NodeId (some Proxy) Calls).2
      = stringsWritten Cfg.HAPI_UNREAL_ATTRIB_MATERIAL_HOLE Calls ++ [[some ""]] ∧
    stringsWritten Cfg.HAPI_UNREAL_ATTRIB_MATERIAL
        (AddLandscapeGlobalMaterialAttribute Cfg E NodeId (some Proxy) Calls).2
      = stringsWritten Cfg.HAPI_UNREAL_ATTRIB_MATERIAL Calls
        ++ [[some (Proxy.LandscapeMaterial.getD "")]] := by
  have hmat : (match Proxy.LandscapeMaterial with
      | some FullMaterialName => FullMaterialName
      | none => "") = Proxy.LandscapeMaterial.getD "" := by
    cases Proxy.LandscapeMaterial <;> rfl
  unfold AddLandscapeGlobalMaterialAttribute at h ⊢
  simp only [issue, hmat] at h ⊢
  split at h
  · cases h
  · rename_i h1
    split at h
    · cases h
    · rename_i h2
      split at h
      · cases h
      · rename_i h3
        split at h
        · cases h
        · rename_i h4
          simp at h1
          simp [h1] at h2
          simp [h1, h2] at h3
          simp [h1, h2, h3] at h4
          simp [stringsWritten, List.filterMap_append, hne, Ne.symm hne, h1, h2, h3, h4]

theorem global_material_strings_witness :
    stringsWritten "unreal_material_hole"
        (AddLandscapeGlobalMaterialAttribute exampleMaterialConfig exampleGeometrySession 7
          (some exampleMaterialProxy) []).2
      = stringsWritten "unreal_material_hole" [] ++ [[some ""]] :=
  (global_material_strings exampleMaterialConfig exampleGeometrySession 7
    exampleMaterialProxy [] (by decide) (by decide)).1

/-! ### Mesh sockets on the host mesh -/

theorem AddMeshSocketsToStaticMesh_loop_spec (H : StaticMeshHost)
    (obj : Nat → UStaticMeshSocket) :
    ∀ (rest : List FHoudiniMeshSocket) (n : Nat) (Sockets : List (Option UStaticMeshSocket)),
      (∀ k, k < rest.length → H.NewObject (n + k) = some (obj (n + k))) →
      AddMeshSocketsToStaticMesh.loop H n rest Sockets
        = Sockets ++ (rest.enumFrom n).map fun p =>
            some (AddMeshSocketsToStaticMesh.newSocket H p.1 p.2 (obj p.1)) := by
  intro rest
  induction rest with
  | nil =>
    intro n Sockets _
    simp [AddMeshSocketsToStaticMesh.loop]
  | cons Entry rest ih =>
    intro n Sockets h
    have h0 := h 0 (by simp)
    simp only [Nat.add_zero] at h0
    simp only [AddMeshSocketsToStaticMesh.loop, h0]
    rw [ih (n + 1) _ (fun k hk => by
      have := h (k + 1) (by simp only [List.length_cons]; omega)
      rw [show n + 1 + k = n + (k + 1) by omega]
      exact this)]
    simp [List.enumFrom_cons]

/-- C24: on a valid mesh (non-null, not pending kill), with the host's
`NewObject` returning a live object `obj n` for every entry `n` of the given
list, the call returns true and the mesh's socket array is: with the clean
flag set, the previous entries that are sockets not marked
imported-at-creation, unchanged and in their order (no previous socket marked
imported-at-creation and no null entry remains); with the clean flag not set,
all previous entries; followed in both cases by one new socket per entry of
the given list, in order, each marked imported-at-creation and carrying the
entry's location, rotation and scale. -/
theorem AddMeshSocketsToStaticMesh_sockets (H : StaticMeshHost) (Mesh : UStaticMesh)
    (AllSockets : List FHoudiniMeshSocket) (CleanImportSockets : Bool)
    (obj : Nat → UStaticMeshSocket)
    (hvalid : Mesh.IsPendingKill = false)
    (hobj : ∀ n, n < AllSockets.length → H.NewObject n = some (obj n)) :
    AddMeshSocketsToStaticMesh H (some Mesh) AllSockets CleanImportSockets
      = (true, some { Mesh with
          Sockets :=
            (if CleanImportSockets then
              Mesh.Sockets.filter fun Socket =>
                match Socket with
                | some S => !S.bSocketCreatedAtImport
                | none => false
            else Mesh.Sockets)
            ++ AllSockets.enum.map fun p =>
              some (AddMeshSocketsToStaticMesh.newSocket H p.1 p.2 (obj p.1)) }) ∧
    (AllSockets.enum.map fun p =>
        some (AddMeshSocketsToStaticMesh.newSocket H p.1 p.2 (obj p.1))).length
      = AllSockets.length ∧
    (∀ (n : Nat) (Entry : FHoudiniMeshSocket), AllSockets[n]? = some Entry →
      ∃ S : UStaticMeshSocket,
        (AllSockets.enum.map fun p =>
          some (AddMeshSocketsToStaticMesh.newSocket H p.1 p.2 (obj p.1)))[n]? = some (some S) ∧
        S.bSocketCreatedAtImport = true ∧
        S.RelativeLocation = Entry.Transform.Translation ∧
        S.RelativeRotation = H.Rotator Entry.Transform.Rotation ∧
        S.RelativeScale = Entry.Transform.Scale3D) ∧
    (∀ k ∈ (Mesh.Sockets.filter fun Socket =>
        match Socket with
        | some S => !S.bSocketCreatedAtImport
        | none => false),
      ∃ S, k = some S ∧ S.bSocketCreatedAtImport = false) := by
  have hfilter : (Mesh.Sockets.filter fun Socket =>
        !(match Socket with
          | some S => S.bSocketCreatedAtImport
          | none => true))
      = Mesh.Sockets.filter fun Socket =>
          match Socket with
          | some S => !S.bSocketCreatedAtImport
          | none => false := by
    apply List.filter_congr
    intro x _
    cases x <;> rfl
  refine ⟨?_, by simp, ?_, ?_⟩
  · unfold AddMeshSocketsToStaticMesh
    simp only [hvalid, Bool.false_eq_true, if_false, hfilter]
    by_cases hlen : AllSockets.length ≤ 0
    · have hnil : AllSockets = [] := List.length_eq_zero.mp (by omega)
      subst hnil
      simp
    · rw [if_neg hlen,
        AddMeshSocketsToStaticMesh_loop_spec H obj AllSockets 0 _
          (fun k hk => by simpa using hobj k hk)]
      rfl
  · intro n Entry hn
    refine ⟨AddMeshSocketsToStaticMesh.newSocket H n Entry (obj n), ?_, rfl, rfl, rfl, rfl⟩
    rw [List.getElem?_map, List.enum, List.getElem?_enumFrom, hn]
    simp
  · intro k hk
    rw [List.mem_filter] at hk
    obtain ⟨_, hk⟩ := hk
    cases k with
    | none => simp at hk
    | some S => exact ⟨S, rfl, by simpa using hk⟩

theorem AddMeshSocketsToStaticMesh_sockets_witness :
    AddMeshSocketsToStaticMesh exampleStaticMeshHost (some exampleStaticMesh)
        [exampleHiltSocket, exampleSocket0] true
      = (true, some { exampleStaticMesh with
          Sockets :=
            [some { exampleNewSocket with SocketName := "manual" },
              some { exampleNewSocket with SocketName := "grip" },
              some { exampleNewSocket with
                SocketName := "hilt", bSocketCreatedAtImport := true },
              some { exampleNewSocket with
                SocketName := "Socket 1", bSocketCreatedAtImport := true }] }) :=
  (AddMeshSocketsToStaticMesh_sockets exampleStaticMeshHost exampleStaticMesh
    [exampleHiltSocket, exampleSocket0] true (fun _ => exampleNewSocket) rfl
    (fun _ _ => rfl)).1.trans (by decide)

/-! ### Landscape mesh export: the quad index list -/

theorem setChecked_append {α : Type} (pre l : List α) (k : Nat) (v : α) (hk : k < l.length) :
    setChecked (pre ++ l) (pre.length + k) v = Outcome.done (pre ++ l.set k v) := by
  unfold setChecked
  rw [if_pos (by simp only [List.length_append]; omega)]
  congr 1
  rw [List.set_append_right _ _ (by omega)]
  simp

theorem quadBody_spec (Total : Nat) (b : Bool) (Q c y x : Nat) (st : MeshIndexState)
    (pre rest : List Int) (hinv : MeshInv Total st pre rest) (hrest : 4 ≤ rest.length) :
    ∃ st', quadBody b ((c : Int) * (((Q : Int) + 1) * ((Q : Int) + 1))) ((Q : Int) + 1) y x st
        = Outcome.done st' ∧
      MeshInv Total st' (pre ++ quadCorners Q c y x) (rest.drop 4) := by
  obtain ⟨hL, htot, hpre, hv, hfm, hfh, hw⟩ := hinv
  obtain ⟨r0, r1, r2, r3, tail, rfl⟩ : ∃ r0 r1 r2 r3 tail, rest = r0 :: r1 :: r2 :: r3 :: tail := by
    match rest, hrest with
    | r0 :: r1 :: r2 :: r3 :: tail, _ => exact ⟨r0, r1, r2, r3, tail, rfl⟩
  simp only [List.length_cons] at htot
  have hq1 : st.QuadIdx < st.FaceMaterials.length := by omega
  have hq2 : st.QuadIdx < st.FaceHoleMaterials.length := by omega
  have hs1 : setChecked st.FaceMaterials st.QuadIdx st.MaterialRawStr
      = Outcome.done (st.FaceMaterials.set st.QuadIdx st.MaterialRawStr) := by
    simp [setChecked, hq1]
  have hs2 : setChecked st.FaceHoleMaterials st.QuadIdx st.MaterialHoleRawStr
      = Outcome.done (st.FaceHoleMaterials.set st.QuadIdx st.MaterialHoleRawStr) := by
    simp [setChecked, hq2]
  unfold quadBody
  rw [hL, ← hpre, setChecked_append pre _ 0 _ (by simp)]
  simp only [Outcome.bind, List.set_cons_zero]
  rw [setChecked_append pre _ 1 _ (by simp)]
  simp only [Outcome.bind, List.set_cons_succ, List.set_cons_zero]
  rw [setChecked_append pre _ 2 _ (by simp)]
  simp only [Outcome.bind, List.set_cons_succ, List.set_cons_zero]
  rw [setChecked_append pre _ 3 _ (by simp)]
  simp only [Outcome.bind, List.set_cons_succ, List.set_cons_zero, hs1, hs2]
  have hcorners : pre ++
      ((c : Int) * (((Q : Int) + 1) * ((Q : Int) + 1)) + ((x : Int) + 0)
          + ((y : Int) + 0) * ((Q : Int) + 1)) ::
        ((c : Int) * (((Q : Int) + 1) * ((Q : Int) + 1)) + ((x : Int) + 1)
          + ((y : Int) + 0) * ((Q : Int) + 1)) ::
        ((c : Int) * (((Q : Int) + 1) * ((Q : Int) + 1)) + ((x : Int) + 1)
          + ((y : Int) + 1) * ((Q : Int) + 1)) ::
        ((c : Int) * (((Q : Int) + 1) * ((Q : Int) + 1)) + ((x : Int) + 0)
          + ((y : Int) + 1) * ((Q : Int) + 1)) :: tail
      = (pre ++ quadCorners Q c y x) ++ List.drop 4 (r0 :: r1 :: r2 :: r3 :: tail) := by
    simp only [quadCorners, cornerIndex, List.drop_succ_cons, List.drop_zero]
    push_cast
    simp only [List.append_assoc, List.cons_append, List.nil_append, add_zero, add_assoc]
  have hlen4 : (quadCorners Q c y x).length = 4 := rfl
  have hdrop : (List.drop 4 (r0 :: r1 :: r2 :: r3 :: tail)).length = tail.length := by simp
  have hrange : List.range pre.length
      ++ [pre.length + 0, pre.length + 1, pre.length + 2, pre.length + 3]
      = List.range (pre.length + 4) := by
    rw [show pre.length + 4 = pre.length + 1 + 1 + 1 + 1 by omega]
    simp only [List.range_succ, List.append_assoc, List.cons_append, List.nil_append, add_zero]
  cases b
  · refine ⟨_, rfl, ?_⟩
    refine ⟨hcorners, ?_, ?_, ?_, hfm, hfh, ?_⟩
    · rw [List.length_append, hlen4, hdrop]; omega
    · rw [List.length_append, hlen4]
    · simp only; omega
    · simp only [hw, ← hpre]; exact hrange
  · refine ⟨_, rfl, ?_⟩
    refine ⟨hcorners, ?_, ?_, ?_, ?_, ?_, ?_⟩
    · rw [List.length_append, hlen4, hdrop]; omega
    · rw [List.length_append, hlen4]
    · simp only; omega
    · simp only [List.length_set]; exact hfm
    · simp only [List.length_set]; exact hfh
    · simp only [hw, ← hpre]; exact hrange

theorem forLoop_spec {σ : Type} (body : Nat → σ → Outcome σ)
    (Inv : σ → List Int → List Int → Prop) (block : Nat → List Int) (m : Nat)
    (hbody : ∀ i st pre rest, Inv st pre rest → m ≤ rest.length →
      ∃ st', body i st = Outcome.done st' ∧ Inv st' (pre ++ block i) (rest.drop m)) :
    ∀ (n a : Nat) (st : σ) (pre rest : List Int), Inv st pre rest → m * n ≤ rest.length →
      ∃ st', forLoop body (List.range' a n) st = Outcome.done st' ∧
        Inv st' (pre ++ (List.range' a n).flatMap block) (rest.drop (m * n)) := by
  intro n
  induction n with
  | zero =>
    intro a st pre rest hinv _
    exact ⟨st, rfl, by simpa using hinv⟩
  | succ n ih =>
    intro a st pre rest hinv hlen
    have hm : m ≤ rest.length := by
      have : m * (n + 1) = m * n + m := by ring
      omega
    obtain ⟨st1, h1, hinv1⟩ := hbody a st pre rest hinv hm
    obtain ⟨st2, h2, hinv2⟩ := ih (a + 1) st1 (pre ++ block a) (rest.drop m) hinv1
      (by
        rw [List.length_drop]
        have : m * (n + 1) = m * n + m := by ring
        omega)
    refine ⟨st2, ?_, ?_⟩
    · rw [List.range'_succ, forLoop, h1]
      exact h2
    · rw [List.range'_succ, List.flatMap_cons, ← List.append_assoc]
      rw [List.drop_drop] at hinv2
      rw [show m * (n + 1) = m + m * n by ring]
      exact hinv2

theorem componentBody_spec (Total : Nat) (b : Bool) (Q : Nat) (Selected : List Nat)
    (c : Nat) (Component : ULandscapeComponent) (st : MeshIndexState) (pre rest : List Int)
    (hsel : Selected.contains c = true)
    (hinv : MeshInv Total st pre rest) (hrest : 4 * Q * Q ≤ rest.length) :
    ∃ st', componentBody b (Q : Int) Selected c Component st = Outcome.done st' ∧
      MeshInv Total st'
        (pre ++ (List.range Q).flatMap fun y =>
          (List.range Q).flatMap fun x => quadCorners Q c y x)
        (rest.drop (4 * Q * Q)) := by
  unfold componentBody
  simp only [hsel, Bool.not_true, Bool.false_eq_true, if_false, Int.toNat_ofNat]
  have hrow : ∀ (y : Nat) (st : MeshIndexState) (pre rest : List Int),
      MeshInv Total st pre rest → 4 * Q ≤ rest.length →
      ∃ st', forLoop
          (quadBody b ((c : Int) * (((Q : Int) + 1) * ((Q : Int) + 1))) ((Q : Int) + 1) y)
          (List.range Q) st = Outcome.done st' ∧
        MeshInv Total st' (pre ++ (List.range Q).flatMap fun x => quadCorners Q c y x)
          (rest.drop (4 * Q)) := by
    intro y st pre rest hinv hlen
    rw [List.range_eq_range']
    exact forLoop_spec _ (MeshInv Total) (fun x => quadCorners Q c y x) 4
      (fun x st pre rest h1 h2 => quadBody_spec Total b Q c y x st pre rest h1 h2)
      Q 0 st pre rest hinv hlen
  have hst : MeshInv Total
      (if b = true then
        { st with
          MaterialRawStr :=
            match Component.OverrideMaterial with
            | some Name => some Name
            | none => st.MaterialRawStr
          MaterialHoleRawStr :=
            match Component.OverrideHoleMaterial with
            | some Name => some Name
            | none => st.MaterialHoleRawStr }
      else st) pre rest := by
    cases b
    · exact hinv
    · exact hinv
  have := forLoop_spec _ (MeshInv Total)
    (fun y => (List.range Q).flatMap fun x => quadCorners Q c y x) (4 * Q)
    (fun y st pre rest h1 h2 => hrow y st pre rest h1 h2) Q 0 _ pre rest hst hrest
  rw [← List.range_eq_range'] at this
  exact this

theorem componentLoop_spec (Total : Nat) (b : Bool) (Q : Nat) (Selected : List Nat) :
    ∀ (Components : List ULandscapeComponent) (c : Nat) (st : MeshIndexState)
      (pre rest : List Int),
      (∀ k, k < Components.length → Selected.contains (c + k) = true) →
      MeshInv Total st pre rest → 4 * Q * Q * Components.length ≤ rest.length →
      ∃ st', componentLoop b (Q : Int) Selected c Components st = Outcome.done st' ∧
        MeshInv Total st'
          (pre ++ (List.range' c Components.length).flatMap fun c =>
            (List.range Q).flatMap fun y =>
              (List.range Q).flatMap fun x => quadCorners Q c y x)
          (rest.drop (4 * Q * Q * Components.length)) := by
  intro Components
  induction Components with
  | nil =>
    intro c st pre rest _ hinv _
    exact ⟨st, rfl, by simpa using hinv⟩
  | cons Component Components ih =>
    intro c st pre rest hsel hinv hlen
    simp only [List.length_cons] at hlen hsel ⊢
    have hm : 4 * Q * Q ≤ rest.length := by
      have : 4 * Q * Q * (Components.length + 1) = 4 * Q * Q * Components.length + 4 * Q * Q := by
        ring
      omega
    obtain ⟨st1, h1, hinv1⟩ := componentBody_spec Total b Q Selected c Component st pre rest
      (by simpa using hsel 0 (by omega)) hinv hm
    obtain ⟨st2, h2, hinv2⟩ := ih (c + 1) st1 _ (rest.drop (4 * Q * Q))
      (fun k hk => by
        have := hsel (k + 1) (by omega)
        rw [show c + 1 + k = c + (k + 1) by omega]
        exact this)
      hinv1
      (by
        rw [List.length_drop]
        have : 4 * Q * Q * (Components.length + 1) = 4 * Q * Q * Components.length + 4 * Q * Q := by
          ring
        omega)
    refine ⟨st2, ?_, ?_⟩
    · rw [componentLoop, h1]
      exact h2
    · rw [List.range'_succ, List.flatMap_cons, ← List.append_assoc]
      rw [List.drop_drop] at hinv2
      rw [show 4 * Q * Q * (Components.length + 1)
        = 4 * Q * Q + 4 * Q * Q * Components.length by ring]
      exact hinv2

theorem uploadFaceStrings_calls (Cfg : MaterialConfig) (E : GeometrySession) (NodeId : Int)
    (Name : String) (Faces : List (Option String)) (Calls : List GeometryEvent) :
    ∃ new, (uploadFaceStrings Cfg E NodeId Name Faces Calls).2 = Calls ++ new := by
  unfold uploadFaceStrings
  split
  · dsimp only [issue]
    split
    · exact ⟨_, rfl⟩
    · exact ⟨_, by rw [List.append_assoc]⟩
  · exact ⟨[], by simp⟩

theorem AddLandscapeMeshIndicesAndMaterialsAttribute_tail (Cfg : MaterialConfig)
    (E : GeometrySession) (NodeId : Int) (b : Bool) (ComponentSizeQuads QuadCount : Int)
    (Proxy : ALandscapeProxy) (Selected : List Nat) (Calls : List GeometryEvent)
    (st : MeshIndexState) (hq : 0 ≤ QuadCount)
    (hloop : componentLoop b ComponentSizeQuads Selected 0 Proxy.LandscapeComponents
      { LandscapeIndices := List.replicate (QuadCount * 4).toNat 0
        FaceMaterials := List.replicate QuadCount.toNat none
        FaceHoleMaterials := List.replicate QuadCount.toNat none
        VertIdx := 0, QuadIdx := 0, MaterialRawStr := none, MaterialHoleRawStr := none
        Written := [] } = Outcome.done st) :
    ∃ r, AddLandscapeMeshIndicesAndMaterialsAttribute Cfg E NodeId b ComponentSizeQuads
        QuadCount (some Proxy) Selected Calls = Outcome.done r ∧
      r.LandscapeIndices = st.LandscapeIndices ∧ r.Written = st.Written ∧
      r.FaceMaterials = st.FaceMaterials ∧ r.FaceHoleMaterials = st.FaceHoleMaterials ∧
      ∃ okv tail,
        r.Calls = Calls ++
          ⟨GeometryCall.SetVertexList NodeId 0 st.LandscapeIndices 0
            st.LandscapeIndices.length, okv⟩ :: tail ∧
        (okv = true → ∃ okf tail2,
          tail = ⟨GeometryCall.SetFaceCounts NodeId 0 (List.replicate QuadCount.toNat 4) 0
            (List.replicate QuadCount.toNat (4 : Int)).length, okf⟩ :: tail2) := by
  unfold AddLandscapeMeshIndicesAndMaterialsAttribute
  simp only [show ¬ (QuadCount * 4 < 0) by omega, if_false, hloop, Outcome.bind, issue]
  generalize E.status Calls (GeometryCall.SetVertexList NodeId 0 st.LandscapeIndices 0
    st.LandscapeIndices.length) = okv
  cases okv with
  | false =>
    exact ⟨_, rfl, rfl, rfl, rfl, rfl, false, [], rfl, fun h => by cases h⟩
  | true =>
    simp only [Bool.not_true, Bool.false_eq_true, if_false]
    generalize E.status
      (Calls ++ [⟨GeometryCall.SetVertexList NodeId 0 st.LandscapeIndices 0
        st.LandscapeIndices.length, true⟩])
      (GeometryCall.SetFaceCounts NodeId 0 (List.replicate QuadCount.toNat 4) 0
        (List.replicate QuadCount.toNat (4 : Int)).length) = okf
    cases okf with
    | false =>
      exact ⟨_, rfl, rfl, rfl, rfl, rfl, true, _, List.append_assoc _ _ _,
        fun _ => ⟨false, [], rfl⟩⟩
    | true =>
      simp only [Bool.not_true, Bool.false_eq_true, if_false]
      cases b with
      | false =>
        exact ⟨_, rfl, rfl, rfl, rfl, rfl, true, _, List.append_assoc _ _ _,
          fun _ => ⟨true, [], rfl⟩⟩
      | true =>
        simp only [if_true]
        obtain ⟨n1, hn1⟩ := uploadFaceStrings_calls Cfg E NodeId
          Cfg.HAPI_UNREAL_ATTRIB_MATERIAL st.FaceMaterials
          (Calls ++ [⟨GeometryCall.SetVertexList NodeId 0 st.LandscapeIndices 0
              st.LandscapeIndices.length, true⟩] ++
            [⟨GeometryCall.SetFaceCounts NodeId 0 (List.replicate QuadCount.toNat 4) 0
              (List.replicate QuadCount.toNat (4 : Int)).length, true⟩])
        generalize uploadFaceStrings Cfg E NodeId Cfg.HAPI_UNREAL_ATTRIB_MATERIAL
          st.FaceMaterials
          (Calls ++ [⟨GeometryCall.SetVertexList NodeId 0 st.LandscapeIndices 0
              st.LandscapeIndices.length, true⟩] ++
            [⟨GeometryCall.SetFaceCounts NodeId 0 (List.replicate QuadCount.toNat 4) 0
              (List.replicate QuadCount.toNat (4 : Int)).length, true⟩]) = u1 at hn1 ⊢
        obtain ⟨ok1, calls1⟩ := u1
        simp only at hn1 ⊢
        subst hn1
        cases ok1 with
        | false =>
          exact ⟨_, rfl, rfl, rfl, rfl, rfl, true, _ :: n1, by simp,
            fun _ => ⟨true, n1, rfl⟩⟩
        | true =>
          simp only [Bool.not_true, Bool.false_eq_true, if_false]
          obtain ⟨n2, hn2⟩ := uploadFaceStrings_calls Cfg E NodeId
            Cfg.HAPI_UNREAL_ATTRIB_MATERIAL_HOLE st.FaceHoleMaterials
            (Calls ++ [⟨GeometryCall.SetVertexList NodeId 0 st.LandscapeIndices 0
                st.LandscapeIndices.length, true⟩] ++
              [⟨GeometryCall.SetFaceCounts NodeId 0 (List.replicate QuadCount.toNat 4) 0
                (List.replicate QuadCount.toNat (4 : Int)).length, true⟩] ++ n1)
          generalize uploadFaceStrings Cfg E NodeId Cfg.HAPI_UNREAL_ATTRIB_MATERIAL_HOLE
            st.FaceHoleMaterials
            (Calls ++ [⟨GeometryCall.SetVertexList NodeId 0 st.LandscapeIndices 0
                st.LandscapeIndices.length, true⟩] ++
              [⟨GeometryCall.SetFaceCounts NodeId 0 (List.replicate QuadCount.toNat 4) 0
                (List.replicate QuadCount.toNat (4 : Int)).length, true⟩] ++ n1)
            = u2 at hn2 ⊢
          obtain ⟨ok2, calls2⟩ := u2
          simp only at hn2 ⊢
          subst hn2
          cases ok2 with
          | false =>
            exact ⟨_, rfl, rfl, rfl, rfl, rfl, true, _ :: (n1 ++ n2), by simp,
              fun _ => ⟨true, n1 ++ n2, rfl⟩⟩
          | true =>
            exact ⟨_, rfl, rfl, rfl, rfl, rfl, true, _ :: (n1 ++ n2), by simp,
              fun _ => ⟨true, n1 ++ n2, rfl⟩⟩

theorem cornerIndex_bounds (N Q c x y : Nat) (hc : c < N) (hx : x ≤ Q) (hy : y ≤ Q) :
    0 ≤ cornerIndex Q c x y ∧
      cornerIndex Q c x y < (N : Int) * (((Q : Int) + 1) * ((Q : Int) + 1)) := by
  unfold cornerIndex
  have hc1 : (c : Int) + 1 ≤ (N : Int) := by exact_mod_cast hc
  have hx1 : (x : Int) ≤ (Q : Int) := by exact_mod_cast hx
  have hy1 : (y : Int) ≤ (Q : Int) := by exact_mod_cast hy
  have hc0 : (0 : Int) ≤ (c : Int) := Int.natCast_nonneg c
  have hx0 : (0 : Int) ≤ (x : Int) := Int.natCast_nonneg x
  have hy0 : (0 : Int) ≤ (y : Int) := Int.natCast_nonneg y
  have hQ0 : (0 : Int) ≤ (Q : Int) := Int.natCast_nonneg Q
  constructor
  · positivity
  · have h1 : (y : Int) * ((Q : Int) + 1) ≤ (Q : Int) * ((Q : Int) + 1) :=
      mul_le_mul_of_nonneg_right hy1 (by omega)
    have h2 : ((c : Int) + 1) * (((Q : Int) + 1) * ((Q : Int) + 1))
        ≤ (N : Int) * (((Q : Int) + 1) * ((Q : Int) + 1)) :=
      mul_le_mul_of_nonneg_right hc1 (by positivity)
    nlinarith

theorem quadCorners_nodup (Q c y x : Nat) (hQ : 1 ≤ Q) : (quadCorners Q c y x).Nodup := by
  have hQ1 : (1 : Int) ≤ (Q : Int) := by exact_mod_cast hQ
  have e1 : cornerIndex Q c (x + 1) y = cornerIndex Q c x y + 1 := by
    unfold cornerIndex; push_cast; ring
  have e2 : cornerIndex Q c (x + 1) (y + 1) = cornerIndex Q c x y + 1 + ((Q : Int) + 1) := by
    unfold cornerIndex; push_cast; ring
  have e3 : cornerIndex Q c x (y + 1) = cornerIndex Q c x y + ((Q : Int) + 1) := by
    unfold cornerIndex; push_cast; ring
  unfold quadCorners
  rw [e1, e2, e3]
  generalize cornerIndex Q c x y = i
  simp only [List.nodup_cons, List.mem_cons, List.mem_singleton, List.not_mem_nil,
    List.nodup_nil, not_or, and_true, not_false_eq_true]
  refine ⟨⟨?_, ?_, ?_⟩, ⟨?_, ?_⟩, ?_⟩ <;> omega

theorem mem_quadIndexList (N Q : Nat) (v : Int) (hv : v ∈ quadIndexList N Q) :
    ∃ c y x, c < N ∧ y < Q ∧ x < Q ∧ v ∈ quadCorners Q c y x := by
  simp only [quadIndexList, List.mem_flatMap, List.mem_range] at hv
  obtain ⟨c, hc, y, hy, x, hx, hmem⟩ := hv
  exact ⟨c, y, x, hc, hy, hx, hmem⟩

/-- C26: for a landscape of `N` components (any `N`), all selected, with `Q >= 1` quads
per component side, `AddLandscapeMeshIndicesAndMaterialsAttribute` called
with `QuadCount = N * Q * Q` returns (no write leaves its array), having
assigned every slot `0 .. 4 * N * Q * Q - 1` of the vertex list exactly once,
in order. The vertex list, which is what the first call `SetVertexList`
passes to the engine, is the list `quadIndexList N Q`: component after
component, row after row, quad after quad, the four grid corners `(x, y)`,
`(x+1, y)`, `(x+1, y+1)`, `(x, y+1)` of the quad in its own component. It has
`4 * N * Q * Q` entries, each in `[0, N * (Q+1) * (Q+1))`, and the four
corners of a quad are pairwise distinct. When `SetVertexList` succeeds the
next call passes a face-count list of `N * Q * Q` entries, all 4. -/
theorem quad_index_list (Cfg : MaterialConfig) (E : GeometrySession) (NodeId : Int)
    (bExportMaterials : Bool) (N Q : Nat) (Proxy : ALandscapeProxy)
    (SelectedComponents : List Nat) (Calls : List GeometryEvent)
    (hQ : 1 ≤ Q) (hcomp : Proxy.LandscapeComponents.length = N)
    (hsel : ∀ c, c < N → SelectedComponents.contains c = true) :
    ∃ r, AddLandscapeMeshIndicesAndMaterialsAttribute Cfg E NodeId bExportMaterials (Q : Int)
        ((N * Q * Q : Nat) : Int) (some Proxy) SelectedComponents Calls = Outcome.done r ∧
      r.LandscapeIndices = quadIndexList N Q ∧
      r.LandscapeIndices.length = 4 * N * Q * Q ∧
      r.Written = List.range (4 * N * Q * Q) ∧
      (∀ v ∈ r.LandscapeIndices,
        0 ≤ v ∧ v < (N : Int) * (((Q : Int) + 1) * ((Q : Int) + 1))) ∧
      (∀ c y x, c < N → y < Q → x < Q → (quadCorners Q c y x).Nodup) ∧
      ∃ okv tail,
        r.Calls = Calls ++
          ⟨GeometryCall.SetVertexList NodeId 0 (quadIndexList N Q) 0
            ((4 * N * Q * Q : Nat) : Int), okv⟩ :: tail ∧
        (okv = true → ∃ okf tail2,
          tail = ⟨GeometryCall.SetFaceCounts NodeId 0 (List.replicate (N * Q * Q) 4) 0
            ((N * Q * Q : Nat) : Int), okf⟩ :: tail2) := by
  have hcount : (((N * Q * Q : Nat) : Int) * 4).toNat = 4 * N * Q * Q := by
    rw [show ((N * Q * Q : Nat) : Int) * 4 = ((4 * N * Q * Q : Nat) : Int) by push_cast; ring]
    exact Int.toNat_ofNat _
  have hquads : ((N * Q * Q : Nat) : Int).toNat = N * Q * Q := Int.toNat_ofNat _
  obtain ⟨st, hloop, hL, htot, hpre, hvq, _, _, hw⟩ :=
    componentLoop_spec (4 * N * Q * Q) bExportMaterials Q SelectedComponents
      Proxy.LandscapeComponents 0
      { LandscapeIndices := List.replicate (((N * Q * Q : Nat) : Int) * 4).toNat 0
        FaceMaterials := List.replicate ((N * Q * Q : Nat) : Int).toNat none
        FaceHoleMaterials := List.replicate ((N * Q * Q : Nat) : Int).toNat none
        VertIdx := 0, QuadIdx := 0, MaterialRawStr := none, MaterialHoleRawStr := none
        Written := [] }
      [] (List.replicate (((N * Q * Q : Nat) : Int) * 4).toNat 0)
      (fun k hk => by rw [Nat.zero_add]; exact hsel k (by omega))
      ⟨rfl, by rw [List.length_nil, List.length_replicate, hcount, Nat.zero_add], rfl, rfl,
        by show (List.replicate _ _).length * 4 = _
           rw [List.length_replicate, hquads]; ring,
        by show (List.replicate _ _).length * 4 = _
           rw [List.length_replicate, hquads]; ring, rfl⟩
      (by rw [List.length_replicate, hcount, hcomp]; ring_nf; exact le_refl _)
  have hdrop : List.drop (4 * Q * Q * Proxy.LandscapeComponents.length)
      (List.replicate (((N * Q * Q : Nat) : Int) * 4).toNat (0 : Int)) = [] := by
    apply List.drop_eq_nil_of_le
    rw [List.length_replicate, hcount, hcomp]
    ring_nf
    exact le_refl _
  rw [hdrop, List.append_nil, List.nil_append, hcomp, ← List.range_eq_range'] at hL
  rw [hdrop, List.length_nil, Nat.add_zero, List.nil_append, hcomp,
    ← List.range_eq_range'] at htot
  have hLq : st.LandscapeIndices = quadIndexList N Q := hL
  have hlen : st.LandscapeIndices.length = 4 * N * Q * Q := by rw [hLq]; exact htot
  have hvert : st.VertIdx = 4 * N * Q * Q := by
    rw [← hpre, List.nil_append, hcomp, ← List.range_eq_range']
    exact htot
  obtain ⟨r, hr, hrL, hrW, _, _, okv, tail, hcalls, hfaces⟩ :=
    AddLandscapeMeshIndicesAndMaterialsAttribute_tail Cfg E NodeId bExportMaterials (Q : Int)
      ((N * Q * Q : Nat) : Int) Proxy SelectedComponents Calls st (Int.natCast_nonneg _) hloop
  refine ⟨r, hr, hrL.trans hLq, by rw [hrL]; exact hlen, by rw [hrW, hw, hvert], ?_, ?_,
    okv, tail, ?_, ?_⟩
  · intro v hv
    rw [hrL, hLq] at hv
    obtain ⟨c, y, x, hc, hy, hx, hmem⟩ := mem_quadIndexList N Q v hv
    simp only [quadCorners, List.mem_cons, List.mem_singleton, List.not_mem_nil,
      or_false] at hmem
    rcases hmem with rfl | rfl | rfl | rfl
    · exact cornerIndex_bounds N Q c x y hc (by omega) (by omega)
    · exact cornerIndex_bounds N Q c (x + 1) y hc (by omega) (by omega)
    · exact cornerIndex_bounds N Q c (x + 1) (y + 1) hc (by omega) (by omega)
    · exact cornerIndex_bounds N Q c x (y + 1) hc (by omega) (by omega)
  · intro c y x _ _ _
    exact quadCorners_nodup Q c y x hQ
  · rw [hcalls, hlen, hLq]
  · intro hok
    obtain ⟨okf, tail2, ht⟩ := hfaces hok
    refine ⟨okf, tail2, ?_⟩
    rw [ht, hquads, List.length_replicate]

theorem quad_index_list_witness :
    ∃ r, AddLandscapeMeshIndicesAndMaterialsAttribute exampleMaterialConfig
        exampleGeometrySession 7 false 2 8 (some exampleTwoTileProxy) [0, 1] []
        = Outcome.done r ∧
      r.LandscapeIndices
        = [0, 1, 4, 3, 1, 2, 5, 4, 3, 4, 7, 6, 4, 5, 8, 7, 9, 10, 13, 12, 10, 11, 14, 13,
            12, 13, 16, 15, 13, 14, 17, 16] ∧
      r.Written = List.range 32 := by
  obtain ⟨r, hr, hL, _, hW, _⟩ := quad_index_list exampleMaterialConfig
    exampleGeometrySession 7 false 2 2 exampleTwoTileProxy [0, 1] [] (by decide)
    rfl (by decide)
  exact ⟨r, hr, hL.trans (by decide), hW⟩

/-! ### Landscape mesh export: per-face materials -/

/-- C25, a landscape of two selected components of one quad each, materials
exported: the first component has the override material `M_A` and the
override hole material `H_A`, the second has no override. The face of the
second component gets the first component's names, and the two attributes are
uploaded with them. -/
theorem tile_without_override_inherits_material :
    exampleTwoTileProxy.LandscapeComponents = [⟨some "M_A", some "H_A"⟩, ⟨none, none⟩] ∧
    ∃ r, AddLandscapeMeshIndicesAndMaterialsAttribute exampleMaterialConfig
        exampleGeometrySession 7 true 1 2 (some exampleTwoTileProxy) [0, 1] []
        = Outcome.done r ∧
      r.ok = true ∧
      r.FaceMaterials = [some "M_A", some "M_A"] ∧
      r.FaceHoleMaterials = [some "H_A", some "H_A"] ∧
      stringsWritten "unreal_material" r.Calls = [[some "M_A", some "M_A"]] ∧
      stringsWritten "unreal_material_hole" r.Calls = [[some "H_A", some "H_A"]] :=
  ⟨rfl, _, rfl, by decide, by decide, by decide, by decide, by decide⟩

end HoudiniEngine
